import Mathlib

/-!
# Verification of the draw_plot visual plot editor core

Shallow embedding of the editor source (a single PlotEditor class plus five
Command classes) and proofs of the specified properties of its coordinate
transform, command/undo engine, picking color allocator, picking raster and
brace geometry.

Numeric model: the JavaScript source computes with IEEE doubles; this
embedding uses exact arithmetic, the standard idealisation: the rationals
for the affine coordinate transform and the scene/command state, the reals
where the source takes square roots (brace geometry), and naturals/integers
for the 32-bit hash arithmetic of the picking color allocator, with the
wrap-around taken mod 2^32 explicitly.

Object ids are strings in the source (generateId returns an 'obj_...'
string); they are modelled as their list of UTF-16 code units (a
List Nat), which is exactly what charCodeAt iterates over in the color
hash. JSON.stringify equality of two coordinate records of the same shape
is structural equality of the records, which is how it is modelled.
-/

namespace DrawPlot

/-- An object id: the UTF-16 code units of the id string. -/
abbrev ObjId := List Nat

/-- Plot bounds, the plot_bounds record of the PlotEditor constructor. -/
structure PlotBounds where
  x_min : ℚ
  x_max : ℚ
  y_min : ℚ
  y_max : ℚ
deriving DecidableEq

/-- The type tag of a plot object (the six variants of obj.type). -/
inductive ObjType where
  | point
  | line
  | area
  | text
  | brace
  | function
deriving DecidableEq

/-- The three brace styles; brace.style is this or absent (undefined), in
which case drawBrace falls back to the 45deg style. -/
inductive BraceStyle where
  | smooth
  | traditional
  | deg45
deriving DecidableEq

/-- A plot object. The source stores per-variant fields on a plain JS
object; here all geometry slots are present with the source's constructor
defaults, and the fields that the modelled operations never read (color
strings, label fonts, show_coordinates) are omitted: they are written and
read only by the rendering/property-panel glue, never by the command
engine, the picking logic or the geometry modelled below. -/
structure PObj where
  id : ObjId
  type : ObjType
  x : ℚ := 0
  y : ℚ := 0
  x1 : ℚ := 0
  y1 : ℚ := 0
  x2 : ℚ := 0
  y2 : ℚ := 0
  size : ℚ := 5
  width : ℚ := 2
  elevation : ℚ := 0
  mirrored : Bool := false
  style : Option BraceStyle := none
  z_index : Int := 0
deriving DecidableEq

/-- The coordinate bundle returned by getObjectCoordinates: an {x, y} pair
for points and text, an {x1, y1, x2, y2} bundle for lines, areas and
braces, and the empty record for the default case. -/
inductive Coords where
  | pt (x y : ℚ)
  | quad (x1 y1 x2 y2 : ℚ)
  | empty
deriving DecidableEq

/-- A single-field update, the (property, value) payload of a
ModifyObjectCommand. The object's id is not among the settable fields:
the property panel never edits it. -/
inductive FieldUpd where
  | fx (v : ℚ)
  | fy (v : ℚ)
  | fx1 (v : ℚ)
  | fy1 (v : ℚ)
  | fx2 (v : ℚ)
  | fy2 (v : ℚ)
  | fsize (v : ℚ)
  | fwidth (v : ℚ)
  | felevation (v : ℚ)
  | fmirrored (v : Bool)
  | fstyle (v : Option BraceStyle)
  | fz_index (v : Int)
deriving DecidableEq

/-- The five command kinds. The source's command objects hold a reference
to the PlotEditor and (for Modify/Move) to the live object; since every
mutation they perform on that reference is visible only through the
object's id in the editor's list, the embedding stores the id. -/
inductive Cmd where
  | addObject (object : PObj)
  | deleteObject (object : PObj) (object_index : Int)
  | modifyObject (object_id : ObjId) (old_value new_value : FieldUpd)
  | moveObject (object_id : ObjId) (old_coords new_coords : Coords)
  | clearPlot (saved_objects : List PObj) (saved_selection : Option ObjId)
deriving DecidableEq

/-- The dragging_state record (drag_offset is never read and omitted). -/
structure DraggingState where
  is_dragging : Bool := false
  dragged_object : Option ObjId := none
  drag_start_mouse : Option (ℚ × ℚ) := none
  drag_start_coords : Option (ℚ × ℚ) := none
  original_coords : Option Coords := none
deriving DecidableEq

/-- A color value. The source carries colors as the template string
rgb(r,g,b) with each channel printed in decimal; every channel the
program ever builds is at most 255 (enhance_contrast clamps at 255, the
sequential fallback masks single bytes, getImageData returns bytes), and
on such channels the packed number r * 65536 + g * 256 + b is an
injective image of the string: two color strings are equal exactly when
their packed numbers are. The embedding carries the packed number. -/
abbrev ColorKey := Nat

/-- The color string rgb(r,g,b), as its packed number. -/
def rgb (r g b : Nat) : ColorKey := r * 65536 + g * 256 + b

/-- The state of a PlotEditor instance: the fields of the constructor that
the modelled operations read or write. canvas/context handles, UI caches
and the drawing_state of the in-progress line/area/brace gesture are
outside the model. -/
structure PlotEditor where
  plot_bounds : PlotBounds
  canvas_padding : ℚ
  plot_width : ℚ
  plot_height : ℚ
  aspect_ratio : ℚ
  plot_objects : List PObj := []
  selected_object : Option ObjId := none
  current_tool_is_select : Bool := true
  dragging_state : DraggingState := {}
  command_history : List Cmd := []
  current_command_index : Int := -1
  max_history_size : Nat := 50
  object_color_map : List (ColorKey × ObjId) := []
  id_color_map : List (ObjId × ColorKey) := []
  next_color_id : Nat := 1
deriving DecidableEq

/-- The effective drawing geometry both transform directions compute
before applying the affine map. -/
structure EffGeom where
  effective_width : ℚ
  effective_height : ℚ
  x_offset : ℚ
  y_offset : ℚ
deriving DecidableEq

/-- The effective-dimension block at the top of canvasToPlot
(source lines 287-310), verbatim. -/
def effectiveGeometryCanvasToPlot (s : PlotEditor) : EffGeom :=
  let plot_x_range := s.plot_bounds.x_max - s.plot_bounds.x_min
  let plot_y_range := s.plot_bounds.y_max - s.plot_bounds.y_min
  let aspect_ratio := s.aspect_ratio
  let canvas_aspect := s.plot_width / s.plot_height
  let plot_aspect := (plot_x_range * aspect_ratio) / plot_y_range
  if plot_aspect > canvas_aspect then
    { effective_width := s.plot_width
      effective_height := s.plot_width / plot_aspect
      x_offset := 0
      y_offset := (s.plot_height - s.plot_width / plot_aspect) / 2 }
  else
    { effective_width := s.plot_height * plot_aspect
      effective_height := s.plot_height
      x_offset := (s.plot_width - s.plot_height * plot_aspect) / 2
      y_offset := 0 }

/-- The effective-dimension block at the top of plotToCanvas
(source lines 328-351); the source duplicates the canvasToPlot block
character for character, and so does the embedding. -/
def effectiveGeometryPlotToCanvas (s : PlotEditor) : EffGeom :=
  let plot_x_range := s.plot_bounds.x_max - s.plot_bounds.x_min
  let plot_y_range := s.plot_bounds.y_max - s.plot_bounds.y_min
  let aspect_ratio := s.aspect_ratio
  let canvas_aspect := s.plot_width / s.plot_height
  let plot_aspect := (plot_x_range * aspect_ratio) / plot_y_range
  if plot_aspect > canvas_aspect then
    { effective_width := s.plot_width
      effective_height := s.plot_width / plot_aspect
      x_offset := 0
      y_offset := (s.plot_height - s.plot_width / plot_aspect) / 2 }
  else
    { effective_width := s.plot_height * plot_aspect
      effective_height := s.plot_height
      x_offset := (s.plot_width - s.plot_height * plot_aspect) / 2
      y_offset := 0 }

/-- canvasToPlot (source lines 286-319): canvas pixel to plot point. -/
def canvasToPlot (s : PlotEditor) (canvas_x canvas_y : ℚ) : ℚ × ℚ :=
  let g := effectiveGeometryCanvasToPlot s
  let plot_x_range := s.plot_bounds.x_max - s.plot_bounds.x_min
  let plot_y_range := s.plot_bounds.y_max - s.plot_bounds.y_min
  let plot_x :=
    ((canvas_x - s.canvas_padding - g.x_offset) / g.effective_width) * plot_x_range
      + s.plot_bounds.x_min
  let plot_y :=
    s.plot_bounds.y_max
      - ((canvas_y - s.canvas_padding - g.y_offset) / g.effective_height) * plot_y_range
  (plot_x, plot_y)

/-- plotToCanvas (source lines 327-359): plot point to canvas pixel. -/
def plotToCanvas (s : PlotEditor) (plot_x plot_y : ℚ) : ℚ × ℚ :=
  let g := effectiveGeometryPlotToCanvas s
  let plot_x_range := s.plot_bounds.x_max - s.plot_bounds.x_min
  let plot_y_range := s.plot_bounds.y_max - s.plot_bounds.y_min
  let canvas_x :=
    ((plot_x - s.plot_bounds.x_min) / plot_x_range) * g.effective_width
      + s.canvas_padding + g.x_offset
  let canvas_y :=
    s.canvas_padding + g.y_offset
      + (1 - (plot_y - s.plot_bounds.y_min) / plot_y_range) * g.effective_height
  (canvas_x, canvas_y)

/-- getObjectCoordinates (source lines 1588-1600). -/
def getObjectCoordinates (obj : PObj) : Coords :=
  match obj.type with
  | .point | .text => .pt obj.x obj.y
  | .line | .area | .brace => .quad obj.x1 obj.y1 obj.x2 obj.y2
  | .function => .empty

/-- setObjectCoordinates (source lines 1635-1651). The source reads
coords.x(..) fields chosen by obj.type; a coordinate bundle of the other
shape would write undefined into the fields, which no reachable flow does,
and the embedding leaves the object unchanged in that case. -/
def setObjectCoordinates (obj : PObj) (coords : Coords) : PObj :=
  match obj.type, coords with
  | .point, .pt x y | .text, .pt x y => { obj with x := x, y := y }
  | .line, .quad x1 y1 x2 y2 | .area, .quad x1 y1 x2 y2
  | .brace, .quad x1 y1 x2 y2 =>
      { obj with x1 := x1, y1 := y1, x2 := x2, y2 := y2 }
  | _, _ => obj

/-- Application of a ModifyObjectCommand payload to an object
(object[property] = value in the source). -/
def applyFieldUpd (obj : PObj) : FieldUpd → PObj
  | .fx v => { obj with x := v }
  | .fy v => { obj with y := v }
  | .fx1 v => { obj with x1 := v }
  | .fy1 v => { obj with y1 := v }
  | .fx2 v => { obj with x2 := v }
  | .fy2 v => { obj with y2 := v }
  | .fsize v => { obj with size := v }
  | .fwidth v => { obj with width := v }
  | .felevation v => { obj with elevation := v }
  | .fmirrored v => { obj with mirrored := v }
  | .fstyle v => { obj with style := v }
  | .fz_index v => { obj with z_index := v }

/-- Array.prototype.findIndex over the object list, comparing ids
(obj => obj.id === object.id): index of the first match, -1 if none. -/
def jsFindIndexById (l : List PObj) (i : ObjId) : Int :=
  match l with
  | [] => -1
  | o :: t =>
      if o.id = i then 0
      else
        let r := jsFindIndexById t i
        if r = -1 then -1 else r + 1

/-- The insertion position of Array.prototype.splice(idx, 0, item):
clamped to [0, len], counting from the end when idx is negative. -/
def jsSpliceInsertPos (len : Nat) (idx : Int) : Nat :=
  if idx < 0 then ((len : Int) + idx).toNat else min idx.toNat len

/-- splice(idx, 0, item): insert item at the (clamped) position. -/
def jsSpliceInsert (l : List PObj) (idx : Int) (a : PObj) : List PObj :=
  l.insertIdx (jsSpliceInsertPos l.length idx) a

/-- The forward effect (execute) of each command class on the editor.
The updateObjectList/updatePropertiesPanel/redraw calls the source makes
here refresh DOM caches and the canvases and do not change the modelled
scene state; the picking-canvas refresh is modelled separately by
renderPickingCanvas below. -/
def execCmd (command : Cmd) (s : PlotEditor) : PlotEditor :=
  match command with
  | .addObject object =>
      { s with
        plot_objects := s.plot_objects ++ [object]
        selected_object := some object.id }
  | .deleteObject _object object_index =>
      if object_index ≠ -1 then
        { s with
          plot_objects := s.plot_objects.eraseIdx object_index.toNat
          selected_object := none }
      else s
  | .modifyObject object_id _old_value new_value =>
      { s with
        plot_objects := s.plot_objects.map fun o =>
          if o.id = object_id then applyFieldUpd o new_value else o }
  | .moveObject object_id _old_coords new_coords =>
      { s with
        plot_objects := s.plot_objects.map fun o =>
          if o.id = object_id then setObjectCoordinates o new_coords else o }
  | .clearPlot _saved_objects _saved_selection =>
      { s with plot_objects := [], selected_object := none }

/-- The inverse effect (undo) of each command class on the editor. -/
def undoCmd (command : Cmd) (s : PlotEditor) : PlotEditor :=
  match command with
  | .addObject object =>
      let index := jsFindIndexById s.plot_objects object.id
      if index ≠ -1 then
        { s with
          plot_objects := s.plot_objects.eraseIdx index.toNat
          selected_object := none }
      else s
  | .deleteObject object object_index =>
      { s with
        plot_objects := jsSpliceInsert s.plot_objects object_index object
        selected_object := some object.id }
  | .modifyObject object_id old_value _new_value =>
      { s with
        plot_objects := s.plot_objects.map fun o =>
          if o.id = object_id then applyFieldUpd o old_value else o }
  | .moveObject object_id old_coords _new_coords =>
      { s with
        plot_objects := s.plot_objects.map fun o =>
          if o.id = object_id then setObjectCoordinates o old_coords else o }
  | .clearPlot saved_objects saved_selection =>
      { s with plot_objects := saved_objects, selected_object := saved_selection }

/-- DeleteObjectCommand's constructor records the index of the object
at creation time (source line 76). -/
def mkDeleteObjectCommand (s : PlotEditor) (object : PObj) : Cmd :=
  .deleteObject object (jsFindIndexById s.plot_objects object.id)

/-- ClearPlotCommand's constructor snapshots the object list and the
selection at creation time (source lines 167-168). -/
def mkClearPlotCommand (s : PlotEditor) : Cmd :=
  .clearPlot s.plot_objects s.selected_object

/-- executeCommand (source lines 524-545): truncate the redo tail, run the
forward effect, append, advance the cursor, and evict the oldest entry
(shift) when the cap is exceeded. -/
def executeCommand (s : PlotEditor) (command : Cmd) : PlotEditor :=
  let s := { s with
    command_history := s.command_history.take (s.current_command_index + 1).toNat }
  let s := execCmd command s
  let s := { s with
    command_history := s.command_history ++ [command]
    current_command_index := s.current_command_index + 1 }
  if s.command_history.length > s.max_history_size then
    { s with
      command_history := s.command_history.drop 1
      current_command_index := s.current_command_index - 1 }
  else s

/-- undo (source lines 551-558). When the cursor is in range the history
entry exists; the none branch is unreachable then (the JS would fault on
an undefined entry). -/
def undo (s : PlotEditor) : PlotEditor :=
  if 0 ≤ s.current_command_index then
    match s.command_history.get? s.current_command_index.toNat with
    | some command =>
        let s := undoCmd command s
        { s with current_command_index := s.current_command_index - 1 }
    | none => s
  else s

/-- redo (source lines 564-571). -/
def redo (s : PlotEditor) : PlotEditor :=
  if s.current_command_index < (s.command_history.length : Int) - 1 then
    let s := { s with current_command_index := s.current_command_index + 1 }
    match s.command_history.get? s.current_command_index.toNat with
    | some command => execCmd command s
    | none => s
  else s

/-- Executing a list of commands in order. -/
def execAll (s : PlotEditor) (commands : List Cmd) : PlotEditor :=
  commands.foldl executeCommand s

/-- stopDragging (source lines 1543-1581). The source reads the dragged
object through the live reference it captured at pointer-down; in every
reachable state that reference is an element of plot_objects, so the
embedding reads it back by id (and leaves the state unchanged if absent).
The moved test compares JSON.stringify of the two coordinate records,
which for records of equal shape is structural equality. -/
def stopDragging (s : PlotEditor) : PlotEditor :=
  let s1 :=
    match s.dragging_state.is_dragging, s.dragging_state.dragged_object,
        s.dragging_state.original_coords with
    | true, some i, some original_coords =>
        match s.plot_objects.find? (fun (o : PObj) => decide (o.id = i)) with
        | some obj =>
            let current_coords := getObjectCoordinates obj
            let moved := original_coords ≠ current_coords
            if moved then
              let command := Cmd.moveObject i original_coords current_coords
              let s := { s with
                command_history :=
                  s.command_history.take (s.current_command_index + 1).toNat
                    ++ [command]
                current_command_index := s.current_command_index + 1 }
              if s.command_history.length > s.max_history_size then
                { s with
                  command_history := s.command_history.drop 1
                  current_command_index := s.current_command_index - 1 }
              else s
            else s
        | none => s
    | _, _, _ => s
  { s1 with dragging_state := {} }

/-- The area object built by addArea (source lines 817-827). -/
def areaObject (new_id : ObjId) (start_coords end_coords : ℚ × ℚ) : PObj :=
  { type := .area
    id := new_id
    x1 := min start_coords.1 end_coords.1
    y1 := min start_coords.2 end_coords.2
    x2 := max start_coords.1 end_coords.1
    y2 := max start_coords.2 end_coords.2
    z_index := 0 }

/-- addArea (source lines 816-830). generateId's Date/random output is
external nondeterminism and is passed in as new_id. -/
def addArea (s : PlotEditor) (new_id : ObjId) (start_coords end_coords : ℚ × ℚ) :
    PlotEditor :=
  executeCommand s (.addObject (areaObject new_id start_coords end_coords))

/-- ToInt32, the result semantics of the JS bitwise operators: the value
mod 2^32, shifted into the signed band [-2^31, 2^31). -/
def toInt32 (v : Int) : Int := (v + 2147483648).emod 4294967296 - 2147483648

/-- One step of the id hash loop (source line 649):
hash = ((hash << 5) - hash + code) & 0xffffffff on 32-bit values. -/
def hashStep (h c : Int) : Int := toInt32 (toInt32 (h * 32) - h + c)

/-- The deterministic hash of generateUniqueColor (source lines 647-651):
seeded with salt * 31, folded over the id's code units, absolute value. -/
def idHash (object_id : ObjId) (salt : Nat) : Nat :=
  (object_id.foldl (fun h c => hashStep h (c : Int)) ((salt : Int) * 31)).natAbs

/-- enhance_contrast (source lines 659-663); Nat subtraction truncates at
zero exactly like the source's Math.max(0, value - 30). The comparisons
are written with the Bool-valued Nat.blt (bif is the Bool if-then-else):
the JS comparison operators are Bool-valued, and this form is what the
kernel can evaluate at scale. -/
def enhance_contrast (value : Nat) : Nat :=
  bif Nat.blt value 85 then value - 30
  else bif Nat.blt 170 value then min 255 (value + 30)
  else bif Nat.blt value 128 then 30 else 225

/-- generateUniqueColor (source lines 645-670). -/
def generateUniqueColor (object_id : ObjId) (salt : Nat) : ColorKey :=
  let hash := idHash object_id salt
  let r := (hash * 73 + salt * 17) % 256
  let g := (hash * 151 + salt * 37) % 256
  let b := (hash * 233 + salt * 59) % 256
  rgb (enhance_contrast r) (enhance_contrast g) (enhance_contrast b)

/-- generateSequentialColor (source lines 676-685): the monotonic counter
encoded into the R/G/B byte positions, counter bumped. The source's
bitwise masks coincide with these mod/div for every counter value the
session can reach (below 2^31). -/
def generateSequentialColor (s : PlotEditor) : ColorKey × PlotEditor :=
  let color_id := s.next_color_id
  let s := { s with next_color_id := s.next_color_id + 1 }
  (rgb (color_id % 256) (color_id / 256 % 256) (color_id / 65536 % 256), s)

/-- isBackgroundColor (source lines 719-727). -/
def isBackgroundColor (color : ColorKey) : Bool :=
  Nat.beq color (rgb 0 0 0) || Nat.beq color (rgb 255 255 255)
    || Nat.beq color (rgb 240 240 240) || Nat.beq color (rgb 248 249 250)

/-- Map.get on the id -> color map. -/
def lookupColorOfId (m : List (ObjId × ColorKey)) (i : ObjId) : Option ColorKey :=
  match m with
  | [] => none
  | (k, v) :: t => if k = i then some v else lookupColorOfId t i

/-- Map.get on the color -> id map. -/
def lookupIdOfColor (m : List (ColorKey × ObjId)) (c : ColorKey) : Option ObjId :=
  match m with
  | [] => none
  | (k, v) :: t => bif Nat.beq k c then some v else lookupIdOfColor t c

/-- Map.has on the color -> id map. -/
def colorMapHas (m : List (ColorKey × ObjId)) (c : ColorKey) : Bool :=
  (lookupIdOfColor m c).isSome

/-- The collision-retry loop of getObjectColor (source lines 608-620),
written with the remaining attempt budget (1000 - attempts) as fuel:
while the candidate collides with an assigned color or is a background
sentinel, and fewer than 1000 attempts were made, regenerate with the
attempt counter folded in as salt. Returns the final candidate and the
attempt count. -/
def colorRetry (ocm : List (ColorKey × ObjId)) (object_id : ObjId) :
    Nat → ColorKey → Nat → ColorKey × Nat
  | 0, color, attempts => (color, attempts)
  | fuel + 1, color, attempts =>
      bif colorMapHas ocm color || isBackgroundColor color then
        colorRetry ocm object_id fuel
          (generateUniqueColor object_id (attempts + 1)) (attempts + 1)
      else (color, attempts)

/-- getObjectColor (source lines 601-637): memoized lookup, collision
retry up to the 1000-attempt ceiling, sequential fallback past it, and
the bidirectional map insertions. -/
def getObjectColor (s : PlotEditor) (object_id : ObjId) : ColorKey × PlotEditor :=
  match lookupColorOfId s.id_color_map object_id with
  | some color => (color, s)
  | none =>
      let rc := colorRetry s.object_color_map object_id 1000
        (generateUniqueColor object_id 0) 0
      let collision_attempts := rc.2
      bif Nat.ble 1000 collision_attempts then
        let cs := generateSequentialColor s
        (cs.1,
          { cs.2 with
            id_color_map := (object_id, cs.1) :: s.id_color_map
            object_color_map := (cs.1, object_id) :: s.object_color_map })
      else
        (rc.1,
          { s with
            id_color_map := (object_id, rc.1) :: s.id_color_map
            object_color_map := (rc.1, object_id) :: s.object_color_map })

/-- Requesting colors for a list of object ids in order (what a redraw
does for the scene's objects), keeping the final editor state. -/
def assignColors (s : PlotEditor) (ids : List ObjId) : PlotEditor :=
  ids.foldl (fun s i => (getObjectColor s i).2) s

/-- Does this getObjectColor call exhaust the retry ceiling and take the
sequential fallback? -/
def callUsesFallback (s : PlotEditor) (object_id : ObjId) : Bool :=
  match lookupColorOfId s.id_color_map object_id with
  | some _ => false
  | none =>
      1000 ≤ (colorRetry s.object_color_map object_id 1000
        (generateUniqueColor object_id 0) 0).2

/-- No call of the run exhausts the retry ceiling. -/
def noFallbackRun (s : PlotEditor) : List ObjId → Bool
  | [] => true
  | i :: t => !callUsesFallback s i && noFallbackRun (getObjectColor s i).2 t

/-- A fresh editor over a canvas of the given size: the constructor's
initial state (source lines 192-278). -/
def initialEditor (canvas_width canvas_height : ℚ) : PlotEditor :=
  { plot_bounds := ⟨-10, 10, -10, 10⟩
    canvas_padding := 60
    plot_width := canvas_width - 2 * 60
    plot_height := canvas_height - 2 * 60
    aspect_ratio := 1 }

/-- 122 distinct one-character ids, codes 64, 320, ..., 64 + 256 * 121:
all share the residue 64 mod 256, which drives every channel of every
salted hash color, so they walk a single retry chain. -/
def collisionIds : List ObjId := (List.range 122).map fun j => [64 + 256 * j]

/-- The History cursor invariant: cursor ∈ [-1, length - 1]. -/
def cursorInRange (s : PlotEditor) : Prop :=
  -1 ≤ s.current_command_index
    ∧ s.current_command_index ≤ (s.command_history.length : Int) - 1

/-- The Scene selection invariant: the selection, when present, references
a live object of the list. -/
def SelInv (s : PlotEditor) : Prop :=
  ∀ i, s.selected_object = some i → ∃ o ∈ s.plot_objects, o.id = i

/-- Well-formedness of a command value: a Clear snapshot's saved selection
references a live object of its saved list (which holds for every
ClearPlotCommand the program constructs, since it snapshots a state
satisfying the selection invariant); every other command is unconstrained. -/
def WfCmd : Cmd → Prop
  | .clearPlot saved_objects saved_selection =>
      ∀ i, saved_selection = some i → ∃ o ∈ saved_objects, o.id = i
  | _ => True

/-- The coordinates of the object with the given id, read back from the
list the way the drag logic reads its live object reference. -/
def coordsOfId (s : PlotEditor) (i : ObjId) : Option Coords :=
  (s.plot_objects.find? (fun (o : PObj) => decide (o.id = i))).map getObjectCoordinates

/-- Pointwise difference of plane points. -/
def subR (u v : ℝ × ℝ) : ℝ × ℝ := (u.1 - v.1, u.2 - v.2)

/-- The Euclidean inner product of the plane. -/
def dotR (u v : ℝ × ℝ) : ℝ := u.1 * v.1 + u.2 * v.2

/-- Cast a rational device point (the exact value the ℚ transform gives)
into the real plane, where the square-root geometry lives. -/
def toR (q : ℚ × ℚ) : ℝ × ℝ := ((q.1 : ℝ), (q.2 : ℝ))

/-- Device-pixel distance between two canvas points, written exactly like
the source's Math.sqrt(dx * dx + dy * dy). -/
noncomputable def devLength (S E : ℝ × ℝ) : ℝ :=
  Real.sqrt ((E.1 - S.1) * (E.1 - S.1) + (E.2 - S.2) * (E.2 - S.2))

/-- JS a || b on numbers: a when nonzero (truthy), else b. -/
def jsOrQ (a b : ℚ) : ℚ := if a = 0 then b else a

/-- A canvas path command; arc records center, radius, start/end angle
and the counterclockwise flag, exactly the arguments the source passes. -/
inductive PathCmd where
  | moveTo (p : ℝ × ℝ)
  | lineTo (p : ℝ × ℝ)
  | quadraticCurveTo (c p : ℝ × ℝ)
  | arc (center : ℝ × ℝ) (radius start_angle end_angle : ℝ) (ccw : Bool)

/-- Math.atan2(y, x): the argument of the complex number x + i y. -/
noncomputable def jsAtan2 (y x : ℝ) : ℝ := Complex.arg ⟨x, y⟩

/-- The while-loop normalization of ccwForMinorArc (source lines
2793-2798): the unique representative of d modulo 2π in (-π, π], which
is what the two loops compute for any finite d. -/
noncomputable def normalizePi (d : ℝ) : ℝ :=
  d - 2 * Real.pi * ⌈d / (2 * Real.pi) - 1 / 2⌉

open Classical in
/-- ccwForMinorArc (source lines 2793-2798). -/
noncomputable def ccwForMinorArc (a0 a1 : ℝ) : Bool :=
  decide (normalizePi (a1 - a0) < 0)

open Classical in
/-- drawSmoothBrace (source lines 2624-2652): the path commands appended
to the canvas path (strokeStyle/lineWidth styling carries no geometry).
There is no short-length guard in this style; the perpendicular offset
divides by the endpoint distance unconditionally. -/
noncomputable def drawSmoothBrace (s : PlotEditor) (brace : PObj) : List PathCmd :=
  let start_coords := toR (plotToCanvas s brace.x1 brace.y1)
  let end_coords := toR (plotToCanvas s brace.x2 brace.y2)
  let dx := end_coords.1 - start_coords.1
  let dy := end_coords.2 - start_coords.2
  let length := Real.sqrt (dx * dx + dy * dy)
  let brace_elevation :=
    if (brace.elevation : ℝ) ≠ 0 then (brace.elevation : ℝ)
    else if (brace.width : ℝ) ≠ 0 then (brace.width : ℝ)
    else min 20 (length * 0.125)
  let mirror_multiplier : ℝ := bif brace.mirrored then -1 else 1
  let perpX := -dy / length * brace_elevation * mirror_multiplier
  let perpY := dx / length * brace_elevation * mirror_multiplier
  let midX := (start_coords.1 + end_coords.1) / 2
  let midY := (start_coords.2 + end_coords.2) / 2
  [.moveTo start_coords,
   .quadraticCurveTo (midX + perpX, midY + perpY) (midX, midY),
   .quadraticCurveTo (midX + perpX, midY + perpY) end_coords]

open Classical in
/-- drawTraditionalBrace (source lines 2660-2742): guarded on the device
endpoint distance, then the six-segment path. -/
noncomputable def drawTraditionalBrace (s : PlotEditor) (brace : PObj) : List PathCmd :=
  let start_coords := toR (plotToCanvas s brace.x1 brace.y1)
  let end_coords := toR (plotToCanvas s brace.x2 brace.y2)
  let dx := end_coords.1 - start_coords.1
  let dy := end_coords.2 - start_coords.2
  let length := Real.sqrt (dx * dx + dy * dy)
  if length < 20 then []
  else
    let brace_elevation :=
      if (brace.elevation : ℝ) ≠ 0 then (brace.elevation : ℝ)
      else if (brace.width : ℝ) ≠ 0 then (brace.width : ℝ)
      else min (length * 0.125) 20
    let mirror_multiplier : ℝ := bif brace.mirrored then -1 else 1
    let alongUnitX := dx / length
    let alongUnitY := dy / length
    let perpUnitX := -dy / length * mirror_multiplier
    let perpUnitY := dx / length * mirror_multiplier
    let radius := brace_elevation / 2
    let quarter_distance := length / 4
    let p1_pos := radius
    let p2_pos := quarter_distance
    let tip_pos := length / 2
    let p3_pos := length - quarter_distance
    let p4_pos := length - radius
    [.moveTo start_coords,
     .quadraticCurveTo
       (start_coords.1 + perpUnitX * radius, start_coords.2 + perpUnitY * radius)
       (start_coords.1 + alongUnitX * p1_pos + perpUnitX * radius,
        start_coords.2 + alongUnitY * p1_pos + perpUnitY * radius),
     .lineTo
       (start_coords.1 + alongUnitX * p2_pos + perpUnitX * radius,
        start_coords.2 + alongUnitY * p2_pos + perpUnitY * radius),
     .quadraticCurveTo
       (start_coords.1 + alongUnitX * tip_pos + perpUnitX * radius,
        start_coords.2 + alongUnitY * tip_pos + perpUnitY * radius)
       (start_coords.1 + alongUnitX * tip_pos + perpUnitX * brace_elevation,
        start_coords.2 + alongUnitY * tip_pos + perpUnitY * brace_elevation),
     .quadraticCurveTo
       (start_coords.1 + alongUnitX * tip_pos + perpUnitX * radius,
        start_coords.2 + alongUnitY * tip_pos + perpUnitY * radius)
       (start_coords.1 + alongUnitX * p3_pos + perpUnitX * radius,
        start_coords.2 + alongUnitY * p3_pos + perpUnitY * radius),
     .lineTo
       (start_coords.1 + alongUnitX * p4_pos + perpUnitX * radius,
        start_coords.2 + alongUnitY * p4_pos + perpUnitY * radius),
     .quadraticCurveTo
       (end_coords.1 + perpUnitX * radius, end_coords.2 + perpUnitY * radius)
       end_coords]

/-- The inner radius of one half of a 45deg brace (source line 2787):
(elevation || width) picked if truthy and clamped to length / 6, else
length / 6 outright. -/
noncomputable def bInnerR (S E : ℝ × ℝ) (elevation width : ℚ) : ℝ :=
  if elevation ≠ 0 ∨ width ≠ 0 then
    min ((jsOrQ elevation width : ℚ) : ℝ) (devLength S E / 6)
  else devLength S E / 6

/-- The outer radius: inner radius times √2 (source line 2788). -/
noncomputable def bOuterR (S E : ℝ × ℝ) (elevation width : ℚ) : ℝ :=
  bInnerR S E elevation width * Real.sqrt 2

/-- The straight-segment run of a half (source line 2789). -/
noncomputable def bSegLen (S E : ℝ × ℝ) (elevation width : ℚ) : ℝ :=
  max 0 (devLength S E / 2 - 2 * bInnerR S E elevation width)

/-- The local frame point helper pt(s, p) of draw45DegBraceHalf (source
line 2791): S + along * s + perp * p with along the unit direction of SE
and perp the left normal scaled by the mirror multiplier. -/
noncomputable def bPt (S E : ℝ × ℝ) (mm : ℝ) (a p : ℝ) : ℝ × ℝ :=
  let dx := E.1 - S.1
  let dy := E.2 - S.2
  let length := devLength S E
  (S.1 + dx / length * a + -dy / length * mm * p,
   S.2 + dy / length * a + dx / length * mm * p)

/-- The outer arc center C1 = pt(innerR, innerR) (source line 2801). -/
noncomputable def bC1 (S E : ℝ × ℝ) (mm : ℝ) (elevation width : ℚ) : ℝ × ℝ :=
  bPt S E mm (bInnerR S E elevation width) (bInnerR S E elevation width)

/-- P1 = pt(innerR, innerR - outerR), the junction of the outer arc with
the straight segment (source line 2802). -/
noncomputable def bP1 (S E : ℝ × ℝ) (mm : ℝ) (elevation width : ℚ) : ℝ × ℝ :=
  bPt S E mm (bInnerR S E elevation width)
    (bInnerR S E elevation width - bOuterR S E elevation width)

/-- P2 = pt(innerR + segLen, innerR - outerR), the junction of the
straight segment with the inner arc (source line 2803). -/
noncomputable def bP2 (S E : ℝ × ℝ) (mm : ℝ) (elevation width : ℚ) : ℝ × ℝ :=
  bPt S E mm (bInnerR S E elevation width + bSegLen S E elevation width)
    (bInnerR S E elevation width - bOuterR S E elevation width)

/-- The inner arc center C2 = pt(innerR + segLen, -outerR) (source line
2804). -/
noncomputable def bC2 (S E : ℝ × ℝ) (mm : ℝ) (elevation width : ℚ) : ℝ × ℝ :=
  bPt S E mm (bInnerR S E elevation width + bSegLen S E elevation width)
    (-bOuterR S E elevation width)

/-- The midpoint tip PM = pt(length / 2, -outerR) (source line 2805). -/
noncomputable def bPM (S E : ℝ × ℝ) (mm : ℝ) (elevation width : ℚ) : ℝ × ℝ :=
  bPt S E mm (devLength S E / 2) (-bOuterR S E elevation width)

open Classical in
/-- draw45DegBraceHalf (source lines 2775-2818): short halves are skipped
outright; otherwise outer 1/8 arc, straight run, inner 1/4 arc. -/
noncomputable def draw45DegBraceHalf (S E : ℝ × ℝ) (mirrorMultiplier : ℝ)
    (brace : PObj) : List PathCmd :=
  let length := devLength S E
  if length < 20 then []
  else
    let c1 := bC1 S E mirrorMultiplier brace.elevation brace.width
    let p1 := bP1 S E mirrorMultiplier brace.elevation brace.width
    let p2 := bP2 S E mirrorMultiplier brace.elevation brace.width
    let c2 := bC2 S E mirrorMultiplier brace.elevation brace.width
    let pm := bPM S E mirrorMultiplier brace.elevation brace.width
    let outerR := bOuterR S E brace.elevation brace.width
    let innerR := bInnerR S E brace.elevation brace.width
    let a0 := jsAtan2 (S.2 - c1.2) (S.1 - c1.1)
    let a1 := jsAtan2 (p1.2 - c1.2) (p1.1 - c1.1)
    let b0 := jsAtan2 (p2.2 - c2.2) (p2.1 - c2.1)
    let b1 := jsAtan2 (pm.2 - c2.2) (pm.1 - c2.1)
    [.moveTo S,
     .arc c1 outerR a0 a1 (ccwForMinorArc a0 a1),
     .lineTo p2,
     .arc c2 innerR b0 b1 (ccwForMinorArc b0 b1)]

/-- draw45DegBrace (source lines 2752-2766): two halves with flipped
mirror signs. -/
noncomputable def draw45DegBrace (s : PlotEditor) (brace : PObj) : List PathCmd :=
  let start_coords := toR (plotToCanvas s brace.x1 brace.y1)
  let end_coords := toR (plotToCanvas s brace.x2 brace.y2)
  let mm : ℝ := bif brace.mirrored then -1 else 1
  draw45DegBraceHalf start_coords end_coords (-mm) brace
    ++ draw45DegBraceHalf end_coords start_coords mm brace

/-- drawBrace (source lines 2606-2617): style dispatch, defaulting to the
45deg style when the style field is absent. -/
noncomputable def drawBrace (s : PlotEditor) (brace : PObj) : List PathCmd :=
  let brace_style := brace.style.getD .deg45
  if brace_style = .traditional then drawTraditionalBrace s brace
  else if brace_style = .deg45 then draw45DegBrace s brace
  else drawSmoothBrace s brace

/-- A device-space region: the idealised rasterization of one canvas
fill, with antialiasing disabled as the source insists. -/
abbrev Region := ℝ × ℝ → Prop

/-- One fill on the picking canvas: a region painted in one color. -/
structure Paint where
  region : Region
  color : ColorKey

/-- The regions painted by the collaborators the picking renderer
delegates to: canvas text metrics and glyph rasterization
(drawPickingTextBBox / the fillText branch), the stroke rasterization of
the curved brace path (drawPickingBrace), and the math.js-driven sampled
function polyline (drawPickingFunction). These live in the browser and
in math.js, outside this repository's code, and enter the model as
parameters. -/
structure ExtPick where
  textBBoxRegion : PObj → Region
  textShapeRegion : PObj → Region
  braceShapeRegion : PObj → Region
  functionShapeRegion : PObj → Region

/-- The filled disc of context.arc(c, r, 0, 2π) plus fill. -/
def discRegion (c : ℝ × ℝ) (r : ℝ) : Region := fun p =>
  (p.1 - c.1) ^ 2 + (p.2 - c.2) ^ 2 ≤ r ^ 2

/-- fillRect(x, y, w, h) with nonnegative width and height. -/
def rectRegion (x y w h : ℝ) : Region := fun p =>
  x ≤ p.1 ∧ p.1 ≤ x + w ∧ y ≤ p.2 ∧ p.2 ≤ y + h

/-- The filled convex quadrilateral with corners S ± hw·n and E ± hw·n,
n the unit normal of SE (the bbox polygon of drawPickingLineBBox /
drawPickingBraceBBox, and the butt-capped stroke of a straight segment):
as a point set, the rotated rectangle spanned by the segment direction
and its normal. Degenerate segments (zero length) paint nothing. -/
noncomputable def quadRegion (S E : ℝ × ℝ) (hw : ℝ) : Region := fun p =>
  let dx := E.1 - S.1
  let dy := E.2 - S.2
  let L := devLength S E
  let along := (p.1 - S.1) * (dx / L) + (p.2 - S.2) * (dy / L)
  let across := (p.1 - S.1) * (-dy / L) + (p.2 - S.2) * (dx / L)
  0 < L ∧ 0 ≤ along ∧ along ≤ L ∧ |across| ≤ hw

open Classical in
/-- drawPickingBBox (source lines 1749-1772 with the per-type helpers at
1780-1954): the inflated hit regions of pass 1, in fill order. The
switch has no function case, so functions paint no bbox. -/
noncomputable def drawPickingBBox (s : PlotEditor) (ext : ExtPick) (obj : PObj) :
    List Region :=
  match obj.type with
  | .point =>
      [discRegion (toR (plotToCanvas s obj.x obj.y)) ((obj.size : ℝ) + 3)]
  | .text => [ext.textBBoxRegion obj]
  | .line =>
      let S := toR (plotToCanvas s obj.x1 obj.y1)
      let E := toR (plotToCanvas s obj.x2 obj.y2)
      if devLength S E < 1 then []
      else
        let line_width : ℚ := max 8 (jsOrQ obj.width 2 * 4)
        [quadRegion S E ((line_width : ℝ) / 2)]
  | .area =>
      let start_coords := plotToCanvas s obj.x1 obj.y1
      let end_coords := plotToCanvas s obj.x2 obj.y2
      let left : ℚ := min start_coords.1 end_coords.1
      let top : ℚ := min start_coords.2 end_coords.2
      let w : ℚ := |end_coords.1 - start_coords.1|
      let h : ℚ := |end_coords.2 - start_coords.2|
      [rectRegion (left : ℝ) (top : ℝ) (w : ℝ) (h : ℝ)]
  | .brace =>
      let S := toR (plotToCanvas s obj.x1 obj.y1)
      let E := toR (plotToCanvas s obj.x2 obj.y2)
      if devLength S E < 1 then []
      else
        let brace_elevation : ℚ := jsOrQ obj.elevation (jsOrQ obj.width 15) * 2
        [quadRegion S E ((brace_elevation : ℝ) / 2)]
  | .function => []

/-- drawPickingObject (source lines 1962-2014): the true visual shape of
pass 2, in fill order. -/
noncomputable def drawPickingObject (s : PlotEditor) (ext : ExtPick) (obj : PObj) :
    List Region :=
  match obj.type with
  | .point =>
      [discRegion (toR (plotToCanvas s obj.x obj.y)) ((max obj.size 3 : ℚ) : ℝ)]
  | .line =>
      let S := toR (plotToCanvas s obj.x1 obj.y1)
      let E := toR (plotToCanvas s obj.x2 obj.y2)
      let line_width : ℚ := max 2 (jsOrQ obj.width 2)
      [quadRegion S E ((line_width : ℝ) / 2)]
  | .area =>
      let tl := plotToCanvas s obj.x1 obj.y2
      let br := plotToCanvas s obj.x2 obj.y1
      [rectRegion (min tl.1 br.1 : ℚ) (min tl.2 br.2 : ℚ)
        (|br.1 - tl.1| : ℚ) (|br.2 - tl.2| : ℚ)]
  | .text => [ext.textShapeRegion obj]
  | .brace => [ext.braceShapeRegion obj]
  | .function => [ext.functionShapeRegion obj]

/-- Stable insertion into a z-sorted list: an earlier object goes in
front of the later objects of equal z_index. -/
def insertByZ (o : PObj) : List PObj → List PObj
  | [] => [o]
  | x :: t => if o.z_index ≤ x.z_index then o :: x :: t else x :: insertByZ o t

/-- The z-sorted paint order: Array.prototype.sort with comparator
(a, b) => (a.z_index || 0) - (b.z_index || 0), which is a stable
ascending sort (source lines 1724-1725). -/
def sortByZ : List PObj → List PObj
  | [] => []
  | x :: t => insertByZ x (sortByZ t)

/-- Pass 1 of renderPickingCanvas: every object's inflated bbox, painted
in its picking color, threading the color-map state. -/
noncomputable def renderPass1 (ext : ExtPick) : PlotEditor → List PObj →
    List Paint × PlotEditor
  | s, [] => ([], s)
  | s, obj :: rest =>
      let cs := getObjectColor s obj.id
      let paints := (drawPickingBBox cs.2 ext obj).map fun r => Paint.mk r cs.1
      let r := renderPass1 ext cs.2 rest
      (paints ++ r.1, r.2)

/-- Pass 2 of renderPickingCanvas: the true shapes on top, areas skipped
(their pass-1 bbox already covers them exactly). -/
noncomputable def renderPass2 (ext : ExtPick) : PlotEditor → List PObj →
    List Paint × PlotEditor
  | s, [] => ([], s)
  | s, obj :: rest =>
      if obj.type = .area then renderPass2 ext s rest
      else
        let cs := getObjectColor s obj.id
        let paints := (drawPickingObject cs.2 ext obj).map fun r => Paint.mk r cs.1
        let r := renderPass2 ext cs.2 rest
        (paints ++ r.1, r.2)

/-- renderPickingCanvas (source lines 1717-1741): clear, z-sort, pass 1
then pass 2; the raster is the resulting fill log in paint order. -/
noncomputable def renderPickingCanvas (s : PlotEditor) (ext : ExtPick) :
    List Paint × PlotEditor :=
  let sorted_objects := sortByZ s.plot_objects
  let p1 := renderPass1 ext s sorted_objects
  let p2 := renderPass2 ext p1.2 sorted_objects
  (p1.1 ++ p2.1, p2.2)

open Classical in
/-- The color of the topmost fill covering a pixel: later fills paint
over earlier ones; none when the pixel was never painted. -/
noncomputable def lastCoverColor (log : List Paint) (p : ℝ × ℝ) : Option ColorKey :=
  log.foldl (fun acc e => if e.region p then some e.color else acc) none

/-- getObjectIdFromPicking (source lines 693-712): read the pixel (a
cleared canvas reads back as the black sentinel), bail out on background
sentinels, else resolve through the color -> id map; an unmapped color
resolves to none. -/
noncomputable def getObjectIdFromPicking (s : PlotEditor) (log : List Paint)
    (p : ℝ × ℝ) : Option ObjId :=
  let color := (lastCoverColor log p).getD (rgb 0 0 0)
  bif isBackgroundColor color then none
  else lookupIdOfColor s.object_color_map color

/-- Empty external regions: a picking model in which text, brace and
function shapes rasterize to nothing. The concrete scenes below contain
no such objects, so their picking raster is independent of these
oracles. -/
def pickExt : ExtPick :=
  { textBBoxRegion := fun _ _ => False
    textShapeRegion := fun _ _ => False
    braceShapeRegion := fun _ _ => False
    functionShapeRegion := fun _ _ => False }

/-- A point object at the plot origin, z_index 0. -/
def pickPoint : PObj := { id := [97], type := .point, z_index := 0 }

/-- A second point at the same plot position, one z level above. -/
def pickPointB : PObj := { id := [98], type := .point, z_index := 1 }

/-- An area spanning (-5,-5)..(5,5) in plot space, five z levels above
the point. -/
def pickArea : PObj :=
  { id := [98], type := .area, x1 := -5, y1 := -5, x2 := 5, y2 := 5, z_index := 5 }

/-- A 360x360 editor holding the low point and the high area, with the
picking colors already cached the way a previous render leaves them:
rgb(1,0,0) for [97] and rgb(2,0,0) for [98] in both directions of the
bidirectional color map. -/
def pickSceneMix : PlotEditor :=
  { initialEditor 360 360 with
    plot_objects := [pickPoint, pickArea]
    object_color_map := [(rgb 1 0 0, [97]), (rgb 2 0 0, [98])]
    id_color_map := [([97], rgb 1 0 0), ([98], rgb 2 0 0)] }

/-- The same editor with the two stacked points instead of point and
area. -/
def pickScenePts : PlotEditor :=
  { initialEditor 360 360 with
    plot_objects := [pickPoint, pickPointB]
    object_color_map := [(rgb 1 0 0, [97]), (rgb 2 0 0, [98])]
    id_color_map := [([97], rgb 1 0 0), ([98], rgb 2 0 0)] }

/-!
## Theorems

The definitions above embed the source; everything below is proved about
them.
-/

/-- C10: every area object created through addArea has normalized
coordinates: x1 = min(start.x, end.x) ≤ x2 = max(start.x, end.x) and
y1 = min(start.y, end.y) ≤ y2 = max(start.y, end.y) regardless of the
drag direction, and addArea appends exactly that object to the scene. -/
theorem addArea_normalizes_coordinates (s : PlotEditor) (new_id : ObjId)
    (start_coords end_coords : ℚ × ℚ) :
    (addArea s new_id start_coords end_coords).plot_objects
        = s.plot_objects ++ [areaObject new_id start_coords end_coords]
    ∧ (areaObject new_id start_coords end_coords).x1
        = min start_coords.1 end_coords.1
    ∧ (areaObject new_id start_coords end_coords).y1
        = min start_coords.2 end_coords.2
    ∧ (areaObject new_id start_coords end_coords).x2
        = max start_coords.1 end_coords.1
    ∧ (areaObject new_id start_coords end_coords).y2
        = max start_coords.2 end_coords.2
    ∧ (areaObject new_id start_coords end_coords).x1
        ≤ (areaObject new_id start_coords end_coords).x2
    ∧ (areaObject new_id start_coords end_coords).y1
        ≤ (areaObject new_id start_coords end_coords).y2 := by
  refine ⟨?_, rfl, rfl, rfl, rfl, ?_, ?_⟩
  · simp only [addArea, executeCommand, execCmd]
    split <;> rfl
  · exact min_le_of_left_le (le_max_left _ _)
  · exact min_le_of_left_le (le_max_left _ _)

/-- C1: with non-degenerate bounds, a positive aspect ratio and a
non-degenerate padded viewport, canvasToPlot and plotToCanvas are exact
inverses on the whole plane (in particular on every point within the
plot bounds) in both directions, and both directions derive the same
effective width/height and offsets before applying the affine map. The
ℚ model makes the round trip exact; the floating-point program realises
it up to rounding, which is the epsilon the spec allows. -/
theorem canvasToPlot_plotToCanvas_roundtrip (s : PlotEditor)
    (hx : s.plot_bounds.x_min < s.plot_bounds.x_max)
    (hy : s.plot_bounds.y_min < s.plot_bounds.y_max)
    (ha : 0 < s.aspect_ratio)
    (hw : 0 < s.plot_width) (hh : 0 < s.plot_height) :
    (∀ px py, canvasToPlot s (plotToCanvas s px py).1 (plotToCanvas s px py).2
        = (px, py))
    ∧ (∀ cx cy, plotToCanvas s (canvasToPlot s cx cy).1 (canvasToPlot s cx cy).2
        = (cx, cy))
    ∧ effectiveGeometryCanvasToPlot s = effectiveGeometryPlotToCanvas s := by
  have hxr : s.plot_bounds.x_max - s.plot_bounds.x_min ≠ 0 := by linarith
  have hyr : s.plot_bounds.y_max - s.plot_bounds.y_min ≠ 0 := by linarith
  have hpa : (s.plot_bounds.x_max - s.plot_bounds.x_min) * s.aspect_ratio /
      (s.plot_bounds.y_max - s.plot_bounds.y_min) ≠ 0 := by
    have h1 : (s.plot_bounds.x_max - s.plot_bounds.x_min) * s.aspect_ratio ≠ 0 :=
      mul_ne_zero hxr (ne_of_gt ha)
    exact div_ne_zero h1 hyr
  have hwne : s.plot_width ≠ 0 := ne_of_gt hw
  have hhne : s.plot_height ≠ 0 := ne_of_gt hh
  refine ⟨?_, ?_, rfl⟩
  · intro px py
    simp only [canvasToPlot, plotToCanvas, effectiveGeometryCanvasToPlot,
      effectiveGeometryPlotToCanvas]
    split_ifs with hcase
    · refine Prod.ext ?_ ?_ <;> · simp only; field_simp; ring
    · refine Prod.ext ?_ ?_ <;> · simp only; field_simp; ring
  · intro cx cy
    simp only [canvasToPlot, plotToCanvas, effectiveGeometryCanvasToPlot,
      effectiveGeometryPlotToCanvas]
    split_ifs with hcase
    · refine Prod.ext ?_ ?_ <;> · simp only; field_simp; ring
    · refine Prod.ext ?_ ?_ <;> · simp only; field_simp; ring

/-- Witness for C1 at the constructor's editor over an 800 x 600 canvas:
the round trip is exact at a concrete plot point and a concrete pixel. -/
theorem canvasToPlot_plotToCanvas_roundtrip_witness :
    canvasToPlot (initialEditor 800 600)
        (plotToCanvas (initialEditor 800 600) 3 4).1
        (plotToCanvas (initialEditor 800 600) 3 4).2 = (3, 4)
    ∧ plotToCanvas (initialEditor 800 600)
        (canvasToPlot (initialEditor 800 600) 100 200).1
        (canvasToPlot (initialEditor 800 600) 100 200).2 = (100, 200) := by
  have h := canvasToPlot_plotToCanvas_roundtrip (initialEditor 800 600)
    (by norm_num [initialEditor]) (by norm_num [initialEditor])
    (by norm_num [initialEditor]) (by norm_num [initialEditor])
    (by norm_num [initialEditor])
  exact ⟨h.1 3 4, h.2.1 100 200⟩

/-- Re-inserting an element at the index it was erased from restores the
original list. -/
theorem insertIdx_eraseIdx_self (l : List PObj) (n : Nat) (a : PObj)
    (h : l[n]? = some a) : (l.eraseIdx n).insertIdx n a = l := by
  induction l generalizing n with
  | nil => simp at h
  | cons x t ih =>
    cases n with
    | zero =>
      simp only [List.getElem?_cons_zero, Option.some_inj] at h
      subst h
      simp [List.eraseIdx, List.insertIdx]
    | succ m =>
      simp only [List.getElem?_cons_succ] at h
      simp [List.eraseIdx, List.insertIdx_succ_cons, ih m h]

/-- The findIndex model returns the index of the first id match. -/
theorem jsFindIndexById_spec (l : List PObj) (i : ObjId) (n : Nat) (obj : PObj)
    (hget : l[n]? = some obj) (hid : obj.id = i)
    (hfirst : ∀ m, m < n → ∀ o, l[m]? = some o → o.id ≠ i) :
    jsFindIndexById l i = n := by
  induction l generalizing n with
  | nil => simp at hget
  | cons x t ih =>
    cases n with
    | zero =>
      simp only [List.getElem?_cons_zero, Option.some_inj] at hget
      subst hget
      simp [jsFindIndexById, hid]
    | succ m =>
      simp only [List.getElem?_cons_succ] at hget
      have hx : x.id ≠ i := hfirst 0 (Nat.succ_pos m) x (by simp)
      have ht : jsFindIndexById t i = m := by
        refine ih m hget ?_
        intro k hk o hko
        exact hfirst (k + 1) (Nat.succ_lt_succ hk) o (by simpa using hko)
      have hm : (m : Int) ≠ -1 := by omega
      simp only [jsFindIndexById, if_neg hx, ht, if_neg hm]
      push_cast
      ring

/-- C5: undo of a Delete command re-inserts the deleted object at exactly
the index recorded when the command was created (the index of the first
occurrence of its id), so delete-then-undo leaves the object list equal
to the original, not with the object appended at the end. -/
theorem deleteObject_undo_restores_order (s : PlotEditor) (obj : PObj) (n : Nat)
    (hget : s.plot_objects[n]? = some obj)
    (hfirst : ∀ m, m < n → ∀ o, s.plot_objects[m]? = some o → o.id ≠ obj.id) :
    (undoCmd (mkDeleteObjectCommand s obj)
        (execCmd (mkDeleteObjectCommand s obj) s)).plot_objects
      = s.plot_objects
    ∧ (execCmd (mkDeleteObjectCommand s obj) s).plot_objects
      = s.plot_objects.eraseIdx n := by
  have hidx : jsFindIndexById s.plot_objects obj.id = n :=
    jsFindIndexById_spec s.plot_objects obj.id n obj hget rfl hfirst
  have hlen : n < s.plot_objects.length := by
    by_contra hc
    push_neg at hc
    rw [List.getElem?_eq_none hc] at hget
    exact Option.noConfusion hget
  have hne : (n : Int) ≠ -1 := by omega
  constructor
  · simp only [mkDeleteObjectCommand, execCmd, undoCmd, hidx, if_pos hne,
      jsSpliceInsert, jsSpliceInsertPos]
    have h1 : ¬ ((n : Int) < 0) := by omega
    rw [if_neg h1]
    rw [Int.toNat_natCast n]
    have hlen2 : (s.plot_objects.eraseIdx n).length = s.plot_objects.length - 1 :=
      List.length_eraseIdx_of_lt hlen
    have h3 : min n (s.plot_objects.eraseIdx n).length = n := by
      rw [hlen2]
      omega
    rw [h3]
    exact insertIdx_eraseIdx_self s.plot_objects n obj hget
  · simp only [mkDeleteObjectCommand, execCmd, hidx, if_pos hne]
    rw [Int.toNat_natCast n]

/-- Witness for C5: deleting the head of a two-object scene and undoing
restores the original order exactly. -/
theorem deleteObject_undo_restores_order_witness :
    (undoCmd
        (mkDeleteObjectCommand
          { initialEditor 800 600 with
            plot_objects := [{ id := [97], type := .point },
                             { id := [98], type := .line }] }
          { id := [97], type := .point })
        (execCmd
          (mkDeleteObjectCommand
            { initialEditor 800 600 with
              plot_objects := [{ id := [97], type := .point },
                               { id := [98], type := .line }] }
            { id := [97], type := .point })
          { initialEditor 800 600 with
            plot_objects := [{ id := [97], type := .point },
                             { id := [98], type := .line }] })).plot_objects
      = [{ id := [97], type := .point }, { id := [98], type := .line }] :=
  (deleteObject_undo_restores_order
    { initialEditor 800 600 with
      plot_objects := [{ id := [97], type := .point },
                       { id := [98], type := .line }] }
    { id := [97], type := .point } 0 rfl
    (fun m hm => absurd hm (Nat.not_lt_zero m))).1

/-- applyFieldUpd never writes the id field. -/
theorem applyFieldUpd_id (o : PObj) (u : FieldUpd) : (applyFieldUpd o u).id = o.id := by
  cases u <;> rfl

/-- setObjectCoordinates never writes the id field. -/
theorem setObjectCoordinates_id (o : PObj) (c : Coords) :
    (setObjectCoordinates o c).id = o.id := by
  unfold setObjectCoordinates
  split <;> rfl

/-- The splice insertion position is clamped to the list length. -/
theorem jsSpliceInsertPos_le (len : Nat) (idx : Int) : jsSpliceInsertPos len idx ≤ len := by
  unfold jsSpliceInsertPos
  split <;> omega

/-- The inserted element is a member of the spliced list. -/
theorem self_mem_jsSpliceInsert (l : List PObj) (idx : Int) (a : PObj) :
    a ∈ jsSpliceInsert l idx a := by
  unfold jsSpliceInsert
  have h := jsSpliceInsertPos_le l.length idx
  generalize jsSpliceInsertPos l.length idx = k at h
  induction l generalizing k with
  | nil =>
    have : k = 0 := Nat.le_zero.mp h
    subst this
    simp [List.insertIdx]
  | cons x t ih =>
    cases k with
    | zero => simp [List.insertIdx]
    | succ m =>
      simp only [List.insertIdx_succ_cons, List.mem_cons]
      exact Or.inr (ih m (Nat.le_of_succ_le_succ h))

/-- Membership survives any id-preserving pointwise map. -/
theorem selinv_map_general (l : List PObj) (i j : ObjId) (f : PObj → PObj)
    (hf : ∀ o, (f o).id = o.id) (h : ∃ o ∈ l, o.id = i) :
    ∃ o ∈ l.map (fun o => if o.id = j then f o else o), o.id = i := by
  obtain ⟨o, hmem, hid⟩ := h
  refine ⟨if o.id = j then f o else o, List.mem_map_of_mem _ hmem, ?_⟩
  split
  · rw [hf]; assumption
  · assumption

/-- C6: every command's execute and undo preserves the Scene invariant
that the selection, when present, references a live object: the selection
is cleared exactly when its target can be removed (Delete execute, Add
undo with the object found, Clear execute), and undo of a Clear restores
the saved object list and the saved selection verbatim. -/
theorem commands_preserve_selection_invariant (command : Cmd) (s : PlotEditor)
    (hwf : WfCmd command) (hinv : SelInv s) :
    SelInv (execCmd command s) ∧ SelInv (undoCmd command s)
    ∧ (∀ o idx, command = .deleteObject o idx → idx ≠ -1 →
        (execCmd command s).selected_object = none)
    ∧ (∀ o, command = .addObject o →
        (execCmd command s).selected_object = some o.id)
    ∧ (∀ o, command = .addObject o → jsFindIndexById s.plot_objects o.id ≠ -1 →
        (undoCmd command s).selected_object = none)
    ∧ (∀ so sel, command = .clearPlot so sel →
        (execCmd command s).selected_object = none
        ∧ (undoCmd command s).plot_objects = so
        ∧ (undoCmd command s).selected_object = sel) := by
  refine ⟨?_, ?_, ?_, ?_, ?_, ?_⟩
  · -- execute preserves the invariant
    cases command with
    | addObject o =>
      intro i hi
      simp only [execCmd] at hi ⊢
      cases hi
      exact ⟨o, by simp, rfl⟩
    | deleteObject o idx =>
      intro i hi
      simp only [execCmd] at hi ⊢
      by_cases hc : idx ≠ -1
      · rw [if_pos hc] at hi
        exact Option.noConfusion hi
      · rw [if_neg hc] at hi ⊢
        exact hinv i hi
    | modifyObject oid ov nv =>
      intro i hi
      simp only [execCmd] at hi ⊢
      exact selinv_map_general _ i oid _ (fun o => applyFieldUpd_id o nv) (hinv i hi)
    | moveObject oid oc nc =>
      intro i hi
      simp only [execCmd] at hi ⊢
      exact selinv_map_general _ i oid _ (fun o => setObjectCoordinates_id o nc)
        (hinv i hi)
    | clearPlot so sel =>
      intro i hi
      simp only [execCmd] at hi
      exact Option.noConfusion hi
  · -- undo preserves the invariant
    cases command with
    | addObject o =>
      intro i hi
      simp only [undoCmd] at hi ⊢
      by_cases hc : jsFindIndexById s.plot_objects o.id ≠ -1
      · rw [if_pos hc] at hi
        exact Option.noConfusion hi
      · rw [if_neg hc] at hi ⊢
        exact hinv i hi
    | deleteObject o idx =>
      intro i hi
      simp only [undoCmd, Option.some_inj] at hi ⊢
      cases hi
      exact ⟨o, self_mem_jsSpliceInsert s.plot_objects idx o, rfl⟩
    | modifyObject oid ov nv =>
      intro i hi
      simp only [undoCmd] at hi ⊢
      exact selinv_map_general _ i oid _ (fun o => applyFieldUpd_id o ov) (hinv i hi)
    | moveObject oid oc nc =>
      intro i hi
      simp only [undoCmd] at hi ⊢
      exact selinv_map_general _ i oid _ (fun o => setObjectCoordinates_id o oc)
        (hinv i hi)
    | clearPlot so sel =>
      intro i hi
      simp only [undoCmd] at hi
      exact hwf i hi
  · rintro o idx rfl hne
    simp [execCmd, if_pos hne]
  · rintro o rfl
    rfl
  · rintro o rfl hne
    simp [undoCmd, if_pos hne]
  · rintro so sel rfl
    exact ⟨rfl, rfl, rfl⟩

/-- Witness for C6 at a concrete Clear command over a one-point scene
with that point selected: both effects keep the invariant, and undo
restores list and selection verbatim. -/
theorem commands_preserve_selection_invariant_witness :
    SelInv (execCmd (Cmd.clearPlot [{ id := [97], type := .point }] (some [97]))
        { initialEditor 800 600 with
          plot_objects := [{ id := [97], type := .point }]
          selected_object := some [97] })
    ∧ (undoCmd (Cmd.clearPlot [{ id := [97], type := .point }] (some [97]))
        { initialEditor 800 600 with
          plot_objects := [{ id := [97], type := .point }]
          selected_object := some [97] }).selected_object = some [97] := by
  have h := commands_preserve_selection_invariant
    (Cmd.clearPlot [{ id := [97], type := .point }] (some [97]))
    { initialEditor 800 600 with
      plot_objects := [{ id := [97], type := .point }]
      selected_object := some [97] }
    (by intro i hi; cases hi; exact ⟨_, List.mem_singleton_self _, rfl⟩)
    (by intro i hi; cases hi; exact ⟨_, List.mem_singleton_self _, rfl⟩)
  exact ⟨h.1, (h.2.2.2.2.2 _ _ rfl).2.2⟩

/-- The forward effect of a command touches only the scene, never the
history bookkeeping fields. -/
theorem execCmd_preserves_history (c : Cmd) (s : PlotEditor) :
    (execCmd c s).command_history = s.command_history
    ∧ (execCmd c s).current_command_index = s.current_command_index
    ∧ (execCmd c s).max_history_size = s.max_history_size := by
  cases c <;>
    first
    | exact ⟨rfl, rfl, rfl⟩
    | (simp only [execCmd]; split <;> exact ⟨rfl, rfl, rfl⟩)

/-- The inverse effect of a command touches only the scene, never the
history bookkeeping fields. -/
theorem undoCmd_preserves_history (c : Cmd) (s : PlotEditor) :
    (undoCmd c s).command_history = s.command_history
    ∧ (undoCmd c s).current_command_index = s.current_command_index
    ∧ (undoCmd c s).max_history_size = s.max_history_size := by
  cases c <;>
    first
    | exact ⟨rfl, rfl, rfl⟩
    | (simp only [undoCmd]; split <;> exact ⟨rfl, rfl, rfl⟩)

/-- The history bookkeeping of one executeCommand, as one formula:
truncate to the cursor, append, and evict the head when over the cap. -/
theorem executeCommand_history_shape (s : PlotEditor) (c : Cmd) :
    (executeCommand s c).command_history =
      (if (s.command_history.take (s.current_command_index + 1).toNat ++ [c]).length
          > s.max_history_size
       then (s.command_history.take (s.current_command_index + 1).toNat ++ [c]).drop 1
       else s.command_history.take (s.current_command_index + 1).toNat ++ [c])
    ∧ (executeCommand s c).current_command_index =
      (if (s.command_history.take (s.current_command_index + 1).toNat ++ [c]).length
          > s.max_history_size
       then s.current_command_index else s.current_command_index + 1)
    ∧ (executeCommand s c).max_history_size = s.max_history_size := by
  have h := execCmd_preserves_history c
    { s with command_history :=
        s.command_history.take (s.current_command_index + 1).toNat }
  revert h
  simp only [executeCommand]
  generalize execCmd c
    { s with command_history :=
        s.command_history.take (s.current_command_index + 1).toNat } = t
  rintro ⟨h1, h2, h3⟩
  simp only [h1, h2, h3]
  split
  · refine ⟨rfl, ?_, rfl⟩
    show s.current_command_index + 1 - 1 = s.current_command_index
    omega
  · exact ⟨rfl, rfl, rfl⟩

/-- Executing one command from a steady state (cursor at the end, length
within the cap): the new history is the old one plus the command with the
head evicted exactly when the cap was full, and the state is steady again. -/
theorem executeCommand_steady (s : PlotEditor) (c : Cmd)
    (hcur : s.current_command_index = (s.command_history.length : Int) - 1)
    (hlen : s.command_history.length ≤ s.max_history_size)
    (hm : 1 ≤ s.max_history_size) :
    (executeCommand s c).command_history
      = (s.command_history ++ [c]).drop
          (s.command_history.length + 1 - s.max_history_size)
    ∧ (executeCommand s c).current_command_index
      = ((executeCommand s c).command_history.length : Int) - 1
    ∧ (executeCommand s c).command_history.length ≤ s.max_history_size
    ∧ (executeCommand s c).max_history_size = s.max_history_size := by
  obtain ⟨h1, h2, h3⟩ := executeCommand_history_shape s c
  have htake : s.command_history.take (s.current_command_index + 1).toNat
      = s.command_history := by
    have : (s.current_command_index + 1).toNat = s.command_history.length := by
      omega
    rw [this]
    exact List.take_length s.command_history
  rw [htake] at h1 h2
  have hlen1 : (s.command_history ++ [c]).length = s.command_history.length + 1 := by
    simp
  by_cases hcap : s.command_history.length + 1 > s.max_history_size
  · have hfull : s.command_history.length = s.max_history_size := by omega
    have hcond : (s.command_history ++ [c]).length > s.max_history_size := by
      rw [hlen1]; omega
    rw [if_pos hcond] at h1
    rw [if_pos hcond] at h2
    have hdrop : s.command_history.length + 1 - s.max_history_size = 1 := by omega
    refine ⟨by rw [h1, hdrop], ?_, ?_, h3⟩
    · rw [h2, h1, hcur]
      have : ((s.command_history ++ [c]).drop 1).length
          = s.command_history.length := by
        simp
      rw [this]
    · rw [h1]
      have : ((s.command_history ++ [c]).drop 1).length
          = s.command_history.length := by
        simp
      rw [this]
      exact hlen
  · have hcond : ¬ ((s.command_history ++ [c]).length > s.max_history_size) := by
      rw [hlen1]; omega
    rw [if_neg hcond] at h1
    rw [if_neg hcond] at h2
    have hdrop : s.command_history.length + 1 - s.max_history_size = 0 := by omega
    refine ⟨by rw [h1, hdrop, List.drop_zero], ?_, ?_, h3⟩
    · rw [h2, h1, hcur, hlen1]
      push_cast
      ring
    · rw [h1, hlen1]
      omega

/-- Folding executeCommand from a steady state: the final history is the
concatenation with everything before the last max_history_size entries
dropped, and the cursor sits at the end. -/
theorem execAll_steady (cmds : List Cmd) (s : PlotEditor)
    (hcur : s.current_command_index = (s.command_history.length : Int) - 1)
    (hlen : s.command_history.length ≤ s.max_history_size)
    (hm : 1 ≤ s.max_history_size) :
    (execAll s cmds).command_history
      = (s.command_history ++ cmds).drop
          (s.command_history.length + cmds.length - s.max_history_size)
    ∧ (execAll s cmds).current_command_index
      = ((execAll s cmds).command_history.length : Int) - 1
    ∧ (execAll s cmds).command_history.length ≤ s.max_history_size
    ∧ (execAll s cmds).max_history_size = s.max_history_size := by
  induction cmds generalizing s with
  | nil =>
    refine ⟨?_, hcur, hlen, rfl⟩
    simp only [execAll, List.foldl_nil, List.length_nil, Nat.add_zero,
      List.append_nil]
    rw [show s.command_history.length - s.max_history_size = 0 from by omega,
      List.drop_zero]
  | cons c rest ih =>
    obtain ⟨e1, e2, e3, e4⟩ := executeCommand_steady s c hcur hlen hm
    have hstep : execAll s (c :: rest) = execAll (executeCommand s c) rest := rfl
    obtain ⟨i1, i2, i3, i4⟩ := ih (executeCommand s c) e2 (by rw [e4]; exact e3)
      (by rw [e4]; exact hm)
    rw [hstep]
    refine ⟨?_, i2, by rw [e4] at i3; exact i3, by rw [i4, e4]⟩
    rw [i1, e1, e4]
    have hd1le : s.command_history.length + 1 - s.max_history_size
        ≤ (s.command_history ++ [c]).length := by
      simp only [List.length_append, List.length_cons, List.length_nil]
      omega
    rw [← List.drop_append_of_le_length hd1le, List.drop_drop]
    have hlist : s.command_history ++ c :: rest = (s.command_history ++ [c]) ++ rest := by
      simp
    rw [hlist]
    congr 1
    simp only [List.length_drop, List.length_append, List.length_cons,
      List.length_nil]
    omega

/-- executeCommand keeps the cursor in [-1, length - 1]. -/
theorem cursorInRange_executeCommand (s : PlotEditor) (c : Cmd)
    (hm : 1 ≤ s.max_history_size) (h : cursorInRange s) :
    cursorInRange (executeCommand s c) := by
  obtain ⟨h1, h2, h3⟩ := executeCommand_history_shape s c
  obtain ⟨ha, hb⟩ := h
  unfold cursorInRange
  rw [h1, h2]
  have hK : (s.command_history.take (s.current_command_index + 1).toNat
        ++ [c]).length
      = min (s.current_command_index + 1).toNat s.command_history.length + 1 := by
    simp [List.length_take]
  split
  · rename_i hcond
    rw [hK] at hcond
    refine ⟨by omega, ?_⟩
    simp only [List.length_drop, hK]
    omega
  · rename_i hcond
    rw [hK] at hcond
    refine ⟨by omega, ?_⟩
    rw [hK]
    omega

/-- undo keeps the cursor in [-1, length - 1]. -/
theorem cursorInRange_undo (s : PlotEditor) (h : cursorInRange s) :
    cursorInRange (undo s) := by
  obtain ⟨ha, hb⟩ := h
  unfold undo
  split
  · rename_i hge
    rcases hg : s.command_history.get? s.current_command_index.toNat with _ | cmd
    · simp only [hg]
      exact ⟨ha, hb⟩
    · simp only [hg]
      obtain ⟨u1, u2, u3⟩ := undoCmd_preserves_history cmd s
      unfold cursorInRange
      dsimp only
      rw [u1, u2]
      exact ⟨by omega, by omega⟩
  · exact ⟨ha, hb⟩

/-- redo keeps the cursor in [-1, length - 1]. -/
theorem cursorInRange_redo (s : PlotEditor) (h : cursorInRange s) :
    cursorInRange (redo s) := by
  obtain ⟨ha, hb⟩ := h
  unfold redo
  split
  · rename_i hlt
    rcases hg : s.command_history.get? (s.current_command_index + 1).toNat
        with _ | cmd
    · simp only [hg]
      unfold cursorInRange
      dsimp only
      exact ⟨by omega, by omega⟩
    · simp only [hg]
      obtain ⟨e1, e2, e3⟩ := execCmd_preserves_history cmd
        { s with current_command_index := s.current_command_index + 1 }
      unfold cursorInRange
      rw [e1, e2]
      dsimp only
      exact ⟨by omega, by omega⟩
  · exact ⟨ha, hb⟩

/-- C4: the command history is bounded at the cap with the cursor kept in
range: after every execute/undo/redo the cursor stays in [-1, length-1];
when the cap is full, executing evicts the oldest command and leaves the
cursor decremented back to its old value; and executing cap + 5 commands
from a fresh history leaves exactly the last cap commands (the first 5
discarded beyond undo's reach) with the cursor at cap - 1. -/
theorem history_cap_bounds :
    (∀ (s : PlotEditor) (c : Cmd), 1 ≤ s.max_history_size → cursorInRange s →
      cursorInRange (executeCommand s c) ∧ cursorInRange (undo s)
        ∧ cursorInRange (redo s))
    ∧ (∀ (s : PlotEditor) (c : Cmd),
        s.current_command_index = (s.command_history.length : Int) - 1 →
        s.command_history.length = s.max_history_size → 1 ≤ s.max_history_size →
        (executeCommand s c).command_history = s.command_history.drop 1 ++ [c]
        ∧ (executeCommand s c).current_command_index = s.current_command_index)
    ∧ (∀ (s : PlotEditor) (cmds : List Cmd), s.command_history = [] →
        s.current_command_index = -1 → 1 ≤ s.max_history_size →
        cmds.length = s.max_history_size + 5 →
        (execAll s cmds).command_history = cmds.drop 5
        ∧ (execAll s cmds).command_history.length = s.max_history_size
        ∧ (execAll s cmds).current_command_index
            = (s.max_history_size : Int) - 1) := by
  refine ⟨?_, ?_, ?_⟩
  · intro s c hm h
    exact ⟨cursorInRange_executeCommand s c hm h, cursorInRange_undo s h,
      cursorInRange_redo s h⟩
  · intro s c hcur hfull hm
    obtain ⟨e1, e2, e3, e4⟩ := executeCommand_steady s c hcur (le_of_eq hfull) hm
    have hd : s.command_history.length + 1 - s.max_history_size = 1 := by omega
    have hsplit : (s.command_history ++ [c]).drop 1
        = s.command_history.drop 1 ++ [c] :=
      List.drop_append_of_le_length (by omega)
    refine ⟨by rw [e1, hd, hsplit], ?_⟩
    rw [e2, e1, hd, hsplit]
    have : (s.command_history.drop 1 ++ [c]).length = s.command_history.length := by
      simp
      omega
    rw [this, hcur]
  · intro s cmds hempty hcur hm hlen
    have h := execAll_steady cmds s
      (by rw [hcur, hempty]; rfl) (by rw [hempty]; exact Nat.zero_le _) hm
    rw [hempty] at h
    simp only [List.nil_append, List.length_nil, Nat.zero_add] at h
    obtain ⟨h1, h2, h3, h4⟩ := h
    have hd : cmds.length - s.max_history_size = 5 := by omega
    rw [hd] at h1
    have hl : (cmds.drop 5).length = s.max_history_size := by
      simp [hlen]
    exact ⟨h1, by rw [h1, hl], by rw [h2, h1, hl]⟩

/-- Witness for C4 at the constructor's editor (cap 50): one execute
keeps the cursor in range, and 55 executes leave 50 entries with the
cursor at 49. -/
theorem history_cap_bounds_witness :
    cursorInRange (executeCommand (initialEditor 800 600) (Cmd.clearPlot [] none))
    ∧ (execAll (initialEditor 800 600)
        (List.replicate 55 (Cmd.clearPlot [] none))).command_history.length = 50
    ∧ (execAll (initialEditor 800 600)
        (List.replicate 55 (Cmd.clearPlot [] none))).current_command_index = 49 := by
  have h1 := (history_cap_bounds.1 (initialEditor 800 600) (Cmd.clearPlot [] none)
    (by norm_num [initialEditor])
    ⟨by norm_num [initialEditor], by norm_num [initialEditor]⟩).1
  have h3 := history_cap_bounds.2.2 (initialEditor 800 600)
    (List.replicate 55 (Cmd.clearPlot [] none)) rfl rfl
    (by norm_num [initialEditor]) (by simp [initialEditor])
  exact ⟨h1, h3.2.1.trans rfl, h3.2.2.trans (by norm_num [initialEditor])⟩

/-- find? by id commutes with an id-preserving conditional map. -/
theorem find?_map_idpreserving (l : List PObj) (i : ObjId) (f : PObj → PObj)
    (hf : ∀ o, (f o).id = o.id) (obj : PObj)
    (h : l.find? (fun (o : PObj) => decide (o.id = i)) = some obj) :
    (l.map (fun o => if o.id = i then f o else o)).find?
        (fun (o : PObj) => decide (o.id = i))
      = some (if obj.id = i then f obj else obj) := by
  induction l with
  | nil => simp [List.find?] at h
  | cons x t ih =>
    by_cases hx : x.id = i
    · rw [List.find?_cons_of_pos _ (by simp [hx])] at h
      rw [Option.some_inj] at h
      subst h
      rw [List.map_cons]
      have hhead : (if x.id = i then f x else x) = f x := if_pos hx
      rw [hhead, List.find?_cons_of_pos _ (by simp [hf, hx])]
    · rw [List.find?_cons_of_neg _ (by simp [hx])] at h
      rw [List.map_cons]
      have hhead : (if x.id = i then f x else x) = x := if_neg hx
      rw [hhead, List.find?_cons_of_neg _ (by simp [hx])]
      exact ih h

/-- The history bookkeeping of stopDragging when the object moved: the
redo tail is truncated, the Move command appended without running its
forward effect, and the head evicted when over the cap; the scene is
untouched. -/
theorem stopDragging_moved_shape (s : PlotEditor) (i : ObjId)
    (m p : Option (ℚ × ℚ)) (orig : Coords) (obj : PObj)
    (hdrag : s.dragging_state = ⟨true, some i, m, p, some orig⟩)
    (hfind : s.plot_objects.find? (fun (o : PObj) => decide (o.id = i)) = some obj)
    (hne : orig ≠ getObjectCoordinates obj) :
    (stopDragging s).command_history
      = (if (s.command_history.take (s.current_command_index + 1).toNat
            ++ [Cmd.moveObject i orig (getObjectCoordinates obj)]).length
            > s.max_history_size
         then (s.command_history.take (s.current_command_index + 1).toNat
            ++ [Cmd.moveObject i orig (getObjectCoordinates obj)]).drop 1
         else s.command_history.take (s.current_command_index + 1).toNat
            ++ [Cmd.moveObject i orig (getObjectCoordinates obj)])
    ∧ (stopDragging s).current_command_index
      = (if (s.command_history.take (s.current_command_index + 1).toNat
            ++ [Cmd.moveObject i orig (getObjectCoordinates obj)]).length
            > s.max_history_size
         then s.current_command_index + 1 - 1 else s.current_command_index + 1)
    ∧ (stopDragging s).plot_objects = s.plot_objects
    ∧ (stopDragging s).max_history_size = s.max_history_size := by
  simp only [stopDragging, hdrag, hfind]
  rw [if_pos hne]
  split <;> exact ⟨rfl, rfl, rfl, rfl⟩

/-- C2: ending a drag whose final coordinates differ from the original
appends exactly one Move command (after truncating the redo tail, with
the same capacity/eviction rule as executeCommand) without re-running the
forward effect (the scene is untouched), and a subsequent undo() restores
the dragged object's original coordinates exactly; when the coordinates
are unchanged, nothing is appended and the state is untouched. The
compatibility hypothesis says the recorded coordinate bundle has the
shape of the object's type, which pointer-down guarantees by recording
getObjectCoordinates of the same object. -/
theorem stopDragging_commits_move (s : PlotEditor) (i : ObjId)
    (m p : Option (ℚ × ℚ)) (orig : Coords) (obj : PObj)
    (hdrag : s.dragging_state = ⟨true, some i, m, p, some orig⟩)
    (hfind : s.plot_objects.find? (fun (o : PObj) => decide (o.id = i)) = some obj)
    (hrange : cursorInRange s) (hm : 1 ≤ s.max_history_size)
    (hcompat : getObjectCoordinates (setObjectCoordinates obj orig) = orig) :
    (orig ≠ getObjectCoordinates obj →
      (stopDragging s).command_history
        = (if (s.command_history.take (s.current_command_index + 1).toNat
              ++ [Cmd.moveObject i orig (getObjectCoordinates obj)]).length
              > s.max_history_size
           then (s.command_history.take (s.current_command_index + 1).toNat
              ++ [Cmd.moveObject i orig (getObjectCoordinates obj)]).drop 1
           else s.command_history.take (s.current_command_index + 1).toNat
              ++ [Cmd.moveObject i orig (getObjectCoordinates obj)])
      ∧ (stopDragging s).plot_objects = s.plot_objects
      ∧ coordsOfId (undo (stopDragging s)) i = some orig)
    ∧ (orig = getObjectCoordinates obj →
        stopDragging s = { s with dragging_state := {} }) := by
  constructor
  · intro hne
    obtain ⟨h1, h2, h3, h4⟩ := stopDragging_moved_shape s i m p orig obj hdrag hfind hne
    refine ⟨h1, h3, ?_⟩
    -- the appended Move command sits at the cursor, and its undo restores
    -- the original coordinates
    have hobjid : obj.id = i := by
      have := List.find?_some hfind
      simpa using this
    have htakelen : (s.command_history.take (s.current_command_index + 1).toNat).length
        = (s.current_command_index + 1).toNat := by
      rw [List.length_take]
      obtain ⟨ha, hb⟩ := hrange
      omega
    -- the command under the cursor after stopDragging
    have hcat : ∀ (L : List Cmd) (c : Cmd) (n : Nat), n = L.length →
        (L ++ [c])[n]? = some c := by
      intro L c n hn
      subst hn
      exact List.getElem?_concat_length L c
    have hcmd : (stopDragging s).command_history.get?
          (stopDragging s).current_command_index.toNat
        = some (Cmd.moveObject i orig (getObjectCoordinates obj))
        ∧ 0 ≤ (stopDragging s).current_command_index := by
      rw [h1, h2]
      obtain ⟨ha, hb⟩ := hrange
      split
      · rename_i hcond
        simp only [List.length_append, List.length_cons, List.length_nil,
          htakelen] at hcond
        have hcur0 : 0 ≤ s.current_command_index := by omega
        constructor
        · rw [show s.current_command_index + 1 - 1 = s.current_command_index by omega]
          rw [List.get?_eq_getElem?, List.getElem?_drop]
          exact hcat _ _ _ (by rw [htakelen]; omega)
        · omega
      · constructor
        · rw [List.get?_eq_getElem?]
          exact hcat _ _ _ (by rw [htakelen])
        · omega
    -- now run undo
    unfold undo
    rw [if_pos hcmd.2, hcmd.1]
    simp only [undoCmd]
    unfold coordsOfId
    dsimp only
    rw [h3]
    rw [find?_map_idpreserving s.plot_objects i
      (fun o => setObjectCoordinates o orig)
      (fun o => setObjectCoordinates_id o orig) obj hfind]
    rw [if_pos hobjid]
    simp [hcompat]
  · intro heq
    simp only [stopDragging, hdrag, hfind]
    rw [if_neg (by simpa using heq)]

/-- Witness for C2, the spec's drag test: a point dragged from (0, 0) to
(3, 4); pointer-up appends one Move command and undo restores (0, 0). -/
theorem stopDragging_commits_move_witness :
    (stopDragging
        { initialEditor 800 600 with
          plot_objects := [{ id := [97], type := .point, x := 3, y := 4 }]
          dragging_state := ⟨true, some [97], some (0, 0), some (0, 0),
            some (.pt 0 0)⟩ }).command_history
      = [Cmd.moveObject [97] (.pt 0 0) (.pt 3 4)]
    ∧ coordsOfId
        (undo (stopDragging
          { initialEditor 800 600 with
            plot_objects := [{ id := [97], type := .point, x := 3, y := 4 }]
            dragging_state := ⟨true, some [97], some (0, 0), some (0, 0),
              some (.pt 0 0)⟩ })) [97]
      = some (.pt 0 0) := by
  have h := (stopDragging_commits_move
    { initialEditor 800 600 with
      plot_objects := [{ id := [97], type := .point, x := 3, y := 4 }]
      dragging_state := ⟨true, some [97], some (0, 0), some (0, 0),
        some (.pt 0 0)⟩ }
    [97] (some (0, 0)) (some (0, 0)) (.pt 0 0)
    { id := [97], type := .point, x := 3, y := 4 }
    rfl (by decide) ⟨by norm_num [initialEditor], by norm_num [initialEditor]⟩
    (by norm_num [initialEditor]) (by decide)).1 (by decide)
  exact ⟨h.1, h.2.2⟩

/-- A successful color lookup exposes a map entry. -/
theorem lookupColorOfId_mem (m : List (ObjId × ColorKey)) (i : ObjId) (c : ColorKey)
    (h : lookupColorOfId m i = some c) : (i, c) ∈ m := by
  induction m with
  | nil => simp [lookupColorOfId] at h
  | cons e t ih =>
    rcases e with ⟨k, v⟩
    rw [lookupColorOfId] at h
    split at h
    · rename_i hk
      rw [Option.some_inj] at h
      subst h
      subst hk
      exact List.mem_cons_self _ _
    · exact List.mem_cons_of_mem _ (ih h)

/-- With pairwise-distinct stored colors, two entries sharing a color are
the same entry. -/
theorem entry_eq_of_snd_eq {l : List (ObjId × ColorKey)}
    (hnd : (l.map Prod.snd).Nodup) :
    ∀ a ∈ l, ∀ b ∈ l, a.2 = b.2 → a = b := by
  induction l with
  | nil => intro a ha; simp at ha
  | cons x t ih =>
    rw [List.map_cons, List.nodup_cons] at hnd
    intro a ha b hb heq
    rcases List.mem_cons.mp ha with ha1 | ha2
    · rcases List.mem_cons.mp hb with hb1 | hb2
      · rw [ha1, hb1]
      · exfalso
        apply hnd.1
        rw [← ha1, heq]
        exact List.mem_map_of_mem Prod.snd hb2
    · rcases List.mem_cons.mp hb with hb1 | hb2
      · exfalso
        apply hnd.1
        rw [← hb1, ← heq]
        exact List.mem_map_of_mem Prod.snd ha2
      · exact ih hnd.2 a ha2 b hb2 heq

/-- Membership test on the color map after inserting a new key. -/
theorem colorMapHas_cons (c : ColorKey) (i : ObjId)
    (m : List (ColorKey × ObjId)) (x : ColorKey) :
    colorMapHas ((c, i) :: m) x = (Nat.beq c x || colorMapHas m x) := by
  simp only [colorMapHas, lookupIdOfColor]
  cases h : Nat.beq c x <;> simp [h]

/-- When the retry loop exits before its budget is spent, the returned
color collides with nothing in the map and is not a background sentinel. -/
theorem colorRetry_spec (ocm : List (ColorKey × ObjId)) (object_id : ObjId) :
    ∀ (fuel : Nat) (c : ColorKey) (a : Nat),
      (colorRetry ocm object_id fuel c a).2 < a + fuel →
      colorMapHas ocm (colorRetry ocm object_id fuel c a).1 = false
        ∧ isBackgroundColor (colorRetry ocm object_id fuel c a).1 = false := by
  intro fuel
  induction fuel with
  | zero =>
    intro c a h
    rw [colorRetry] at h
    omega
  | succ n ih =>
    intro c a h
    rw [colorRetry] at h ⊢
    rcases hcond : (colorMapHas ocm c || isBackgroundColor c) with _ | _
    · simp only [Bool.cond_false]
      simpa using hcond
    · rw [hcond] at h
      simp only [Bool.cond_true] at h ⊢
      exact ih _ (a + 1) (by omega)

/-- The color bookkeeping invariant: stored colors are pairwise distinct,
none is a background sentinel, every stored color is a key of the
reverse map, and each id is stored at most once. -/
def ColorInv (s : PlotEditor) : Prop :=
  (∀ e ∈ s.id_color_map, isBackgroundColor e.2 = false)
    ∧ (s.id_color_map.map Prod.snd).Nodup
    ∧ (∀ e ∈ s.id_color_map, colorMapHas s.object_color_map e.2 = true)

/-- One getObjectColor call that does not fall back preserves the color
invariant. -/
theorem getObjectColor_preserves_ColorInv (s : PlotEditor) (i : ObjId)
    (hinv : ColorInv s) (hnf : callUsesFallback s i = false) :
    ColorInv (getObjectColor s i).2 := by
  obtain ⟨hbg, hnd, hkeys⟩ := hinv
  unfold callUsesFallback at hnf
  unfold getObjectColor
  rcases hcache : lookupColorOfId s.id_color_map i with _ | c
  · rw [hcache] at hnf
    dsimp only at hnf ⊢
    rw [decide_eq_false_iff_not] at hnf
    have hlt : (colorRetry s.object_color_map i 1000
        (generateUniqueColor i 0) 0).2 < 1000 := by omega
    obtain ⟨hfresh, hnotbg⟩ := colorRetry_spec s.object_color_map i 1000
      (generateUniqueColor i 0) 0 (by omega)
    have hble : Nat.ble 1000 (colorRetry s.object_color_map i 1000
        (generateUniqueColor i 0) 0).2 = false := by
      rw [Bool.eq_false_iff]
      intro hb
      rw [Nat.ble_eq] at hb
      omega
    rw [hble]
    simp only [Bool.cond_false]
    refine ⟨?_, ?_, ?_⟩
    · intro e he
      rcases List.mem_cons.mp he with rfl | he
      · exact hnotbg
      · exact hbg e he
    · rw [List.map_cons, List.nodup_cons]
      refine ⟨?_, hnd⟩
      intro hmem
      rcases List.mem_map.mp hmem with ⟨e, he, heq⟩
      have := hkeys e he
      rw [heq] at this
      rw [this] at hfresh
      exact Bool.noConfusion hfresh
    · intro e he
      rw [colorMapHas_cons]
      rcases List.mem_cons.mp he with rfl | he
      · simp
      · rw [hkeys e he, Bool.or_true]
  · exact ⟨hbg, hnd, hkeys⟩

/-- A no-fallback run preserves the color invariant. -/
theorem assignColors_preserves_ColorInv (ids : List ObjId) (s : PlotEditor)
    (hinv : ColorInv s) (hnf : noFallbackRun s ids = true) :
    ColorInv (assignColors s ids) := by
  induction ids generalizing s with
  | nil => exact hinv
  | cons i rest ih =>
    rw [noFallbackRun, Bool.and_eq_true] at hnf
    have h1 : callUsesFallback s i = false := by
      rcases hc : callUsesFallback s i with _ | _
      · rfl
      · rw [hc] at hnf; simp at hnf
    exact ih (getObjectColor s i).2
      (getObjectColor_preserves_ColorInv s i hinv h1) hnf.2

/-- C3 (amended): for every run of getObjectColor calls from a fresh
editor in which no call exhausts the 1000-attempt retry ceiling, the
assigned colors are pairwise distinct across distinct ids and none is a
reserved background sentinel. (The unconditional claim fails: the
sequential fallback does not consult the assigned-color map, see the
counterexample.) -/
theorem getObjectColor_no_fallback_distinct (canvas_width canvas_height : ℚ)
    (ids : List ObjId)
    (hnf : noFallbackRun (initialEditor canvas_width canvas_height) ids = true) :
    (∀ i ci, lookupColorOfId
        (assignColors (initialEditor canvas_width canvas_height) ids).id_color_map i
        = some ci → isBackgroundColor ci = false)
    ∧ (∀ i j ci cj, lookupColorOfId
        (assignColors (initialEditor canvas_width canvas_height) ids).id_color_map i
        = some ci →
      lookupColorOfId
        (assignColors (initialEditor canvas_width canvas_height) ids).id_color_map j
        = some cj → i ≠ j → ci ≠ cj) := by
  have hinv0 : ColorInv (initialEditor canvas_width canvas_height) := by
    refine ⟨?_, ?_, ?_⟩ <;> simp [initialEditor]
  have hinv := assignColors_preserves_ColorInv ids _ hinv0 hnf
  obtain ⟨hbg, hnd, hkeys⟩ := hinv
  constructor
  · intro i ci hi
    exact hbg _ (lookupColorOfId_mem _ _ _ hi)
  · intro i j ci cj hi hj hij heq
    have hmi := lookupColorOfId_mem _ _ _ hi
    have hmj := lookupColorOfId_mem _ _ _ hj
    have := entry_eq_of_snd_eq hnd (i, ci) hmi (j, cj) hmj heq
    exact hij (congrArg Prod.fst this)

/-- Witness for the amended C3: two concrete ids from a fresh editor
resolve with no fallback to distinct non-background colors. -/
theorem getObjectColor_no_fallback_distinct_witness :
    isBackgroundColor 14752043 = false ∧ (14752043 : ColorKey) ≠ 16772116 := by
  have h := getObjectColor_no_fallback_distinct 800 600 [[97], [98]] (by decide)
  exact ⟨h.1 [97] 14752043 (by decide),
    h.2 [97] [98] 14752043 16772116 (by decide) (by decide) (by decide)⟩


/-- The device distance is symmetric. -/
theorem devLength_comm (S E : ℝ × ℝ) : devLength S E = devLength E S := by
  unfold devLength
  ring_nf

/-- C7 (amended): braces whose device endpoint distance is below the
20-pixel threshold render nothing in the traditional and 45deg styles
(both guard the near-zero division), while the smooth style has no such
guard: it always emits its three path commands, dividing by the endpoint
distance unconditionally. -/
theorem brace_below_threshold_renders_nothing (s : PlotEditor) (brace : PObj)
    (hlen : devLength (toR (plotToCanvas s brace.x1 brace.y1))
        (toR (plotToCanvas s brace.x2 brace.y2)) < 20) :
    drawTraditionalBrace s brace = []
    ∧ draw45DegBrace s brace = []
    ∧ (drawSmoothBrace s brace).length = 3 := by
  refine ⟨?_, ?_, ?_⟩
  · simp only [drawTraditionalBrace]
    rw [if_pos (by unfold devLength at hlen; exact hlen)]
  · simp only [draw45DegBrace, draw45DegBraceHalf]
    rw [if_pos hlen, if_pos (by rw [← devLength_comm]; exact hlen)]
    rfl
  · simp only [drawSmoothBrace]
    rfl

/-- Witness for the amended C7 at a zero-length brace: distance 0 is
below the threshold, the guarded styles emit nothing, the smooth style
still emits its three commands. -/
theorem brace_below_threshold_renders_nothing_witness :
    drawTraditionalBrace (initialEditor 800 600)
        { id := [97], type := .brace, elevation := 15 } = []
    ∧ draw45DegBrace (initialEditor 800 600)
        { id := [97], type := .brace, elevation := 15 } = []
    ∧ (drawSmoothBrace (initialEditor 800 600)
        { id := [97], type := .brace, elevation := 15 }).length = 3 :=
  brace_below_threshold_renders_nothing (initialEditor 800 600)
    { id := [97], type := .brace, elevation := 15 }
    (by
      unfold devLength
      norm_num [Real.sqrt_zero])

/-- C7 counterexample: the claim says all three styles render nothing
below the threshold; the smooth style does not: at a brace of device
length 0 (endpoints coincide), drawBrace with the smooth style still
emits a nonempty path, its perpendicular offset having divided by the
zero endpoint distance. -/
theorem drawSmoothBrace_below_threshold_renders_counterexample :
    devLength
        (toR (plotToCanvas (initialEditor 800 600) 0 0))
        (toR (plotToCanvas (initialEditor 800 600) 0 0)) < 20
    ∧ drawBrace (initialEditor 800 600)
        { id := [97], type := .brace, style := some .smooth, elevation := 15 }
      ≠ [] := by
  constructor
  · unfold devLength
    norm_num [Real.sqrt_zero]
  · unfold drawBrace
    norm_num
    unfold drawSmoothBrace
    simp

/-- The inner radius never exceeds a sixth of the device length. -/
theorem bInnerR_le (S E : ℝ × ℝ) (elevation width : ℚ) :
    bInnerR S E elevation width ≤ devLength S E / 6 := by
  unfold bInnerR
  split
  · exact min_le_right _ _
  · exact le_refl _

/-- C8: in the 45deg brace construction with the outer radius set to
inner·√2 and the arc centers as constructed, for every endpoint pair at
or above the length threshold, every mirror sign and every elevation,
the path is C¹ at both junctions: the start point S and the junction P1
lie on the outer circle around C1 and the radius C1-P1 is perpendicular
to the straight segment P1-P2 (so the outer arc's tangent there is the
segment direction); P2 and the midpoint tip PM lie on the inner circle
around C2 with the radius C2-P2 perpendicular to the segment; the
segment itself runs parallel to the main axis; the outer arc spans an
eighth circle (the S and P1 radii meet at 45 degrees,
cos 45° · outerR² = innerR · outerR) and the inner arc a quarter circle
(perpendicular radii). -/
theorem brace45_tangent_continuity (S E : ℝ × ℝ) (mm : ℝ) (elevation width : ℚ)
    (hlen : 20 ≤ devLength S E) (hmm : mm = 1 ∨ mm = -1) :
    dotR (subR S (bC1 S E mm elevation width)) (subR S (bC1 S E mm elevation width))
        = bOuterR S E elevation width ^ 2
    ∧ dotR (subR (bP1 S E mm elevation width) (bC1 S E mm elevation width))
          (subR (bP1 S E mm elevation width) (bC1 S E mm elevation width))
        = bOuterR S E elevation width ^ 2
    ∧ dotR (subR (bP1 S E mm elevation width) (bC1 S E mm elevation width))
          (subR (bP2 S E mm elevation width) (bP1 S E mm elevation width))
        = 0
    ∧ dotR (subR S (bC1 S E mm elevation width))
          (subR (bP1 S E mm elevation width) (bC1 S E mm elevation width))
        = bInnerR S E elevation width * bOuterR S E elevation width
    ∧ dotR (subR (bP2 S E mm elevation width) (bC2 S E mm elevation width))
          (subR (bP2 S E mm elevation width) (bC2 S E mm elevation width))
        = bInnerR S E elevation width ^ 2
    ∧ dotR (subR (bP2 S E mm elevation width) (bC2 S E mm elevation width))
          (subR (bP2 S E mm elevation width) (bP1 S E mm elevation width))
        = 0
    ∧ dotR (subR (bPM S E mm elevation width) (bC2 S E mm elevation width))
          (subR (bPM S E mm elevation width) (bC2 S E mm elevation width))
        = bInnerR S E elevation width ^ 2
    ∧ dotR (subR (bP2 S E mm elevation width) (bC2 S E mm elevation width))
          (subR (bPM S E mm elevation width) (bC2 S E mm elevation width))
        = 0
    ∧ subR (bP2 S E mm elevation width) (bP1 S E mm elevation width)
        = (bSegLen S E elevation width * ((E.1 - S.1) / devLength S E),
           bSegLen S E elevation width * ((E.2 - S.2) / devLength S E)) := by
  have hLpos : 0 < devLength S E := by linarith
  have hLne : devLength S E ≠ 0 := ne_of_gt hLpos
  have hsq : (E.1 - S.1) * (E.1 - S.1) + (E.2 - S.2) * (E.2 - S.2)
      = devLength S E * devLength S E := by
    unfold devLength
    rw [Real.mul_self_sqrt (add_nonneg (mul_self_nonneg _) (mul_self_nonneg _))]
  have hm2 : mm * mm = 1 := by rcases hmm with rfl | rfl <;> norm_num
  have hs2 : Real.sqrt 2 * Real.sqrt 2 = 2 :=
    Real.mul_self_sqrt (by norm_num)
  have hseg : bSegLen S E elevation width
      = devLength S E / 2 - 2 * bInnerR S E elevation width := by
    unfold bSegLen
    refine max_eq_right ?_
    have h6 := bInnerR_le S E elevation width
    linarith
  have huv : (E.1 - S.1) / devLength S E * ((E.1 - S.1) / devLength S E)
      + (E.2 - S.2) / devLength S E * ((E.2 - S.2) / devLength S E) = 1 := by
    field_simp
    linear_combination hsq
  have hdot : ∀ x1 y1 x2 y2 : ℝ, dotR (x1, y1) (x2, y2) = x1 * x2 + y1 * y2 :=
    fun _ _ _ _ => rfl
  have hsub : ∀ a1 p1 a2 p2 : ℝ,
      subR (bPt S E mm a1 p1) (bPt S E mm a2 p2)
        = ((E.1 - S.1) / devLength S E * (a1 - a2)
             - (E.2 - S.2) / devLength S E * mm * (p1 - p2),
           (E.2 - S.2) / devLength S E * (a1 - a2)
             + (E.1 - S.1) / devLength S E * mm * (p1 - p2)) := by
    intro a1 p1 a2 p2
    simp only [bPt, subR, Prod.mk.injEq]
    constructor <;> ring
  have key : ∀ a1 p1 a2 p2 a3 p3 a4 p4 : ℝ,
      dotR (subR (bPt S E mm a1 p1) (bPt S E mm a2 p2))
          (subR (bPt S E mm a3 p3) (bPt S E mm a4 p4))
        = (a1 - a2) * (a3 - a4) + (p1 - p2) * (p3 - p4) := by
    intro a1 p1 a2 p2 a3 p3 a4 p4
    rw [hsub, hsub, hdot]
    linear_combination
      ((a1 - a2) * (a3 - a4) + (p1 - p2) * (p3 - p4) * (mm * mm)) * huv
        + (p1 - p2) * (p3 - p4) * hm2
  have hS0 : bPt S E mm 0 0 = S := by simp [bPt]
  have hsubS : ∀ X : ℝ × ℝ, subR S X = subR (bPt S E mm 0 0) X :=
    fun X => by rw [hS0]
  refine ⟨?_, ?_, ?_, ?_, ?_, ?_, ?_, ?_, ?_⟩
  · simp only [bC1, bOuterR]
    rw [hsubS, key]
    linear_combination
      (-(bInnerR S E elevation width * bInnerR S E elevation width)) * hs2
  · simp only [bC1, bP1, bOuterR]
    rw [key]
    ring
  · simp only [bC1, bP1, bP2, bOuterR]
    rw [key]
    ring
  · simp only [bC1, bP1, bOuterR]
    rw [hsubS, key]
    ring
  · simp only [bP2, bC2, bOuterR]
    rw [key]
    ring
  · simp only [bP1, bP2, bC2, bOuterR]
    rw [key]
    ring
  · simp only [bPM, bC2, bOuterR]
    rw [hseg, key]
    ring
  · simp only [bP2, bPM, bC2, bOuterR]
    rw [key]
    ring
  · simp only [bP1, bP2, bOuterR]
    rw [hseg, hsub]
    simp only [Prod.mk.injEq]
    constructor <;> ring

/-- Witness for brace45_tangent_continuity: the half from (0,0) to (50,0)
with mirror 1, elevation 15, width 2 meets the length threshold and its
start point lies on the outer circle. -/
theorem brace45_tangent_continuity_witness :
    (20 : ℝ) ≤ devLength ((0 : ℝ), (0 : ℝ)) ((50 : ℝ), (0 : ℝ))
    ∧ dotR (subR ((0 : ℝ), (0 : ℝ)) (bC1 ((0 : ℝ), (0 : ℝ)) ((50 : ℝ), (0 : ℝ)) 1 15 2))
        (subR ((0 : ℝ), (0 : ℝ)) (bC1 ((0 : ℝ), (0 : ℝ)) ((50 : ℝ), (0 : ℝ)) 1 15 2))
      = bOuterR ((0 : ℝ), (0 : ℝ)) ((50 : ℝ), (0 : ℝ)) 15 2 ^ 2 := by
  have hlen : (20 : ℝ) ≤ devLength ((0 : ℝ), (0 : ℝ)) ((50 : ℝ), (0 : ℝ)) := by
    unfold devLength
    norm_num
    rw [show (2500 : ℝ) = 50 ^ 2 by norm_num,
      Real.sqrt_sq (by norm_num : (0 : ℝ) ≤ 50)]
    norm_num
  exact ⟨hlen,
    (brace45_tangent_continuity ((0 : ℝ), (0 : ℝ)) ((50 : ℝ), (0 : ℝ)) 1 15 2
      hlen (Or.inl rfl)).1⟩

/-- C9 (amended): picking resolves occlusion by z_index for objects
rendered in the same pass. For a scene of two point objects with cached
distinct non-background colors and distinct z_index values, a query at
a pixel inside both true shapes returns the id of the higher-z_index
object, and after swapping the two z_index values and rebuilding the
raster the same query returns the other id. (For mixed pairs in which
the higher object is an area the code violates the original claim: the
area paints only in pass 1, so any lower non-area object repainted in
pass 2 covers it — see the counterexample.) -/
theorem picking_occlusion_by_z
    (s : PlotEditor) (ext : ExtPick) (a b : PObj) (ca cb : ColorKey) (p : ℝ × ℝ)
    (hobjs : s.plot_objects = [a, b])
    (hta : a.type = .point) (htb : b.type = .point)
    (hz : a.z_index < b.z_index)
    (hids : a.id ≠ b.id)
    (hic : s.id_color_map = [(a.id, ca), (b.id, cb)])
    (hoc : s.object_color_map = [(ca, a.id), (cb, b.id)])
    (hbga : isBackgroundColor ca = false)
    (hbgb : isBackgroundColor cb = false)
    (hcc : ca ≠ cb)
    (hitA : discRegion (toR (plotToCanvas s a.x a.y)) ((max a.size 3 : ℚ) : ℝ) p)
    (hitB : discRegion (toR (plotToCanvas s b.x b.y)) ((max b.size 3 : ℚ) : ℝ) p) :
    getObjectIdFromPicking (renderPickingCanvas s ext).2
        (renderPickingCanvas s ext).1 p = some b.id
    ∧ getObjectIdFromPicking
        (renderPickingCanvas { s with plot_objects :=
          [{ a with z_index := b.z_index }, { b with z_index := a.z_index }] } ext).2
        (renderPickingCanvas { s with plot_objects :=
          [{ a with z_index := b.z_index }, { b with z_index := a.z_index }] } ext).1 p
      = some a.id := by
  have hbeqab : Nat.beq ca cb = false := by
    cases h : Nat.beq ca cb with
    | false => rfl
    | true => exact absurd (Nat.eq_of_beq_eq_true h) hcc
  have hbeqa : Nat.beq ca ca = true := Nat.beq_refl ca
  have hbeqb : Nat.beq cb cb = true := Nat.beq_refl cb
  have hga : getObjectColor s a.id = (ca, s) := by
    simp [getObjectColor, hic, lookupColorOfId]
  have hgb : getObjectColor s b.id = (cb, s) := by
    simp [getObjectColor, hic, lookupColorOfId, hids]
  push_cast at hitA hitB
  constructor
  · have hsort : sortByZ s.plot_objects = [a, b] := by
      rw [hobjs]
      simp only [sortByZ, insertByZ]
      rw [if_pos (le_of_lt hz)]
    simp [renderPickingCanvas, hsort, renderPass1, renderPass2, hga, hgb,
      drawPickingBBox, drawPickingObject, hta, htb, getObjectIdFromPicking,
      lastCoverColor, hitB, hbgb, hoc, lookupIdOfColor, hbeqab, hbeqb]
  · set s2 : PlotEditor := { s with plot_objects :=
      [{ a with z_index := b.z_index }, { b with z_index := a.z_index }] } with hs2
    have hobjs2 : s2.plot_objects
        = [{ a with z_index := b.z_index }, { b with z_index := a.z_index }] := rfl
    have hic2 : s2.id_color_map = [(a.id, ca), (b.id, cb)] := hic
    have hoc2 : s2.object_color_map = [(ca, a.id), (cb, b.id)] := hoc
    have hptc : ∀ x y : ℚ, plotToCanvas s2 x y = plotToCanvas s x y := fun _ _ => rfl
    have hga2 : getObjectColor s2 a.id = (ca, s2) := by
      simp [getObjectColor, hic, hic2, lookupColorOfId]
    have hgb2 : getObjectColor s2 b.id = (cb, s2) := by
      simp [getObjectColor, hic, hic2, lookupColorOfId, hids]
    have hsort2 : sortByZ [{ a with type := ObjType.point, z_index := b.z_index },
          { b with type := ObjType.point, z_index := a.z_index }]
        = [{ b with type := ObjType.point, z_index := a.z_index },
           { a with type := ObjType.point, z_index := b.z_index }] := by
      simp only [sortByZ, insertByZ]
      rw [if_neg (not_le.mpr hz)]
    simp [renderPickingCanvas, hsort2, renderPass1, renderPass2, hga2, hgb2,
      drawPickingBBox, drawPickingObject, hta, htb, getObjectIdFromPicking,
      lastCoverColor, hptc, hitA, hbga, hoc2, lookupIdOfColor, hbeqa]

/-- Witness for picking_occlusion_by_z: the two stacked points of
pickScenePts at the canvas center pixel (180, 180). -/
theorem picking_occlusion_by_z_witness :
    getObjectIdFromPicking (renderPickingCanvas pickScenePts pickExt).2
        (renderPickingCanvas pickScenePts pickExt).1 ((180 : ℝ), (180 : ℝ))
      = some pickPointB.id
    ∧ getObjectIdFromPicking
        (renderPickingCanvas { pickScenePts with plot_objects :=
          [{ pickPoint with z_index := pickPointB.z_index },
           { pickPointB with z_index := pickPoint.z_index }] } pickExt).2
        (renderPickingCanvas { pickScenePts with plot_objects :=
          [{ pickPoint with z_index := pickPointB.z_index },
           { pickPointB with z_index := pickPoint.z_index }] } pickExt).1
        ((180 : ℝ), (180 : ℝ))
      = some pickPoint.id := by
  have hc : plotToCanvas pickScenePts 0 0 = (180, 180) := by
    norm_num [plotToCanvas, effectiveGeometryPlotToCanvas, pickScenePts, initialEditor]
  have hcA : plotToCanvas pickScenePts pickPoint.x pickPoint.y = (180, 180) := hc
  have hcB : plotToCanvas pickScenePts pickPointB.x pickPointB.y = (180, 180) := hc
  have hitA : discRegion (toR (plotToCanvas pickScenePts pickPoint.x pickPoint.y))
      ((max pickPoint.size 3 : ℚ) : ℝ) ((180 : ℝ), (180 : ℝ)) := by
    rw [hcA]
    simp only [discRegion, toR]
    norm_num
  have hitB : discRegion (toR (plotToCanvas pickScenePts pickPointB.x pickPointB.y))
      ((max pickPointB.size 3 : ℚ) : ℝ) ((180 : ℝ), (180 : ℝ)) := by
    rw [hcB]
    simp only [discRegion, toR]
    norm_num
  exact picking_occlusion_by_z pickScenePts pickExt pickPoint pickPointB
    (rgb 1 0 0) (rgb 2 0 0) ((180 : ℝ), (180 : ℝ)) rfl rfl rfl (by decide) (by decide)
    rfl rfl rfl rfl (by decide) hitA hitB

/-- C9 counterexample: z-order does not decide picking across the two
passes. In pickSceneMix the area ([98], z_index 5) overlaps the point
([97], z_index 0) at the canvas center pixel (180, 180): the point's
plot position (0,0) maps to that pixel and the area's corners map to
(120, 240) and (240, 120), so its raster spans 120..240 in both axes.
The area paints only in pass 1 (pass 2 skips areas), so the point's
pass-2 shape paints over it and the query returns the LOWER z_index
object, the point. -/
theorem picking_area_point_occlusion_counterexample :
    pickPoint.z_index < pickArea.z_index
    ∧ plotToCanvas pickSceneMix 0 0 = (180, 180)
    ∧ plotToCanvas pickSceneMix (-5) (-5) = (120, 240)
    ∧ plotToCanvas pickSceneMix 5 5 = (240, 120)
    ∧ pickPoint.id ≠ pickArea.id
    ∧ getObjectIdFromPicking (renderPickingCanvas pickSceneMix pickExt).2
        (renderPickingCanvas pickSceneMix pickExt).1 ((180 : ℝ), (180 : ℝ))
      = some pickPoint.id := by
  have hc0 : plotToCanvas pickSceneMix 0 0 = (180, 180) := by
    norm_num [plotToCanvas, effectiveGeometryPlotToCanvas, pickSceneMix, initialEditor]
  have hc1 : plotToCanvas pickSceneMix (-5) (-5) = (120, 240) := by
    norm_num [plotToCanvas, effectiveGeometryPlotToCanvas, pickSceneMix, initialEditor]
  have hc2 : plotToCanvas pickSceneMix 5 5 = (240, 120) := by
    norm_num [plotToCanvas, effectiveGeometryPlotToCanvas, pickSceneMix, initialEditor]
  refine ⟨by decide, hc0, hc1, hc2, by decide, ?_⟩
  have htp : pickPoint.type = ObjType.point := rfl
  have htar : pickArea.type = ObjType.area := rfl
  have hidp : pickPoint.id = [97] := rfl
  have hidar : pickArea.id = [98] := rfl
  have hga : getObjectColor pickSceneMix [97] = (rgb 1 0 0, pickSceneMix) := rfl
  have hgb : getObjectColor pickSceneMix [98] = (rgb 2 0 0, pickSceneMix) := rfl
  have hsort : sortByZ pickSceneMix.plot_objects = [pickPoint, pickArea] := rfl
  have hocm : pickSceneMix.object_color_map
      = [(rgb 1 0 0, [97]), (rgb 2 0 0, [98])] := rfl
  have hbg1 : isBackgroundColor (rgb 1 0 0) = false := rfl
  have hlook : lookupIdOfColor [(rgb 1 0 0, [97]), (rgb 2 0 0, [98])] (rgb 1 0 0)
      = some [97] := rfl
  have hcp : plotToCanvas pickSceneMix pickPoint.x pickPoint.y = (180, 180) := hc0
  have hit : discRegion (toR (plotToCanvas pickSceneMix pickPoint.x pickPoint.y))
      ((max pickPoint.size 3 : ℚ) : ℝ) ((180 : ℝ), (180 : ℝ)) := by
    rw [hcp]
    simp only [discRegion, toR]
    norm_num
  push_cast at hit
  simp [renderPickingCanvas, hsort, renderPass1, renderPass2, hga, hgb, hidp, hidar,
    htp, htar, drawPickingBBox, drawPickingObject, getObjectIdFromPicking,
    lastCoverColor, hit, hocm, hbg1, hlook]

/-- Splitting an assignColors run at a list boundary: the foldl of the
concatenation is the foldl of the second part from the state the first
part leaves. -/
theorem assignColors_append (s : PlotEditor) (l1 l2 : List ObjId) :
    assignColors s (l1 ++ l2) = assignColors (assignColors s l1) l2 := by
  simp [assignColors, List.foldl_append]

set_option maxRecDepth 200000 in
set_option maxHeartbeats 1000000 in
/-- Stage 1 of the fallback-collision run: the ids with codes
64..13888 (step 256) advance the color maps of the retry chain to the
state below. -/
theorem colorChainStep1 :
    assignColors (initialEditor 800 600)
      [[64], [320], [576], [832], [1088], [1344], [1600], [1856],
      [2112], [2368], [2624], [2880], [3136], [3392], [3648], [3904],
      [4160], [4416], [4672], [4928], [5184], [5440], [5696], [5952],
      [6208], [6464], [6720], [6976], [7232], [7488], [7744], [8000],
      [8256], [8512], [8768], [9024], [9280], [9536], [9792], [10048],
      [10304], [10560], [10816], [11072], [11328], [11584], [11840], [12096],
      [12352], [12608], [12864], [13120], [13376], [13632], [13888]]
    = { initialEditor 800 600 with
      object_color_map :=
        [(64000, [13888]), (16776706, [13632]), (16056094, [13376]), (14352158, [13120]),
          (14810910, [12864]), (14811105, [12608]), (2031562, [12352]), (3604454, [12096]),
          (1900543, [11840]), (131072, [11584]), (16711706, [11328]), (15728694, [11072]),
          (14024734, [10816]), (14745825, [10560]), (1966306, [10304]), (3277566, [10048]),
          (1574655, [9792]), (2560, [9536]), (3606, [9280]), (16716338, [9024]),
          (15472158, [8768]), (13769441, [8512]), (14753505, [8256]), (14754526, [8000]),
          (1976058, [7744]), (3025663, [7488]), (1322496, [7232]), (12818, [6976]),
          (16725550, [6720]), (15212257, [6464]), (13508321, [6208]), (14753498, [5952]),
          (1974006, [5696]), (1974015, [5440]), (2760192, [5184]), (1056270, [4928]),
          (7722, [4672]), (16719390, [4416]), (16703969, [4160]), (15000033, [3904]),
          (13296086, [3648]), (14803442, [3392]), (2023935, [3136]), (2023680, [2880]),
          (2547978, [2624]), (844070, [2368]), (57630, [2112]), (16769310, [1856]),
          (16441825, [1600]), (14731986, [1344]), (14798574, [1088]), (14799615, [832]),
          (2020864, [576]), (2021894, [320]), (2285090, [64])],
      id_color_map :=
        [([13888], 64000), ([13632], 16776706), ([13376], 16056094), ([13120], 14352158),
          ([12864], 14810910), ([12608], 14811105), ([12352], 2031562), ([12096], 3604454),
          ([11840], 1900543), ([11584], 131072), ([11328], 16711706), ([11072], 15728694),
          ([10816], 14024734), ([10560], 14745825), ([10304], 1966306), ([10048], 3277566),
          ([9792], 1574655), ([9536], 2560), ([9280], 3606), ([9024], 16716338),
          ([8768], 15472158), ([8512], 13769441), ([8256], 14753505), ([8000], 14754526),
          ([7744], 1976058), ([7488], 3025663), ([7232], 1322496), ([6976], 12818),
          ([6720], 16725550), ([6464], 15212257), ([6208], 13508321), ([5952], 14753498),
          ([5696], 1974006), ([5440], 1974015), ([5184], 2760192), ([4928], 1056270),
          ([4672], 7722), ([4416], 16719390), ([4160], 16703969), ([3904], 15000033),
          ([3648], 13296086), ([3392], 14803442), ([3136], 2023935), ([2880], 2023680),
          ([2624], 2547978), ([2368], 844070), ([2112], 57630), ([1856], 16769310),
          ([1600], 16441825), ([1344], 14731986), ([1088], 14798574), ([832], 14799615),
          ([576], 2020864), ([320], 2021894), ([64], 2285090)],
      next_color_id := 1 } := by
  decide!

set_option maxRecDepth 200000 in
set_option maxHeartbeats 1000000 in
/-- Stage 2 of the fallback-collision run: the ids with codes
14144..17472 (step 256) advance the color maps of the retry chain to the
state below. -/
theorem colorChainStep2 :
    assignColors ({ initialEditor 800 600 with
      object_color_map :=
        [(64000, [13888]), (16776706, [13632]), (16056094, [13376]), (14352158, [13120]),
          (14810910, [12864]), (14811105, [12608]), (2031562, [12352]), (3604454, [12096]),
          (1900543, [11840]), (131072, [11584]), (16711706, [11328]), (15728694, [11072]),
          (14024734, [10816]), (14745825, [10560]), (1966306, [10304]), (3277566, [10048]),
          (1574655, [9792]), (2560, [9536]), (3606, [9280]), (16716338, [9024]),
          (15472158, [8768]), (13769441, [8512]), (14753505, [8256]), (14754526, [8000]),
          (1976058, [7744]), (3025663, [7488]), (1322496, [7232]), (12818, [6976]),
          (16725550, [6720]), (15212257, [6464]), (13508321, [6208]), (14753498, [5952]),
          (1974006, [5696]), (1974015, [5440]), (2760192, [5184]), (1056270, [4928]),
          (7722, [4672]), (16719390, [4416]), (16703969, [4160]), (15000033, [3904]),
          (13296086, [3648]), (14803442, [3392]), (2023935, [3136]), (2023680, [2880]),
          (2547978, [2624]), (844070, [2368]), (57630, [2112]), (16769310, [1856]),
          (16441825, [1600]), (14731986, [1344]), (14798574, [1088]), (14799615, [832]),
          (2020864, [576]), (2021894, [320]), (2285090, [64])],
      id_color_map :=
        [([13888], 64000), ([13632], 16776706), ([13376], 16056094), ([13120], 14352158),
          ([12864], 14810910), ([12608], 14811105), ([12352], 2031562), ([12096], 3604454),
          ([11840], 1900543), ([11584], 131072), ([11328], 16711706), ([11072], 15728694),
          ([10816], 14024734), ([10560], 14745825), ([10304], 1966306), ([10048], 3277566),
          ([9792], 1574655), ([9536], 2560), ([9280], 3606), ([9024], 16716338),
          ([8768], 15472158), ([8512], 13769441), ([8256], 14753505), ([8000], 14754526),
          ([7744], 1976058), ([7488], 3025663), ([7232], 1322496), ([6976], 12818),
          ([6720], 16725550), ([6464], 15212257), ([6208], 13508321), ([5952], 14753498),
          ([5696], 1974006), ([5440], 1974015), ([5184], 2760192), ([4928], 1056270),
          ([4672], 7722), ([4416], 16719390), ([4160], 16703969), ([3904], 15000033),
          ([3648], 13296086), ([3392], 14803442), ([3136], 2023935), ([2880], 2023680),
          ([2624], 2547978), ([2368], 844070), ([2112], 57630), ([1856], 16769310),
          ([1600], 16441825), ([1344], 14731986), ([1088], 14798574), ([832], 14799615),
          ([576], 2020864), ([320], 2021894), ([64], 2285090)],
      next_color_id := 1 })
      [[14144], [14400], [14656], [14912], [15168], [15424], [15680], [15936],
      [16192], [16448], [16704], [16960], [17216], [17472]]
    = { initialEditor 800 600 with
      object_color_map :=
        [(2023710, [17472]), (2023905, [17216]), (2411218, [16960]), (708334, [16704]),
          (54015, [16448]), (16766464, [16192]), (16308742, [15936]), (14605858, [15680]),
          (14803486, [15424]), (14804510, [15168]), (2026209, [14912]), (2027214, [14656]),
          (2159338, [14400]), (456447, [14144]), (64000, [13888]), (16776706, [13632]),
          (16056094, [13376]), (14352158, [13120]), (14810910, [12864]), (14811105, [12608]),
          (2031562, [12352]), (3604454, [12096]), (1900543, [11840]), (131072, [11584]),
          (16711706, [11328]), (15728694, [11072]), (14024734, [10816]), (14745825, [10560]),
          (1966306, [10304]), (3277566, [10048]), (1574655, [9792]), (2560, [9536]),
          (3606, [9280]), (16716338, [9024]), (15472158, [8768]), (13769441, [8512]),
          (14753505, [8256]), (14754526, [8000]), (1976058, [7744]), (3025663, [7488]),
          (1322496, [7232]), (12818, [6976]), (16725550, [6720]), (15212257, [6464]),
          (13508321, [6208]), (14753498, [5952]), (1974006, [5696]), (1974015, [5440]),
          (2760192, [5184]), (1056270, [4928]), (7722, [4672]), (16719390, [4416]),
          (16703969, [4160]), (15000033, [3904]), (13296086, [3648]), (14803442, [3392]),
          (2023935, [3136]), (2023680, [2880]), (2547978, [2624]), (844070, [2368]),
          (57630, [2112]), (16769310, [1856]), (16441825, [1600]), (14731986, [1344]),
          (14798574, [1088]), (14799615, [832]), (2020864, [576]), (2021894, [320]),
          (2285090, [64])],
      id_color_map :=
        [([17472], 2023710), ([17216], 2023905), ([16960], 2411218), ([16704], 708334),
          ([16448], 54015), ([16192], 16766464), ([15936], 16308742), ([15680], 14605858),
          ([15424], 14803486), ([15168], 14804510), ([14912], 2026209), ([14656], 2027214),
          ([14400], 2159338), ([14144], 456447), ([13888], 64000), ([13632], 16776706),
          ([13376], 16056094), ([13120], 14352158), ([12864], 14810910), ([12608], 14811105),
          ([12352], 2031562), ([12096], 3604454), ([11840], 1900543), ([11584], 131072),
          ([11328], 16711706), ([11072], 15728694), ([10816], 14024734), ([10560], 14745825),
          ([10304], 1966306), ([10048], 3277566), ([9792], 1574655), ([9536], 2560),
          ([9280], 3606), ([9024], 16716338), ([8768], 15472158), ([8512], 13769441),
          ([8256], 14753505), ([8000], 14754526), ([7744], 1976058), ([7488], 3025663),
          ([7232], 1322496), ([6976], 12818), ([6720], 16725550), ([6464], 15212257),
          ([6208], 13508321), ([5952], 14753498), ([5696], 1974006), ([5440], 1974015),
          ([5184], 2760192), ([4928], 1056270), ([4672], 7722), ([4416], 16719390),
          ([4160], 16703969), ([3904], 15000033), ([3648], 13296086), ([3392], 14803442),
          ([3136], 2023935), ([2880], 2023680), ([2624], 2547978), ([2368], 844070),
          ([2112], 57630), ([1856], 16769310), ([1600], 16441825), ([1344], 14731986),
          ([1088], 14798574), ([832], 14799615), ([576], 2020864), ([320], 2021894),
          ([64], 2285090)],
      next_color_id := 1 } := by
  decide!

set_option maxRecDepth 200000 in
set_option maxHeartbeats 1000000 in
/-- Stage 3 of the fallback-collision run: the ids with codes
17728..20032 (step 256) advance the color maps of the retry chain to the
state below. -/
theorem colorChainStep3 :
    assignColors ({ initialEditor 800 600 with
      object_color_map :=
        [(2023710, [17472]), (2023905, [17216]), (2411218, [16960]), (708334, [16704]),
          (54015, [16448]), (16766464, [16192]), (16308742, [15936]), (14605858, [15680]),
          (14803486, [15424]), (14804510, [15168]), (2026209, [14912]), (2027214, [14656]),
          (2159338, [14400]), (456447, [14144]), (64000, [13888]), (16776706, [13632]),
          (16056094, [13376]), (14352158, [13120]), (14810910, [12864]), (14811105, [12608]),
          (2031562, [12352]), (3604454, [12096]), (1900543, [11840]), (131072, [11584]),
          (16711706, [11328]), (15728694, [11072]), (14024734, [10816]), (14745825, [10560]),
          (1966306, [10304]), (3277566, [10048]), (1574655, [9792]), (2560, [9536]),
          (3606, [9280]), (16716338, [9024]), (15472158, [8768]), (13769441, [8512]),
          (14753505, [8256]), (14754526, [8000]), (1976058, [7744]), (3025663, [7488]),
          (1322496, [7232]), (12818, [6976]), (16725550, [6720]), (15212257, [6464]),
          (13508321, [6208]), (14753498, [5952]), (1974006, [5696]), (1974015, [5440]),
          (2760192, [5184]), (1056270, [4928]), (7722, [4672]), (16719390, [4416]),
          (16703969, [4160]), (15000033, [3904]), (13296086, [3648]), (14803442, [3392]),
          (2023935, [3136]), (2023680, [2880]), (2547978, [2624]), (844070, [2368]),
          (57630, [2112]), (16769310, [1856]), (16441825, [1600]), (14731986, [1344]),
          (14798574, [1088]), (14799615, [832]), (2020864, [576]), (2021894, [320]),
          (2285090, [64])],
      id_color_map :=
        [([17472], 2023710), ([17216], 2023905), ([16960], 2411218), ([16704], 708334),
          ([16448], 54015), ([16192], 16766464), ([15936], 16308742), ([15680], 14605858),
          ([15424], 14803486), ([15168], 14804510), ([14912], 2026209), ([14656], 2027214),
          ([14400], 2159338), ([14144], 456447), ([13888], 64000), ([13632], 16776706),
          ([13376], 16056094), ([13120], 14352158), ([12864], 14810910), ([12608], 14811105),
          ([12352], 2031562), ([12096], 3604454), ([11840], 1900543), ([11584], 131072),
          ([11328], 16711706), ([11072], 15728694), ([10816], 14024734), ([10560], 14745825),
          ([10304], 1966306), ([10048], 3277566), ([9792], 1574655), ([9536], 2560),
          ([9280], 3606), ([9024], 16716338), ([8768], 15472158), ([8512], 13769441),
          ([8256], 14753505), ([8000], 14754526), ([7744], 1976058), ([7488], 3025663),
          ([7232], 1322496), ([6976], 12818), ([6720], 16725550), ([6464], 15212257),
          ([6208], 13508321), ([5952], 14753498), ([5696], 1974006), ([5440], 1974015),
          ([5184], 2760192), ([4928], 1056270), ([4672], 7722), ([4416], 16719390),
          ([4160], 16703969), ([3904], 15000033), ([3648], 13296086), ([3392], 14803442),
          ([3136], 2023935), ([2880], 2023680), ([2624], 2547978), ([2368], 844070),
          ([2112], 57630), ([1856], 16769310), ([1600], 16441825), ([1344], 14731986),
          ([1088], 14798574), ([832], 14799615), ([576], 2020864), ([320], 2021894),
          ([64], 2285090)],
      next_color_id := 1 })
      [[17728], [17984], [18240], [18496], [18752], [19008], [19264], [19520],
      [19776], [20032]]
    = { initialEditor 800 600 with
      object_color_map :=
        [(14753322, [20032]), (1973790, [19776]), (2679265, [19520]), (975318, [19264]),
          (57842, [19008]), (16769535, [18752]), (16572672, [18496]), (14868746, [18240]),
          (14803238, [17984]), (14803230, [17728]), (2023710, [17472]), (2023905, [17216]),
          (2411218, [16960]), (708334, [16704]), (54015, [16448]), (16766464, [16192]),
          (16308742, [15936]), (14605858, [15680]), (14803486, [15424]), (14804510, [15168]),
          (2026209, [14912]), (2027214, [14656]), (2159338, [14400]), (456447, [14144]),
          (64000, [13888]), (16776706, [13632]), (16056094, [13376]), (14352158, [13120]),
          (14810910, [12864]), (14811105, [12608]), (2031562, [12352]), (3604454, [12096]),
          (1900543, [11840]), (131072, [11584]), (16711706, [11328]), (15728694, [11072]),
          (14024734, [10816]), (14745825, [10560]), (1966306, [10304]), (3277566, [10048]),
          (1574655, [9792]), (2560, [9536]), (3606, [9280]), (16716338, [9024]),
          (15472158, [8768]), (13769441, [8512]), (14753505, [8256]), (14754526, [8000]),
          (1976058, [7744]), (3025663, [7488]), (1322496, [7232]), (12818, [6976]),
          (16725550, [6720]), (15212257, [6464]), (13508321, [6208]), (14753498, [5952]),
          (1974006, [5696]), (1974015, [5440]), (2760192, [5184]), (1056270, [4928]),
          (7722, [4672]), (16719390, [4416]), (16703969, [4160]), (15000033, [3904]),
          (13296086, [3648]), (14803442, [3392]), (2023935, [3136]), (2023680, [2880]),
          (2547978, [2624]), (844070, [2368]), (57630, [2112]), (16769310, [1856]),
          (16441825, [1600]), (14731986, [1344]), (14798574, [1088]), (14799615, [832]),
          (2020864, [576]), (2021894, [320]), (2285090, [64])],
      id_color_map :=
        [([20032], 14753322), ([19776], 1973790), ([19520], 2679265), ([19264], 975318),
          ([19008], 57842), ([18752], 16769535), ([18496], 16572672), ([18240], 14868746),
          ([17984], 14803238), ([17728], 14803230), ([17472], 2023710), ([17216], 2023905),
          ([16960], 2411218), ([16704], 708334), ([16448], 54015), ([16192], 16766464),
          ([15936], 16308742), ([15680], 14605858), ([15424], 14803486), ([15168], 14804510),
          ([14912], 2026209), ([14656], 2027214), ([14400], 2159338), ([14144], 456447),
          ([13888], 64000), ([13632], 16776706), ([13376], 16056094), ([13120], 14352158),
          ([12864], 14810910), ([12608], 14811105), ([12352], 2031562), ([12096], 3604454),
          ([11840], 1900543), ([11584], 131072), ([11328], 16711706), ([11072], 15728694),
          ([10816], 14024734), ([10560], 14745825), ([10304], 1966306), ([10048], 3277566),
          ([9792], 1574655), ([9536], 2560), ([9280], 3606), ([9024], 16716338),
          ([8768], 15472158), ([8512], 13769441), ([8256], 14753505), ([8000], 14754526),
          ([7744], 1976058), ([7488], 3025663), ([7232], 1322496), ([6976], 12818),
          ([6720], 16725550), ([6464], 15212257), ([6208], 13508321), ([5952], 14753498),
          ([5696], 1974006), ([5440], 1974015), ([5184], 2760192), ([4928], 1056270),
          ([4672], 7722), ([4416], 16719390), ([4160], 16703969), ([3904], 15000033),
          ([3648], 13296086), ([3392], 14803442), ([3136], 2023935), ([2880], 2023680),
          ([2624], 2547978), ([2368], 844070), ([2112], 57630), ([1856], 16769310),
          ([1600], 16441825), ([1344], 14731986), ([1088], 14798574), ([832], 14799615),
          ([576], 2020864), ([320], 2021894), ([64], 2285090)],
      next_color_id := 1 } := by
  decide!

set_option maxRecDepth 200000 in
set_option maxHeartbeats 1000000 in
/-- Stage 4 of the fallback-collision run: the ids with codes
20288..22080 (step 256) advance the color maps of the retry chain to the
state below. -/
theorem colorChainStep4 :
    assignColors ({ initialEditor 800 600 with
      object_color_map :=
        [(14753322, [20032]), (1973790, [19776]), (2679265, [19520]), (975318, [19264]),
          (57842, [19008]), (16769535, [18752]), (16572672, [18496]), (14868746, [18240]),
          (14803238, [17984]), (14803230, [17728]), (2023710, [17472]), (2023905, [17216]),
          (2411218, [16960]), (708334, [16704]), (54015, [16448]), (16766464, [16192]),
          (16308742, [15936]), (14605858, [15680]), (14803486, [15424]), (14804510, [15168]),
          (2026209, [14912]), (2027214, [14656]), (2159338, [14400]), (456447, [14144]),
          (64000, [13888]), (16776706, [13632]), (16056094, [13376]), (14352158, [13120]),
          (14810910, [12864]), (14811105, [12608]), (2031562, [12352]), (3604454, [12096]),
          (1900543, [11840]), (131072, [11584]), (16711706, [11328]), (15728694, [11072]),
          (14024734, [10816]), (14745825, [10560]), (1966306, [10304]), (3277566, [10048]),
          (1574655, [9792]), (2560, [9536]), (3606, [9280]), (16716338, [9024]),
          (15472158, [8768]), (13769441, [8512]), (14753505, [8256]), (14754526, [8000]),
          (1976058, [7744]), (3025663, [7488]), (1322496, [7232]), (12818, [6976]),
          (16725550, [6720]), (15212257, [6464]), (13508321, [6208]), (14753498, [5952]),
          (1974006, [5696]), (1974015, [5440]), (2760192, [5184]), (1056270, [4928]),
          (7722, [4672]), (16719390, [4416]), (16703969, [4160]), (15000033, [3904]),
          (13296086, [3648]), (14803442, [3392]), (2023935, [3136]), (2023680, [2880]),
          (2547978, [2624]), (844070, [2368]), (57630, [2112]), (16769310, [1856]),
          (16441825, [1600]), (14731986, [1344]), (14798574, [1088]), (14799615, [832]),
          (2020864, [576]), (2021894, [320]), (2285090, [64])],
      id_color_map :=
        [([20032], 14753322), ([19776], 1973790), ([19520], 2679265), ([19264], 975318),
          ([19008], 57842), ([18752], 16769535), ([18496], 16572672), ([18240], 14868746),
          ([17984], 14803238), ([17728], 14803230), ([17472], 2023710), ([17216], 2023905),
          ([16960], 2411218), ([16704], 708334), ([16448], 54015), ([16192], 16766464),
          ([15936], 16308742), ([15680], 14605858), ([15424], 14803486), ([15168], 14804510),
          ([14912], 2026209), ([14656], 2027214), ([14400], 2159338), ([14144], 456447),
          ([13888], 64000), ([13632], 16776706), ([13376], 16056094), ([13120], 14352158),
          ([12864], 14810910), ([12608], 14811105), ([12352], 2031562), ([12096], 3604454),
          ([11840], 1900543), ([11584], 131072), ([11328], 16711706), ([11072], 15728694),
          ([10816], 14024734), ([10560], 14745825), ([10304], 1966306), ([10048], 3277566),
          ([9792], 1574655), ([9536], 2560), ([9280], 3606), ([9024], 16716338),
          ([8768], 15472158), ([8512], 13769441), ([8256], 14753505), ([8000], 14754526),
          ([7744], 1976058), ([7488], 3025663), ([7232], 1322496), ([6976], 12818),
          ([6720], 16725550), ([6464], 15212257), ([6208], 13508321), ([5952], 14753498),
          ([5696], 1974006), ([5440], 1974015), ([5184], 2760192), ([4928], 1056270),
          ([4672], 7722), ([4416], 16719390), ([4160], 16703969), ([3904], 15000033),
          ([3648], 13296086), ([3392], 14803442), ([3136], 2023935), ([2880], 2023680),
          ([2624], 2547978), ([2368], 844070), ([2112], 57630), ([1856], 16769310),
          ([1600], 16441825), ([1344], 14731986), ([1088], 14798574), ([832], 14799615),
          ([576], 2020864), ([320], 2021894), ([64], 2285090)],
      next_color_id := 1 })
      [[20288], [20544], [20800], [21056], [21312], [21568], [21824], [22080]]
    = { initialEditor 800 600 with
      object_color_map :=
        [(1979950, [22080]), (2891489, [21824]), (1187553, [21568]), (7898, [21312]),
          (16719606, [21056]), (16719615, [20800]), (15080960, [20544]), (13377038, [20288]),
          (14753322, [20032]), (1973790, [19776]), (2679265, [19520]), (975318, [19264]),
          (57842, [19008]), (16769535, [18752]), (16572672, [18496]), (14868746, [18240]),
          (14803238, [17984]), (14803230, [17728]), (2023710, [17472]), (2023905, [17216]),
          (2411218, [16960]), (708334, [16704]), (54015, [16448]), (16766464, [16192]),
          (16308742, [15936]), (14605858, [15680]), (14803486, [15424]), (14804510, [15168]),
          (2026209, [14912]), (2027214, [14656]), (2159338, [14400]), (456447, [14144]),
          (64000, [13888]), (16776706, [13632]), (16056094, [13376]), (14352158, [13120]),
          (14810910, [12864]), (14811105, [12608]), (2031562, [12352]), (3604454, [12096]),
          (1900543, [11840]), (131072, [11584]), (16711706, [11328]), (15728694, [11072]),
          (14024734, [10816]), (14745825, [10560]), (1966306, [10304]), (3277566, [10048]),
          (1574655, [9792]), (2560, [9536]), (3606, [9280]), (16716338, [9024]),
          (15472158, [8768]), (13769441, [8512]), (14753505, [8256]), (14754526, [8000]),
          (1976058, [7744]), (3025663, [7488]), (1322496, [7232]), (12818, [6976]),
          (16725550, [6720]), (15212257, [6464]), (13508321, [6208]), (14753498, [5952]),
          (1974006, [5696]), (1974015, [5440]), (2760192, [5184]), (1056270, [4928]),
          (7722, [4672]), (16719390, [4416]), (16703969, [4160]), (15000033, [3904]),
          (13296086, [3648]), (14803442, [3392]), (2023935, [3136]), (2023680, [2880]),
          (2547978, [2624]), (844070, [2368]), (57630, [2112]), (16769310, [1856]),
          (16441825, [1600]), (14731986, [1344]), (14798574, [1088]), (14799615, [832]),
          (2020864, [576]), (2021894, [320]), (2285090, [64])],
      id_color_map :=
        [([22080], 1979950), ([21824], 2891489), ([21568], 1187553), ([21312], 7898),
          ([21056], 16719606), ([20800], 16719615), ([20544], 15080960), ([20288], 13377038),
          ([20032], 14753322), ([19776], 1973790), ([19520], 2679265), ([19264], 975318),
          ([19008], 57842), ([18752], 16769535), ([18496], 16572672), ([18240], 14868746),
          ([17984], 14803238), ([17728], 14803230), ([17472], 2023710), ([17216], 2023905),
          ([16960], 2411218), ([16704], 708334), ([16448], 54015), ([16192], 16766464),
          ([15936], 16308742), ([15680], 14605858), ([15424], 14803486), ([15168], 14804510),
          ([14912], 2026209), ([14656], 2027214), ([14400], 2159338), ([14144], 456447),
          ([13888], 64000), ([13632], 16776706), ([13376], 16056094), ([13120], 14352158),
          ([12864], 14810910), ([12608], 14811105), ([12352], 2031562), ([12096], 3604454),
          ([11840], 1900543), ([11584], 131072), ([11328], 16711706), ([11072], 15728694),
          ([10816], 14024734), ([10560], 14745825), ([10304], 1966306), ([10048], 3277566),
          ([9792], 1574655), ([9536], 2560), ([9280], 3606), ([9024], 16716338),
          ([8768], 15472158), ([8512], 13769441), ([8256], 14753505), ([8000], 14754526),
          ([7744], 1976058), ([7488], 3025663), ([7232], 1322496), ([6976], 12818),
          ([6720], 16725550), ([6464], 15212257), ([6208], 13508321), ([5952], 14753498),
          ([5696], 1974006), ([5440], 1974015), ([5184], 2760192), ([4928], 1056270),
          ([4672], 7722), ([4416], 16719390), ([4160], 16703969), ([3904], 15000033),
          ([3648], 13296086), ([3392], 14803442), ([3136], 2023935), ([2880], 2023680),
          ([2624], 2547978), ([2368], 844070), ([2112], 57630), ([1856], 16769310),
          ([1600], 16441825), ([1344], 14731986), ([1088], 14798574), ([832], 14799615),
          ([576], 2020864), ([320], 2021894), ([64], 2285090)],
      next_color_id := 1 } := by
  decide!

set_option maxRecDepth 200000 in
set_option maxHeartbeats 1000000 in
/-- Stage 5 of the fallback-collision run: the ids with codes
22336..23616 (step 256) advance the color maps of the retry chain to the
state below. -/
theorem colorChainStep5 :
    assignColors ({ initialEditor 800 600 with
      object_color_map :=
        [(1979950, [22080]), (2891489, [21824]), (1187553, [21568]), (7898, [21312]),
          (16719606, [21056]), (16719615, [20800]), (15080960, [20544]), (13377038, [20288]),
          (14753322, [20032]), (1973790, [19776]), (2679265, [19520]), (975318, [19264]),
          (57842, [19008]), (16769535, [18752]), (16572672, [18496]), (14868746, [18240]),
          (14803238, [17984]), (14803230, [17728]), (2023710, [17472]), (2023905, [17216]),
          (2411218, [16960]), (708334, [16704]), (54015, [16448]), (16766464, [16192]),
          (16308742, [15936]), (14605858, [15680]), (14803486, [15424]), (14804510, [15168]),
          (2026209, [14912]), (2027214, [14656]), (2159338, [14400]), (456447, [14144]),
          (64000, [13888]), (16776706, [13632]), (16056094, [13376]), (14352158, [13120]),
          (14810910, [12864]), (14811105, [12608]), (2031562, [12352]), (3604454, [12096]),
          (1900543, [11840]), (131072, [11584]), (16711706, [11328]), (15728694, [11072]),
          (14024734, [10816]), (14745825, [10560]), (1966306, [10304]), (3277566, [10048]),
          (1574655, [9792]), (2560, [9536]), (3606, [9280]), (16716338, [9024]),
          (15472158, [8768]), (13769441, [8512]), (14753505, [8256]), (14754526, [8000]),
          (1976058, [7744]), (3025663, [7488]), (1322496, [7232]), (12818, [6976]),
          (16725550, [6720]), (15212257, [6464]), (13508321, [6208]), (14753498, [5952]),
          (1974006, [5696]), (1974015, [5440]), (2760192, [5184]), (1056270, [4928]),
          (7722, [4672]), (16719390, [4416]), (16703969, [4160]), (15000033, [3904]),
          (13296086, [3648]), (14803442, [3392]), (2023935, [3136]), (2023680, [2880]),
          (2547978, [2624]), (844070, [2368]), (57630, [2112]), (16769310, [1856]),
          (16441825, [1600]), (14731986, [1344]), (14798574, [1088]), (14799615, [832]),
          (2020864, [576]), (2021894, [320]), (2285090, [64])],
      id_color_map :=
        [([22080], 1979950), ([21824], 2891489), ([21568], 1187553), ([21312], 7898),
          ([21056], 16719606), ([20800], 16719615), ([20544], 15080960), ([20288], 13377038),
          ([20032], 14753322), ([19776], 1973790), ([19520], 2679265), ([19264], 975318),
          ([19008], 57842), ([18752], 16769535), ([18496], 16572672), ([18240], 14868746),
          ([17984], 14803238), ([17728], 14803230), ([17472], 2023710), ([17216], 2023905),
          ([16960], 2411218), ([16704], 708334), ([16448], 54015), ([16192], 16766464),
          ([15936], 16308742), ([15680], 14605858), ([15424], 14803486), ([15168], 14804510),
          ([14912], 2026209), ([14656], 2027214), ([14400], 2159338), ([14144], 456447),
          ([13888], 64000), ([13632], 16776706), ([13376], 16056094), ([13120], 14352158),
          ([12864], 14810910), ([12608], 14811105), ([12352], 2031562), ([12096], 3604454),
          ([11840], 1900543), ([11584], 131072), ([11328], 16711706), ([11072], 15728694),
          ([10816], 14024734), ([10560], 14745825), ([10304], 1966306), ([10048], 3277566),
          ([9792], 1574655), ([9536], 2560), ([9280], 3606), ([9024], 16716338),
          ([8768], 15472158), ([8512], 13769441), ([8256], 14753505), ([8000], 14754526),
          ([7744], 1976058), ([7488], 3025663), ([7232], 1322496), ([6976], 12818),
          ([6720], 16725550), ([6464], 15212257), ([6208], 13508321), ([5952], 14753498),
          ([5696], 1974006), ([5440], 1974015), ([5184], 2760192), ([4928], 1056270),
          ([4672], 7722), ([4416], 16719390), ([4160], 16703969), ([3904], 15000033),
          ([3648], 13296086), ([3392], 14803442), ([3136], 2023935), ([2880], 2023680),
          ([2624], 2547978), ([2368], 844070), ([2112], 57630), ([1856], 16769310),
          ([1600], 16441825), ([1344], 14731986), ([1088], 14798574), ([832], 14799615),
          ([576], 2020864), ([320], 2021894), ([64], 2285090)],
      next_color_id := 1 })
      [[22336], [22592], [22848], [23104], [23360], [23616]]
    = { initialEditor 800 600 with
      object_color_map :=
        [(7905, [23616]), (8926, [23360]), (16721658, [23104]), (15346431, [22848]),
          (13643264, [22592]), (14758418, [22336]), (1979950, [22080]), (2891489, [21824]),
          (1187553, [21568]), (7898, [21312]), (16719606, [21056]), (16719615, [20800]),
          (15080960, [20544]), (13377038, [20288]), (14753322, [20032]), (1973790, [19776]),
          (2679265, [19520]), (975318, [19264]), (57842, [19008]), (16769535, [18752]),
          (16572672, [18496]), (14868746, [18240]), (14803238, [17984]), (14803230, [17728]),
          (2023710, [17472]), (2023905, [17216]), (2411218, [16960]), (708334, [16704]),
          (54015, [16448]), (16766464, [16192]), (16308742, [15936]), (14605858, [15680]),
          (14803486, [15424]), (14804510, [15168]), (2026209, [14912]), (2027214, [14656]),
          (2159338, [14400]), (456447, [14144]), (64000, [13888]), (16776706, [13632]),
          (16056094, [13376]), (14352158, [13120]), (14810910, [12864]), (14811105, [12608]),
          (2031562, [12352]), (3604454, [12096]), (1900543, [11840]), (131072, [11584]),
          (16711706, [11328]), (15728694, [11072]), (14024734, [10816]), (14745825, [10560]),
          (1966306, [10304]), (3277566, [10048]), (1574655, [9792]), (2560, [9536]),
          (3606, [9280]), (16716338, [9024]), (15472158, [8768]), (13769441, [8512]),
          (14753505, [8256]), (14754526, [8000]), (1976058, [7744]), (3025663, [7488]),
          (1322496, [7232]), (12818, [6976]), (16725550, [6720]), (15212257, [6464]),
          (13508321, [6208]), (14753498, [5952]), (1974006, [5696]), (1974015, [5440]),
          (2760192, [5184]), (1056270, [4928]), (7722, [4672]), (16719390, [4416]),
          (16703969, [4160]), (15000033, [3904]), (13296086, [3648]), (14803442, [3392]),
          (2023935, [3136]), (2023680, [2880]), (2547978, [2624]), (844070, [2368]),
          (57630, [2112]), (16769310, [1856]), (16441825, [1600]), (14731986, [1344]),
          (14798574, [1088]), (14799615, [832]), (2020864, [576]), (2021894, [320]),
          (2285090, [64])],
      id_color_map :=
        [([23616], 7905), ([23360], 8926), ([23104], 16721658), ([22848], 15346431),
          ([22592], 13643264), ([22336], 14758418), ([22080], 1979950), ([21824], 2891489),
          ([21568], 1187553), ([21312], 7898), ([21056], 16719606), ([20800], 16719615),
          ([20544], 15080960), ([20288], 13377038), ([20032], 14753322), ([19776], 1973790),
          ([19520], 2679265), ([19264], 975318), ([19008], 57842), ([18752], 16769535),
          ([18496], 16572672), ([18240], 14868746), ([17984], 14803238), ([17728], 14803230),
          ([17472], 2023710), ([17216], 2023905), ([16960], 2411218), ([16704], 708334),
          ([16448], 54015), ([16192], 16766464), ([15936], 16308742), ([15680], 14605858),
          ([15424], 14803486), ([15168], 14804510), ([14912], 2026209), ([14656], 2027214),
          ([14400], 2159338), ([14144], 456447), ([13888], 64000), ([13632], 16776706),
          ([13376], 16056094), ([13120], 14352158), ([12864], 14810910), ([12608], 14811105),
          ([12352], 2031562), ([12096], 3604454), ([11840], 1900543), ([11584], 131072),
          ([11328], 16711706), ([11072], 15728694), ([10816], 14024734), ([10560], 14745825),
          ([10304], 1966306), ([10048], 3277566), ([9792], 1574655), ([9536], 2560),
          ([9280], 3606), ([9024], 16716338), ([8768], 15472158), ([8512], 13769441),
          ([8256], 14753505), ([8000], 14754526), ([7744], 1976058), ([7488], 3025663),
          ([7232], 1322496), ([6976], 12818), ([6720], 16725550), ([6464], 15212257),
          ([6208], 13508321), ([5952], 14753498), ([5696], 1974006), ([5440], 1974015),
          ([5184], 2760192), ([4928], 1056270), ([4672], 7722), ([4416], 16719390),
          ([4160], 16703969), ([3904], 15000033), ([3648], 13296086), ([3392], 14803442),
          ([3136], 2023935), ([2880], 2023680), ([2624], 2547978), ([2368], 844070),
          ([2112], 57630), ([1856], 16769310), ([1600], 16441825), ([1344], 14731986),
          ([1088], 14798574), ([832], 14799615), ([576], 2020864), ([320], 2021894),
          ([64], 2285090)],
      next_color_id := 1 } := by
  decide!

set_option maxRecDepth 200000 in
set_option maxHeartbeats 1000000 in
/-- Stage 6 of the fallback-collision run: the ids with codes
23872..25152 (step 256) advance the color maps of the retry chain to the
state below. -/
theorem colorChainStep6 :
    assignColors ({ initialEditor 800 600 with
      object_color_map :=
        [(7905, [23616]), (8926, [23360]), (16721658, [23104]), (15346431, [22848]),
          (13643264, [22592]), (14758418, [22336]), (1979950, [22080]), (2891489, [21824]),
          (1187553, [21568]), (7898, [21312]), (16719606, [21056]), (16719615, [20800]),
          (15080960, [20544]), (13377038, [20288]), (14753322, [20032]), (1973790, [19776]),
          (2679265, [19520]), (975318, [19264]), (57842, [19008]), (16769535, [18752]),
          (16572672, [18496]), (14868746, [18240]), (14803238, [17984]), (14803230, [17728]),
          (2023710, [17472]), (2023905, [17216]), (2411218, [16960]), (708334, [16704]),
          (54015, [16448]), (16766464, [16192]), (16308742, [15936]), (14605858, [15680]),
          (14803486, [15424]), (14804510, [15168]), (2026209, [14912]), (2027214, [14656]),
          (2159338, [14400]), (456447, [14144]), (64000, [13888]), (16776706, [13632]),
          (16056094, [13376]), (14352158, [13120]), (14810910, [12864]), (14811105, [12608]),
          (2031562, [12352]), (3604454, [12096]), (1900543, [11840]), (131072, [11584]),
          (16711706, [11328]), (15728694, [11072]), (14024734, [10816]), (14745825, [10560]),
          (1966306, [10304]), (3277566, [10048]), (1574655, [9792]), (2560, [9536]),
          (3606, [9280]), (16716338, [9024]), (15472158, [8768]), (13769441, [8512]),
          (14753505, [8256]), (14754526, [8000]), (1976058, [7744]), (3025663, [7488]),
          (1322496, [7232]), (12818, [6976]), (16725550, [6720]), (15212257, [6464]),
          (13508321, [6208]), (14753498, [5952]), (1974006, [5696]), (1974015, [5440]),
          (2760192, [5184]), (1056270, [4928]), (7722, [4672]), (16719390, [4416]),
          (16703969, [4160]), (15000033, [3904]), (13296086, [3648]), (14803442, [3392]),
          (2023935, [3136]), (2023680, [2880]), (2547978, [2624]), (844070, [2368]),
          (57630, [2112]), (16769310, [1856]), (16441825, [1600]), (14731986, [1344]),
          (14798574, [1088]), (14799615, [832]), (2020864, [576]), (2021894, [320]),
          (2285090, [64])],
      id_color_map :=
        [([23616], 7905), ([23360], 8926), ([23104], 16721658), ([22848], 15346431),
          ([22592], 13643264), ([22336], 14758418), ([22080], 1979950), ([21824], 2891489),
          ([21568], 1187553), ([21312], 7898), ([21056], 16719606), ([20800], 16719615),
          ([20544], 15080960), ([20288], 13377038), ([20032], 14753322), ([19776], 1973790),
          ([19520], 2679265), ([19264], 975318), ([19008], 57842), ([18752], 16769535),
          ([18496], 16572672), ([18240], 14868746), ([17984], 14803238), ([17728], 14803230),
          ([17472], 2023710), ([17216], 2023905), ([16960], 2411218), ([16704], 708334),
          ([16448], 54015), ([16192], 16766464), ([15936], 16308742), ([15680], 14605858),
          ([15424], 14803486), ([15168], 14804510), ([14912], 2026209), ([14656], 2027214),
          ([14400], 2159338), ([14144], 456447), ([13888], 64000), ([13632], 16776706),
          ([13376], 16056094), ([13120], 14352158), ([12864], 14810910), ([12608], 14811105),
          ([12352], 2031562), ([12096], 3604454), ([11840], 1900543), ([11584], 131072),
          ([11328], 16711706), ([11072], 15728694), ([10816], 14024734), ([10560], 14745825),
          ([10304], 1966306), ([10048], 3277566), ([9792], 1574655), ([9536], 2560),
          ([9280], 3606), ([9024], 16716338), ([8768], 15472158), ([8512], 13769441),
          ([8256], 14753505), ([8000], 14754526), ([7744], 1976058), ([7488], 3025663),
          ([7232], 1322496), ([6976], 12818), ([6720], 16725550), ([6464], 15212257),
          ([6208], 13508321), ([5952], 14753498), ([5696], 1974006), ([5440], 1974015),
          ([5184], 2760192), ([4928], 1056270), ([4672], 7722), ([4416], 16719390),
          ([4160], 16703969), ([3904], 15000033), ([3648], 13296086), ([3392], 14803442),
          ([3136], 2023935), ([2880], 2023680), ([2624], 2547978), ([2368], 844070),
          ([2112], 57630), ([1856], 16769310), ([1600], 16441825), ([1344], 14731986),
          ([1088], 14798574), ([832], 14799615), ([576], 2020864), ([320], 2021894),
          ([64], 2285090)],
      next_color_id := 1 })
      [[23872], [24128], [24384], [24640], [24896], [25152]]
    = { initialEditor 800 600 with
      object_color_map :=
        [(13895423, [25152]), (14748160, [24896]), (14749206, [24640]), (1970738, [24384]),
          (3151390, [24128]), (1448673, [23872]), (7905, [23616]), (8926, [23360]),
          (16721658, [23104]), (15346431, [22848]), (13643264, [22592]), (14758418, [22336]),
          (1979950, [22080]), (2891489, [21824]), (1187553, [21568]), (7898, [21312]),
          (16719606, [21056]), (16719615, [20800]), (15080960, [20544]), (13377038, [20288]),
          (14753322, [20032]), (1973790, [19776]), (2679265, [19520]), (975318, [19264]),
          (57842, [19008]), (16769535, [18752]), (16572672, [18496]), (14868746, [18240]),
          (14803238, [17984]), (14803230, [17728]), (2023710, [17472]), (2023905, [17216]),
          (2411218, [16960]), (708334, [16704]), (54015, [16448]), (16766464, [16192]),
          (16308742, [15936]), (14605858, [15680]), (14803486, [15424]), (14804510, [15168]),
          (2026209, [14912]), (2027214, [14656]), (2159338, [14400]), (456447, [14144]),
          (64000, [13888]), (16776706, [13632]), (16056094, [13376]), (14352158, [13120]),
          (14810910, [12864]), (14811105, [12608]), (2031562, [12352]), (3604454, [12096]),
          (1900543, [11840]), (131072, [11584]), (16711706, [11328]), (15728694, [11072]),
          (14024734, [10816]), (14745825, [10560]), (1966306, [10304]), (3277566, [10048]),
          (1574655, [9792]), (2560, [9536]), (3606, [9280]), (16716338, [9024]),
          (15472158, [8768]), (13769441, [8512]), (14753505, [8256]), (14754526, [8000]),
          (1976058, [7744]), (3025663, [7488]), (1322496, [7232]), (12818, [6976]),
          (16725550, [6720]), (15212257, [6464]), (13508321, [6208]), (14753498, [5952]),
          (1974006, [5696]), (1974015, [5440]), (2760192, [5184]), (1056270, [4928]),
          (7722, [4672]), (16719390, [4416]), (16703969, [4160]), (15000033, [3904]),
          (13296086, [3648]), (14803442, [3392]), (2023935, [3136]), (2023680, [2880]),
          (2547978, [2624]), (844070, [2368]), (57630, [2112]), (16769310, [1856]),
          (16441825, [1600]), (14731986, [1344]), (14798574, [1088]), (14799615, [832]),
          (2020864, [576]), (2021894, [320]), (2285090, [64])],
      id_color_map :=
        [([25152], 13895423), ([24896], 14748160), ([24640], 14749206), ([24384], 1970738),
          ([24128], 3151390), ([23872], 1448673), ([23616], 7905), ([23360], 8926),
          ([23104], 16721658), ([22848], 15346431), ([22592], 13643264), ([22336], 14758418),
          ([22080], 1979950), ([21824], 2891489), ([21568], 1187553), ([21312], 7898),
          ([21056], 16719606), ([20800], 16719615), ([20544], 15080960), ([20288], 13377038),
          ([20032], 14753322), ([19776], 1973790), ([19520], 2679265), ([19264], 975318),
          ([19008], 57842), ([18752], 16769535), ([18496], 16572672), ([18240], 14868746),
          ([17984], 14803238), ([17728], 14803230), ([17472], 2023710), ([17216], 2023905),
          ([16960], 2411218), ([16704], 708334), ([16448], 54015), ([16192], 16766464),
          ([15936], 16308742), ([15680], 14605858), ([15424], 14803486), ([15168], 14804510),
          ([14912], 2026209), ([14656], 2027214), ([14400], 2159338), ([14144], 456447),
          ([13888], 64000), ([13632], 16776706), ([13376], 16056094), ([13120], 14352158),
          ([12864], 14810910), ([12608], 14811105), ([12352], 2031562), ([12096], 3604454),
          ([11840], 1900543), ([11584], 131072), ([11328], 16711706), ([11072], 15728694),
          ([10816], 14024734), ([10560], 14745825), ([10304], 1966306), ([10048], 3277566),
          ([9792], 1574655), ([9536], 2560), ([9280], 3606), ([9024], 16716338),
          ([8768], 15472158), ([8512], 13769441), ([8256], 14753505), ([8000], 14754526),
          ([7744], 1976058), ([7488], 3025663), ([7232], 1322496), ([6976], 12818),
          ([6720], 16725550), ([6464], 15212257), ([6208], 13508321), ([5952], 14753498),
          ([5696], 1974006), ([5440], 1974015), ([5184], 2760192), ([4928], 1056270),
          ([4672], 7722), ([4416], 16719390), ([4160], 16703969), ([3904], 15000033),
          ([3648], 13296086), ([3392], 14803442), ([3136], 2023935), ([2880], 2023680),
          ([2624], 2547978), ([2368], 844070), ([2112], 57630), ([1856], 16769310),
          ([1600], 16441825), ([1344], 14731986), ([1088], 14798574), ([832], 14799615),
          ([576], 2020864), ([320], 2021894), ([64], 2285090)],
      next_color_id := 1 } := by
  decide!

set_option maxRecDepth 200000 in
set_option maxHeartbeats 1000000 in
/-- Stage 7 of the fallback-collision run: the ids with codes
25408..26432 (step 256) advance the color maps of the retry chain to the
state below. -/
theorem colorChainStep7 :
    assignColors ({ initialEditor 800 600 with
      object_color_map :=
        [(13895423, [25152]), (14748160, [24896]), (14749206, [24640]), (1970738, [24384]),
          (3151390, [24128]), (1448673, [23872]), (7905, [23616]), (8926, [23360]),
          (16721658, [23104]), (15346431, [22848]), (13643264, [22592]), (14758418, [22336]),
          (1979950, [22080]), (2891489, [21824]), (1187553, [21568]), (7898, [21312]),
          (16719606, [21056]), (16719615, [20800]), (15080960, [20544]), (13377038, [20288]),
          (14753322, [20032]), (1973790, [19776]), (2679265, [19520]), (975318, [19264]),
          (57842, [19008]), (16769535, [18752]), (16572672, [18496]), (14868746, [18240]),
          (14803238, [17984]), (14803230, [17728]), (2023710, [17472]), (2023905, [17216]),
          (2411218, [16960]), (708334, [16704]), (54015, [16448]), (16766464, [16192]),
          (16308742, [15936]), (14605858, [15680]), (14803486, [15424]), (14804510, [15168]),
          (2026209, [14912]), (2027214, [14656]), (2159338, [14400]), (456447, [14144]),
          (64000, [13888]), (16776706, [13632]), (16056094, [13376]), (14352158, [13120]),
          (14810910, [12864]), (14811105, [12608]), (2031562, [12352]), (3604454, [12096]),
          (1900543, [11840]), (131072, [11584]), (16711706, [11328]), (15728694, [11072]),
          (14024734, [10816]), (14745825, [10560]), (1966306, [10304]), (3277566, [10048]),
          (1574655, [9792]), (2560, [9536]), (3606, [9280]), (16716338, [9024]),
          (15472158, [8768]), (13769441, [8512]), (14753505, [8256]), (14754526, [8000]),
          (1976058, [7744]), (3025663, [7488]), (1322496, [7232]), (12818, [6976]),
          (16725550, [6720]), (15212257, [6464]), (13508321, [6208]), (14753498, [5952]),
          (1974006, [5696]), (1974015, [5440]), (2760192, [5184]), (1056270, [4928]),
          (7722, [4672]), (16719390, [4416]), (16703969, [4160]), (15000033, [3904]),
          (13296086, [3648]), (14803442, [3392]), (2023935, [3136]), (2023680, [2880]),
          (2547978, [2624]), (844070, [2368]), (57630, [2112]), (16769310, [1856]),
          (16441825, [1600]), (14731986, [1344]), (14798574, [1088]), (14799615, [832]),
          (2020864, [576]), (2021894, [320]), (2285090, [64])],
      id_color_map :=
        [([25152], 13895423), ([24896], 14748160), ([24640], 14749206), ([24384], 1970738),
          ([24128], 3151390), ([23872], 1448673), ([23616], 7905), ([23360], 8926),
          ([23104], 16721658), ([22848], 15346431), ([22592], 13643264), ([22336], 14758418),
          ([22080], 1979950), ([21824], 2891489), ([21568], 1187553), ([21312], 7898),
          ([21056], 16719606), ([20800], 16719615), ([20544], 15080960), ([20288], 13377038),
          ([20032], 14753322), ([19776], 1973790), ([19520], 2679265), ([19264], 975318),
          ([19008], 57842), ([18752], 16769535), ([18496], 16572672), ([18240], 14868746),
          ([17984], 14803238), ([17728], 14803230), ([17472], 2023710), ([17216], 2023905),
          ([16960], 2411218), ([16704], 708334), ([16448], 54015), ([16192], 16766464),
          ([15936], 16308742), ([15680], 14605858), ([15424], 14803486), ([15168], 14804510),
          ([14912], 2026209), ([14656], 2027214), ([14400], 2159338), ([14144], 456447),
          ([13888], 64000), ([13632], 16776706), ([13376], 16056094), ([13120], 14352158),
          ([12864], 14810910), ([12608], 14811105), ([12352], 2031562), ([12096], 3604454),
          ([11840], 1900543), ([11584], 131072), ([11328], 16711706), ([11072], 15728694),
          ([10816], 14024734), ([10560], 14745825), ([10304], 1966306), ([10048], 3277566),
          ([9792], 1574655), ([9536], 2560), ([9280], 3606), ([9024], 16716338),
          ([8768], 15472158), ([8512], 13769441), ([8256], 14753505), ([8000], 14754526),
          ([7744], 1976058), ([7488], 3025663), ([7232], 1322496), ([6976], 12818),
          ([6720], 16725550), ([6464], 15212257), ([6208], 13508321), ([5952], 14753498),
          ([5696], 1974006), ([5440], 1974015), ([5184], 2760192), ([4928], 1056270),
          ([4672], 7722), ([4416], 16719390), ([4160], 16703969), ([3904], 15000033),
          ([3648], 13296086), ([3392], 14803442), ([3136], 2023935), ([2880], 2023680),
          ([2624], 2547978), ([2368], 844070), ([2112], 57630), ([1856], 16769310),
          ([1600], 16441825), ([1344], 14731986), ([1088], 14798574), ([832], 14799615),
          ([576], 2020864), ([320], 2021894), ([64], 2285090)],
      next_color_id := 1 })
      [[25408], [25664], [25920], [26176], [26432]]
    = { initialEditor 800 600 with
      object_color_map :=
        [(3407926, [26432]), (1703966, [26176]), (225, [25920]), (16711906, [25664]),
          (15598334, [25408]), (13895423, [25152]), (14748160, [24896]), (14749206, [24640]),
          (1970738, [24384]), (3151390, [24128]), (1448673, [23872]), (7905, [23616]),
          (8926, [23360]), (16721658, [23104]), (15346431, [22848]), (13643264, [22592]),
          (14758418, [22336]), (1979950, [22080]), (2891489, [21824]), (1187553, [21568]),
          (7898, [21312]), (16719606, [21056]), (16719615, [20800]), (15080960, [20544]),
          (13377038, [20288]), (14753322, [20032]), (1973790, [19776]), (2679265, [19520]),
          (975318, [19264]), (57842, [19008]), (16769535, [18752]), (16572672, [18496]),
          (14868746, [18240]), (14803238, [17984]), (14803230, [17728]), (2023710, [17472]),
          (2023905, [17216]), (2411218, [16960]), (708334, [16704]), (54015, [16448]),
          (16766464, [16192]), (16308742, [15936]), (14605858, [15680]), (14803486, [15424]),
          (14804510, [15168]), (2026209, [14912]), (2027214, [14656]), (2159338, [14400]),
          (456447, [14144]), (64000, [13888]), (16776706, [13632]), (16056094, [13376]),
          (14352158, [13120]), (14810910, [12864]), (14811105, [12608]), (2031562, [12352]),
          (3604454, [12096]), (1900543, [11840]), (131072, [11584]), (16711706, [11328]),
          (15728694, [11072]), (14024734, [10816]), (14745825, [10560]), (1966306, [10304]),
          (3277566, [10048]), (1574655, [9792]), (2560, [9536]), (3606, [9280]),
          (16716338, [9024]), (15472158, [8768]), (13769441, [8512]), (14753505, [8256]),
          (14754526, [8000]), (1976058, [7744]), (3025663, [7488]), (1322496, [7232]),
          (12818, [6976]), (16725550, [6720]), (15212257, [6464]), (13508321, [6208]),
          (14753498, [5952]), (1974006, [5696]), (1974015, [5440]), (2760192, [5184]),
          (1056270, [4928]), (7722, [4672]), (16719390, [4416]), (16703969, [4160]),
          (15000033, [3904]), (13296086, [3648]), (14803442, [3392]), (2023935, [3136]),
          (2023680, [2880]), (2547978, [2624]), (844070, [2368]), (57630, [2112]),
          (16769310, [1856]), (16441825, [1600]), (14731986, [1344]), (14798574, [1088]),
          (14799615, [832]), (2020864, [576]), (2021894, [320]), (2285090, [64])],
      id_color_map :=
        [([26432], 3407926), ([26176], 1703966), ([25920], 225), ([25664], 16711906),
          ([25408], 15598334), ([25152], 13895423), ([24896], 14748160), ([24640], 14749206),
          ([24384], 1970738), ([24128], 3151390), ([23872], 1448673), ([23616], 7905),
          ([23360], 8926), ([23104], 16721658), ([22848], 15346431), ([22592], 13643264),
          ([22336], 14758418), ([22080], 1979950), ([21824], 2891489), ([21568], 1187553),
          ([21312], 7898), ([21056], 16719606), ([20800], 16719615), ([20544], 15080960),
          ([20288], 13377038), ([20032], 14753322), ([19776], 1973790), ([19520], 2679265),
          ([19264], 975318), ([19008], 57842), ([18752], 16769535), ([18496], 16572672),
          ([18240], 14868746), ([17984], 14803238), ([17728], 14803230), ([17472], 2023710),
          ([17216], 2023905), ([16960], 2411218), ([16704], 708334), ([16448], 54015),
          ([16192], 16766464), ([15936], 16308742), ([15680], 14605858), ([15424], 14803486),
          ([15168], 14804510), ([14912], 2026209), ([14656], 2027214), ([14400], 2159338),
          ([14144], 456447), ([13888], 64000), ([13632], 16776706), ([13376], 16056094),
          ([13120], 14352158), ([12864], 14810910), ([12608], 14811105), ([12352], 2031562),
          ([12096], 3604454), ([11840], 1900543), ([11584], 131072), ([11328], 16711706),
          ([11072], 15728694), ([10816], 14024734), ([10560], 14745825), ([10304], 1966306),
          ([10048], 3277566), ([9792], 1574655), ([9536], 2560), ([9280], 3606),
          ([9024], 16716338), ([8768], 15472158), ([8512], 13769441), ([8256], 14753505),
          ([8000], 14754526), ([7744], 1976058), ([7488], 3025663), ([7232], 1322496),
          ([6976], 12818), ([6720], 16725550), ([6464], 15212257), ([6208], 13508321),
          ([5952], 14753498), ([5696], 1974006), ([5440], 1974015), ([5184], 2760192),
          ([4928], 1056270), ([4672], 7722), ([4416], 16719390), ([4160], 16703969),
          ([3904], 15000033), ([3648], 13296086), ([3392], 14803442), ([3136], 2023935),
          ([2880], 2023680), ([2624], 2547978), ([2368], 844070), ([2112], 57630),
          ([1856], 16769310), ([1600], 16441825), ([1344], 14731986), ([1088], 14798574),
          ([832], 14799615), ([576], 2020864), ([320], 2021894), ([64], 2285090)],
      next_color_id := 1 } := by
  decide!

set_option maxRecDepth 200000 in
set_option maxHeartbeats 1000000 in
/-- Stage 8 of the fallback-collision run: the ids with codes
26688..27456 (step 256) advance the color maps of the retry chain to the
state below. -/
theorem colorChainStep8 :
    assignColors ({ initialEditor 800 600 with
      object_color_map :=
        [(3407926, [26432]), (1703966, [26176]), (225, [25920]), (16711906, [25664]),
          (15598334, [25408]), (13895423, [25152]), (14748160, [24896]), (14749206, [24640]),
          (1970738, [24384]), (3151390, [24128]), (1448673, [23872]), (7905, [23616]),
          (8926, [23360]), (16721658, [23104]), (15346431, [22848]), (13643264, [22592]),
          (14758418, [22336]), (1979950, [22080]), (2891489, [21824]), (1187553, [21568]),
          (7898, [21312]), (16719606, [21056]), (16719615, [20800]), (15080960, [20544]),
          (13377038, [20288]), (14753322, [20032]), (1973790, [19776]), (2679265, [19520]),
          (975318, [19264]), (57842, [19008]), (16769535, [18752]), (16572672, [18496]),
          (14868746, [18240]), (14803238, [17984]), (14803230, [17728]), (2023710, [17472]),
          (2023905, [17216]), (2411218, [16960]), (708334, [16704]), (54015, [16448]),
          (16766464, [16192]), (16308742, [15936]), (14605858, [15680]), (14803486, [15424]),
          (14804510, [15168]), (2026209, [14912]), (2027214, [14656]), (2159338, [14400]),
          (456447, [14144]), (64000, [13888]), (16776706, [13632]), (16056094, [13376]),
          (14352158, [13120]), (14810910, [12864]), (14811105, [12608]), (2031562, [12352]),
          (3604454, [12096]), (1900543, [11840]), (131072, [11584]), (16711706, [11328]),
          (15728694, [11072]), (14024734, [10816]), (14745825, [10560]), (1966306, [10304]),
          (3277566, [10048]), (1574655, [9792]), (2560, [9536]), (3606, [9280]),
          (16716338, [9024]), (15472158, [8768]), (13769441, [8512]), (14753505, [8256]),
          (14754526, [8000]), (1976058, [7744]), (3025663, [7488]), (1322496, [7232]),
          (12818, [6976]), (16725550, [6720]), (15212257, [6464]), (13508321, [6208]),
          (14753498, [5952]), (1974006, [5696]), (1974015, [5440]), (2760192, [5184]),
          (1056270, [4928]), (7722, [4672]), (16719390, [4416]), (16703969, [4160]),
          (15000033, [3904]), (13296086, [3648]), (14803442, [3392]), (2023935, [3136]),
          (2023680, [2880]), (2547978, [2624]), (844070, [2368]), (57630, [2112]),
          (16769310, [1856]), (16441825, [1600]), (14731986, [1344]), (14798574, [1088]),
          (14799615, [832]), (2020864, [576]), (2021894, [320]), (2285090, [64])],
      id_color_map :=
        [([26432], 3407926), ([26176], 1703966), ([25920], 225), ([25664], 16711906),
          ([25408], 15598334), ([25152], 13895423), ([24896], 14748160), ([24640], 14749206),
          ([24384], 1970738), ([24128], 3151390), ([23872], 1448673), ([23616], 7905),
          ([23360], 8926), ([23104], 16721658), ([22848], 15346431), ([22592], 13643264),
          ([22336], 14758418), ([22080], 1979950), ([21824], 2891489), ([21568], 1187553),
          ([21312], 7898), ([21056], 16719606), ([20800], 16719615), ([20544], 15080960),
          ([20288], 13377038), ([20032], 14753322), ([19776], 1973790), ([19520], 2679265),
          ([19264], 975318), ([19008], 57842), ([18752], 16769535), ([18496], 16572672),
          ([18240], 14868746), ([17984], 14803238), ([17728], 14803230), ([17472], 2023710),
          ([17216], 2023905), ([16960], 2411218), ([16704], 708334), ([16448], 54015),
          ([16192], 16766464), ([15936], 16308742), ([15680], 14605858), ([15424], 14803486),
          ([15168], 14804510), ([14912], 2026209), ([14656], 2027214), ([14400], 2159338),
          ([14144], 456447), ([13888], 64000), ([13632], 16776706), ([13376], 16056094),
          ([13120], 14352158), ([12864], 14810910), ([12608], 14811105), ([12352], 2031562),
          ([12096], 3604454), ([11840], 1900543), ([11584], 131072), ([11328], 16711706),
          ([11072], 15728694), ([10816], 14024734), ([10560], 14745825), ([10304], 1966306),
          ([10048], 3277566), ([9792], 1574655), ([9536], 2560), ([9280], 3606),
          ([9024], 16716338), ([8768], 15472158), ([8512], 13769441), ([8256], 14753505),
          ([8000], 14754526), ([7744], 1976058), ([7488], 3025663), ([7232], 1322496),
          ([6976], 12818), ([6720], 16725550), ([6464], 15212257), ([6208], 13508321),
          ([5952], 14753498), ([5696], 1974006), ([5440], 1974015), ([5184], 2760192),
          ([4928], 1056270), ([4672], 7722), ([4416], 16719390), ([4160], 16703969),
          ([3904], 15000033), ([3648], 13296086), ([3392], 14803442), ([3136], 2023935),
          ([2880], 2023680), ([2624], 2547978), ([2368], 844070), ([2112], 57630),
          ([1856], 16769310), ([1600], 16441825), ([1344], 14731986), ([1088], 14798574),
          ([832], 14799615), ([576], 2020864), ([320], 2021894), ([64], 2285090)],
      next_color_id := 1 })
      [[26688], [26944], [27200], [27456]]
    = { initialEditor 800 600 with
      object_color_map :=
        [(15925222, [27456]), (14221311, [27200]), (14745600, [26944]), (1966106, [26688]),
          (3407926, [26432]), (1703966, [26176]), (225, [25920]), (16711906, [25664]),
          (15598334, [25408]), (13895423, [25152]), (14748160, [24896]), (14749206, [24640]),
          (1970738, [24384]), (3151390, [24128]), (1448673, [23872]), (7905, [23616]),
          (8926, [23360]), (16721658, [23104]), (15346431, [22848]), (13643264, [22592]),
          (14758418, [22336]), (1979950, [22080]), (2891489, [21824]), (1187553, [21568]),
          (7898, [21312]), (16719606, [21056]), (16719615, [20800]), (15080960, [20544]),
          (13377038, [20288]), (14753322, [20032]), (1973790, [19776]), (2679265, [19520]),
          (975318, [19264]), (57842, [19008]), (16769535, [18752]), (16572672, [18496]),
          (14868746, [18240]), (14803238, [17984]), (14803230, [17728]), (2023710, [17472]),
          (2023905, [17216]), (2411218, [16960]), (708334, [16704]), (54015, [16448]),
          (16766464, [16192]), (16308742, [15936]), (14605858, [15680]), (14803486, [15424]),
          (14804510, [15168]), (2026209, [14912]), (2027214, [14656]), (2159338, [14400]),
          (456447, [14144]), (64000, [13888]), (16776706, [13632]), (16056094, [13376]),
          (14352158, [13120]), (14810910, [12864]), (14811105, [12608]), (2031562, [12352]),
          (3604454, [12096]), (1900543, [11840]), (131072, [11584]), (16711706, [11328]),
          (15728694, [11072]), (14024734, [10816]), (14745825, [10560]), (1966306, [10304]),
          (3277566, [10048]), (1574655, [9792]), (2560, [9536]), (3606, [9280]),
          (16716338, [9024]), (15472158, [8768]), (13769441, [8512]), (14753505, [8256]),
          (14754526, [8000]), (1976058, [7744]), (3025663, [7488]), (1322496, [7232]),
          (12818, [6976]), (16725550, [6720]), (15212257, [6464]), (13508321, [6208]),
          (14753498, [5952]), (1974006, [5696]), (1974015, [5440]), (2760192, [5184]),
          (1056270, [4928]), (7722, [4672]), (16719390, [4416]), (16703969, [4160]),
          (15000033, [3904]), (13296086, [3648]), (14803442, [3392]), (2023935, [3136]),
          (2023680, [2880]), (2547978, [2624]), (844070, [2368]), (57630, [2112]),
          (16769310, [1856]), (16441825, [1600]), (14731986, [1344]), (14798574, [1088]),
          (14799615, [832]), (2020864, [576]), (2021894, [320]), (2285090, [64])],
      id_color_map :=
        [([27456], 15925222), ([27200], 14221311), ([26944], 14745600), ([26688], 1966106),
          ([26432], 3407926), ([26176], 1703966), ([25920], 225), ([25664], 16711906),
          ([25408], 15598334), ([25152], 13895423), ([24896], 14748160), ([24640], 14749206),
          ([24384], 1970738), ([24128], 3151390), ([23872], 1448673), ([23616], 7905),
          ([23360], 8926), ([23104], 16721658), ([22848], 15346431), ([22592], 13643264),
          ([22336], 14758418), ([22080], 1979950), ([21824], 2891489), ([21568], 1187553),
          ([21312], 7898), ([21056], 16719606), ([20800], 16719615), ([20544], 15080960),
          ([20288], 13377038), ([20032], 14753322), ([19776], 1973790), ([19520], 2679265),
          ([19264], 975318), ([19008], 57842), ([18752], 16769535), ([18496], 16572672),
          ([18240], 14868746), ([17984], 14803238), ([17728], 14803230), ([17472], 2023710),
          ([17216], 2023905), ([16960], 2411218), ([16704], 708334), ([16448], 54015),
          ([16192], 16766464), ([15936], 16308742), ([15680], 14605858), ([15424], 14803486),
          ([15168], 14804510), ([14912], 2026209), ([14656], 2027214), ([14400], 2159338),
          ([14144], 456447), ([13888], 64000), ([13632], 16776706), ([13376], 16056094),
          ([13120], 14352158), ([12864], 14810910), ([12608], 14811105), ([12352], 2031562),
          ([12096], 3604454), ([11840], 1900543), ([11584], 131072), ([11328], 16711706),
          ([11072], 15728694), ([10816], 14024734), ([10560], 14745825), ([10304], 1966306),
          ([10048], 3277566), ([9792], 1574655), ([9536], 2560), ([9280], 3606),
          ([9024], 16716338), ([8768], 15472158), ([8512], 13769441), ([8256], 14753505),
          ([8000], 14754526), ([7744], 1976058), ([7488], 3025663), ([7232], 1322496),
          ([6976], 12818), ([6720], 16725550), ([6464], 15212257), ([6208], 13508321),
          ([5952], 14753498), ([5696], 1974006), ([5440], 1974015), ([5184], 2760192),
          ([4928], 1056270), ([4672], 7722), ([4416], 16719390), ([4160], 16703969),
          ([3904], 15000033), ([3648], 13296086), ([3392], 14803442), ([3136], 2023935),
          ([2880], 2023680), ([2624], 2547978), ([2368], 844070), ([2112], 57630),
          ([1856], 16769310), ([1600], 16441825), ([1344], 14731986), ([1088], 14798574),
          ([832], 14799615), ([576], 2020864), ([320], 2021894), ([64], 2285090)],
      next_color_id := 1 } := by
  decide!

set_option maxRecDepth 200000 in
set_option maxHeartbeats 1000000 in
/-- Stage 9 of the fallback-collision run: the ids with codes
27712..28480 (step 256) advance the color maps of the retry chain to the
state below. -/
theorem colorChainStep9 :
    assignColors ({ initialEditor 800 600 with
      object_color_map :=
        [(15925222, [27456]), (14221311, [27200]), (14745600, [26944]), (1966106, [26688]),
          (3407926, [26432]), (1703966, [26176]), (225, [25920]), (16711906, [25664]),
          (15598334, [25408]), (13895423, [25152]), (14748160, [24896]), (14749206, [24640]),
          (1970738, [24384]), (3151390, [24128]), (1448673, [23872]), (7905, [23616]),
          (8926, [23360]), (16721658, [23104]), (15346431, [22848]), (13643264, [22592]),
          (14758418, [22336]), (1979950, [22080]), (2891489, [21824]), (1187553, [21568]),
          (7898, [21312]), (16719606, [21056]), (16719615, [20800]), (15080960, [20544]),
          (13377038, [20288]), (14753322, [20032]), (1973790, [19776]), (2679265, [19520]),
          (975318, [19264]), (57842, [19008]), (16769535, [18752]), (16572672, [18496]),
          (14868746, [18240]), (14803238, [17984]), (14803230, [17728]), (2023710, [17472]),
          (2023905, [17216]), (2411218, [16960]), (708334, [16704]), (54015, [16448]),
          (16766464, [16192]), (16308742, [15936]), (14605858, [15680]), (14803486, [15424]),
          (14804510, [15168]), (2026209, [14912]), (2027214, [14656]), (2159338, [14400]),
          (456447, [14144]), (64000, [13888]), (16776706, [13632]), (16056094, [13376]),
          (14352158, [13120]), (14810910, [12864]), (14811105, [12608]), (2031562, [12352]),
          (3604454, [12096]), (1900543, [11840]), (131072, [11584]), (16711706, [11328]),
          (15728694, [11072]), (14024734, [10816]), (14745825, [10560]), (1966306, [10304]),
          (3277566, [10048]), (1574655, [9792]), (2560, [9536]), (3606, [9280]),
          (16716338, [9024]), (15472158, [8768]), (13769441, [8512]), (14753505, [8256]),
          (14754526, [8000]), (1976058, [7744]), (3025663, [7488]), (1322496, [7232]),
          (12818, [6976]), (16725550, [6720]), (15212257, [6464]), (13508321, [6208]),
          (14753498, [5952]), (1974006, [5696]), (1974015, [5440]), (2760192, [5184]),
          (1056270, [4928]), (7722, [4672]), (16719390, [4416]), (16703969, [4160]),
          (15000033, [3904]), (13296086, [3648]), (14803442, [3392]), (2023935, [3136]),
          (2023680, [2880]), (2547978, [2624]), (844070, [2368]), (57630, [2112]),
          (16769310, [1856]), (16441825, [1600]), (14731986, [1344]), (14798574, [1088]),
          (14799615, [832]), (2020864, [576]), (2021894, [320]), (2285090, [64])],
      id_color_map :=
        [([27456], 15925222), ([27200], 14221311), ([26944], 14745600), ([26688], 1966106),
          ([26432], 3407926), ([26176], 1703966), ([25920], 225), ([25664], 16711906),
          ([25408], 15598334), ([25152], 13895423), ([24896], 14748160), ([24640], 14749206),
          ([24384], 1970738), ([24128], 3151390), ([23872], 1448673), ([23616], 7905),
          ([23360], 8926), ([23104], 16721658), ([22848], 15346431), ([22592], 13643264),
          ([22336], 14758418), ([22080], 1979950), ([21824], 2891489), ([21568], 1187553),
          ([21312], 7898), ([21056], 16719606), ([20800], 16719615), ([20544], 15080960),
          ([20288], 13377038), ([20032], 14753322), ([19776], 1973790), ([19520], 2679265),
          ([19264], 975318), ([19008], 57842), ([18752], 16769535), ([18496], 16572672),
          ([18240], 14868746), ([17984], 14803238), ([17728], 14803230), ([17472], 2023710),
          ([17216], 2023905), ([16960], 2411218), ([16704], 708334), ([16448], 54015),
          ([16192], 16766464), ([15936], 16308742), ([15680], 14605858), ([15424], 14803486),
          ([15168], 14804510), ([14912], 2026209), ([14656], 2027214), ([14400], 2159338),
          ([14144], 456447), ([13888], 64000), ([13632], 16776706), ([13376], 16056094),
          ([13120], 14352158), ([12864], 14810910), ([12608], 14811105), ([12352], 2031562),
          ([12096], 3604454), ([11840], 1900543), ([11584], 131072), ([11328], 16711706),
          ([11072], 15728694), ([10816], 14024734), ([10560], 14745825), ([10304], 1966306),
          ([10048], 3277566), ([9792], 1574655), ([9536], 2560), ([9280], 3606),
          ([9024], 16716338), ([8768], 15472158), ([8512], 13769441), ([8256], 14753505),
          ([8000], 14754526), ([7744], 1976058), ([7488], 3025663), ([7232], 1322496),
          ([6976], 12818), ([6720], 16725550), ([6464], 15212257), ([6208], 13508321),
          ([5952], 14753498), ([5696], 1974006), ([5440], 1974015), ([5184], 2760192),
          ([4928], 1056270), ([4672], 7722), ([4416], 16719390), ([4160], 16703969),
          ([3904], 15000033), ([3648], 13296086), ([3392], 14803442), ([3136], 2023935),
          ([2880], 2023680), ([2624], 2547978), ([2368], 844070), ([2112], 57630),
          ([1856], 16769310), ([1600], 16441825), ([1344], 14731986), ([1088], 14798574),
          ([832], 14799615), ([576], 2020864), ([320], 2021894), ([64], 2285090)],
      next_color_id := 1 })
      [[27712], [27968], [28224], [28480]]
    = { initialEditor 800 600 with
      object_color_map :=
        [(2031390, [28480]), (327454, [28224]), (65505, [27968]), (16777162, [27712]),
          (15925222, [27456]), (14221311, [27200]), (14745600, [26944]), (1966106, [26688]),
          (3407926, [26432]), (1703966, [26176]), (225, [25920]), (16711906, [25664]),
          (15598334, [25408]), (13895423, [25152]), (14748160, [24896]), (14749206, [24640]),
          (1970738, [24384]), (3151390, [24128]), (1448673, [23872]), (7905, [23616]),
          (8926, [23360]), (16721658, [23104]), (15346431, [22848]), (13643264, [22592]),
          (14758418, [22336]), (1979950, [22080]), (2891489, [21824]), (1187553, [21568]),
          (7898, [21312]), (16719606, [21056]), (16719615, [20800]), (15080960, [20544]),
          (13377038, [20288]), (14753322, [20032]), (1973790, [19776]), (2679265, [19520]),
          (975318, [19264]), (57842, [19008]), (16769535, [18752]), (16572672, [18496]),
          (14868746, [18240]), (14803238, [17984]), (14803230, [17728]), (2023710, [17472]),
          (2023905, [17216]), (2411218, [16960]), (708334, [16704]), (54015, [16448]),
          (16766464, [16192]), (16308742, [15936]), (14605858, [15680]), (14803486, [15424]),
          (14804510, [15168]), (2026209, [14912]), (2027214, [14656]), (2159338, [14400]),
          (456447, [14144]), (64000, [13888]), (16776706, [13632]), (16056094, [13376]),
          (14352158, [13120]), (14810910, [12864]), (14811105, [12608]), (2031562, [12352]),
          (3604454, [12096]), (1900543, [11840]), (131072, [11584]), (16711706, [11328]),
          (15728694, [11072]), (14024734, [10816]), (14745825, [10560]), (1966306, [10304]),
          (3277566, [10048]), (1574655, [9792]), (2560, [9536]), (3606, [9280]),
          (16716338, [9024]), (15472158, [8768]), (13769441, [8512]), (14753505, [8256]),
          (14754526, [8000]), (1976058, [7744]), (3025663, [7488]), (1322496, [7232]),
          (12818, [6976]), (16725550, [6720]), (15212257, [6464]), (13508321, [6208]),
          (14753498, [5952]), (1974006, [5696]), (1974015, [5440]), (2760192, [5184]),
          (1056270, [4928]), (7722, [4672]), (16719390, [4416]), (16703969, [4160]),
          (15000033, [3904]), (13296086, [3648]), (14803442, [3392]), (2023935, [3136]),
          (2023680, [2880]), (2547978, [2624]), (844070, [2368]), (57630, [2112]),
          (16769310, [1856]), (16441825, [1600]), (14731986, [1344]), (14798574, [1088]),
          (14799615, [832]), (2020864, [576]), (2021894, [320]), (2285090, [64])],
      id_color_map :=
        [([28480], 2031390), ([28224], 327454), ([27968], 65505), ([27712], 16777162),
          ([27456], 15925222), ([27200], 14221311), ([26944], 14745600), ([26688], 1966106),
          ([26432], 3407926), ([26176], 1703966), ([25920], 225), ([25664], 16711906),
          ([25408], 15598334), ([25152], 13895423), ([24896], 14748160), ([24640], 14749206),
          ([24384], 1970738), ([24128], 3151390), ([23872], 1448673), ([23616], 7905),
          ([23360], 8926), ([23104], 16721658), ([22848], 15346431), ([22592], 13643264),
          ([22336], 14758418), ([22080], 1979950), ([21824], 2891489), ([21568], 1187553),
          ([21312], 7898), ([21056], 16719606), ([20800], 16719615), ([20544], 15080960),
          ([20288], 13377038), ([20032], 14753322), ([19776], 1973790), ([19520], 2679265),
          ([19264], 975318), ([19008], 57842), ([18752], 16769535), ([18496], 16572672),
          ([18240], 14868746), ([17984], 14803238), ([17728], 14803230), ([17472], 2023710),
          ([17216], 2023905), ([16960], 2411218), ([16704], 708334), ([16448], 54015),
          ([16192], 16766464), ([15936], 16308742), ([15680], 14605858), ([15424], 14803486),
          ([15168], 14804510), ([14912], 2026209), ([14656], 2027214), ([14400], 2159338),
          ([14144], 456447), ([13888], 64000), ([13632], 16776706), ([13376], 16056094),
          ([13120], 14352158), ([12864], 14810910), ([12608], 14811105), ([12352], 2031562),
          ([12096], 3604454), ([11840], 1900543), ([11584], 131072), ([11328], 16711706),
          ([11072], 15728694), ([10816], 14024734), ([10560], 14745825), ([10304], 1966306),
          ([10048], 3277566), ([9792], 1574655), ([9536], 2560), ([9280], 3606),
          ([9024], 16716338), ([8768], 15472158), ([8512], 13769441), ([8256], 14753505),
          ([8000], 14754526), ([7744], 1976058), ([7488], 3025663), ([7232], 1322496),
          ([6976], 12818), ([6720], 16725550), ([6464], 15212257), ([6208], 13508321),
          ([5952], 14753498), ([5696], 1974006), ([5440], 1974015), ([5184], 2760192),
          ([4928], 1056270), ([4672], 7722), ([4416], 16719390), ([4160], 16703969),
          ([3904], 15000033), ([3648], 13296086), ([3392], 14803442), ([3136], 2023935),
          ([2880], 2023680), ([2624], 2547978), ([2368], 844070), ([2112], 57630),
          ([1856], 16769310), ([1600], 16441825), ([1344], 14731986), ([1088], 14798574),
          ([832], 14799615), ([576], 2020864), ([320], 2021894), ([64], 2285090)],
      next_color_id := 1 } := by
  decide!

set_option maxRecDepth 200000 in
set_option maxHeartbeats 1000000 in
/-- Stage 10 of the fallback-collision run: the ids with codes
28736..29504 (step 256) advance the color maps of the retry chain to the
state below. -/
theorem colorChainStep10 :
    assignColors ({ initialEditor 800 600 with
      object_color_map :=
        [(2031390, [28480]), (327454, [28224]), (65505, [27968]), (16777162, [27712]),
          (15925222, [27456]), (14221311, [27200]), (14745600, [26944]), (1966106, [26688]),
          (3407926, [26432]), (1703966, [26176]), (225, [25920]), (16711906, [25664]),
          (15598334, [25408]), (13895423, [25152]), (14748160, [24896]), (14749206, [24640]),
          (1970738, [24384]), (3151390, [24128]), (1448673, [23872]), (7905, [23616]),
          (8926, [23360]), (16721658, [23104]), (15346431, [22848]), (13643264, [22592]),
          (14758418, [22336]), (1979950, [22080]), (2891489, [21824]), (1187553, [21568]),
          (7898, [21312]), (16719606, [21056]), (16719615, [20800]), (15080960, [20544]),
          (13377038, [20288]), (14753322, [20032]), (1973790, [19776]), (2679265, [19520]),
          (975318, [19264]), (57842, [19008]), (16769535, [18752]), (16572672, [18496]),
          (14868746, [18240]), (14803238, [17984]), (14803230, [17728]), (2023710, [17472]),
          (2023905, [17216]), (2411218, [16960]), (708334, [16704]), (54015, [16448]),
          (16766464, [16192]), (16308742, [15936]), (14605858, [15680]), (14803486, [15424]),
          (14804510, [15168]), (2026209, [14912]), (2027214, [14656]), (2159338, [14400]),
          (456447, [14144]), (64000, [13888]), (16776706, [13632]), (16056094, [13376]),
          (14352158, [13120]), (14810910, [12864]), (14811105, [12608]), (2031562, [12352]),
          (3604454, [12096]), (1900543, [11840]), (131072, [11584]), (16711706, [11328]),
          (15728694, [11072]), (14024734, [10816]), (14745825, [10560]), (1966306, [10304]),
          (3277566, [10048]), (1574655, [9792]), (2560, [9536]), (3606, [9280]),
          (16716338, [9024]), (15472158, [8768]), (13769441, [8512]), (14753505, [8256]),
          (14754526, [8000]), (1976058, [7744]), (3025663, [7488]), (1322496, [7232]),
          (12818, [6976]), (16725550, [6720]), (15212257, [6464]), (13508321, [6208]),
          (14753498, [5952]), (1974006, [5696]), (1974015, [5440]), (2760192, [5184]),
          (1056270, [4928]), (7722, [4672]), (16719390, [4416]), (16703969, [4160]),
          (15000033, [3904]), (13296086, [3648]), (14803442, [3392]), (2023935, [3136]),
          (2023680, [2880]), (2547978, [2624]), (844070, [2368]), (57630, [2112]),
          (16769310, [1856]), (16441825, [1600]), (14731986, [1344]), (14798574, [1088]),
          (14799615, [832]), (2020864, [576]), (2021894, [320]), (2285090, [64])],
      id_color_map :=
        [([28480], 2031390), ([28224], 327454), ([27968], 65505), ([27712], 16777162),
          ([27456], 15925222), ([27200], 14221311), ([26944], 14745600), ([26688], 1966106),
          ([26432], 3407926), ([26176], 1703966), ([25920], 225), ([25664], 16711906),
          ([25408], 15598334), ([25152], 13895423), ([24896], 14748160), ([24640], 14749206),
          ([24384], 1970738), ([24128], 3151390), ([23872], 1448673), ([23616], 7905),
          ([23360], 8926), ([23104], 16721658), ([22848], 15346431), ([22592], 13643264),
          ([22336], 14758418), ([22080], 1979950), ([21824], 2891489), ([21568], 1187553),
          ([21312], 7898), ([21056], 16719606), ([20800], 16719615), ([20544], 15080960),
          ([20288], 13377038), ([20032], 14753322), ([19776], 1973790), ([19520], 2679265),
          ([19264], 975318), ([19008], 57842), ([18752], 16769535), ([18496], 16572672),
          ([18240], 14868746), ([17984], 14803238), ([17728], 14803230), ([17472], 2023710),
          ([17216], 2023905), ([16960], 2411218), ([16704], 708334), ([16448], 54015),
          ([16192], 16766464), ([15936], 16308742), ([15680], 14605858), ([15424], 14803486),
          ([15168], 14804510), ([14912], 2026209), ([14656], 2027214), ([14400], 2159338),
          ([14144], 456447), ([13888], 64000), ([13632], 16776706), ([13376], 16056094),
          ([13120], 14352158), ([12864], 14810910), ([12608], 14811105), ([12352], 2031562),
          ([12096], 3604454), ([11840], 1900543), ([11584], 131072), ([11328], 16711706),
          ([11072], 15728694), ([10816], 14024734), ([10560], 14745825), ([10304], 1966306),
          ([10048], 3277566), ([9792], 1574655), ([9536], 2560), ([9280], 3606),
          ([9024], 16716338), ([8768], 15472158), ([8512], 13769441), ([8256], 14753505),
          ([8000], 14754526), ([7744], 1976058), ([7488], 3025663), ([7232], 1322496),
          ([6976], 12818), ([6720], 16725550), ([6464], 15212257), ([6208], 13508321),
          ([5952], 14753498), ([5696], 1974006), ([5440], 1974015), ([5184], 2760192),
          ([4928], 1056270), ([4672], 7722), ([4416], 16719390), ([4160], 16703969),
          ([3904], 15000033), ([3648], 13296086), ([3392], 14803442), ([3136], 2023935),
          ([2880], 2023680), ([2624], 2547978), ([2368], 844070), ([2112], 57630),
          ([1856], 16769310), ([1600], 16441825), ([1344], 14731986), ([1088], 14798574),
          ([832], 14799615), ([576], 2020864), ([320], 2021894), ([64], 2285090)],
      next_color_id := 1 })
      [[28736], [28992], [29248], [29504]]
    = { initialEditor 800 600 with
      object_color_map :=
        [(14480106, [29504]), (14808831, [29248]), (14809600, [28992]), (2031106, [28736]),
          (2031390, [28480]), (327454, [28224]), (65505, [27968]), (16777162, [27712]),
          (15925222, [27456]), (14221311, [27200]), (14745600, [26944]), (1966106, [26688]),
          (3407926, [26432]), (1703966, [26176]), (225, [25920]), (16711906, [25664]),
          (15598334, [25408]), (13895423, [25152]), (14748160, [24896]), (14749206, [24640]),
          (1970738, [24384]), (3151390, [24128]), (1448673, [23872]), (7905, [23616]),
          (8926, [23360]), (16721658, [23104]), (15346431, [22848]), (13643264, [22592]),
          (14758418, [22336]), (1979950, [22080]), (2891489, [21824]), (1187553, [21568]),
          (7898, [21312]), (16719606, [21056]), (16719615, [20800]), (15080960, [20544]),
          (13377038, [20288]), (14753322, [20032]), (1973790, [19776]), (2679265, [19520]),
          (975318, [19264]), (57842, [19008]), (16769535, [18752]), (16572672, [18496]),
          (14868746, [18240]), (14803238, [17984]), (14803230, [17728]), (2023710, [17472]),
          (2023905, [17216]), (2411218, [16960]), (708334, [16704]), (54015, [16448]),
          (16766464, [16192]), (16308742, [15936]), (14605858, [15680]), (14803486, [15424]),
          (14804510, [15168]), (2026209, [14912]), (2027214, [14656]), (2159338, [14400]),
          (456447, [14144]), (64000, [13888]), (16776706, [13632]), (16056094, [13376]),
          (14352158, [13120]), (14810910, [12864]), (14811105, [12608]), (2031562, [12352]),
          (3604454, [12096]), (1900543, [11840]), (131072, [11584]), (16711706, [11328]),
          (15728694, [11072]), (14024734, [10816]), (14745825, [10560]), (1966306, [10304]),
          (3277566, [10048]), (1574655, [9792]), (2560, [9536]), (3606, [9280]),
          (16716338, [9024]), (15472158, [8768]), (13769441, [8512]), (14753505, [8256]),
          (14754526, [8000]), (1976058, [7744]), (3025663, [7488]), (1322496, [7232]),
          (12818, [6976]), (16725550, [6720]), (15212257, [6464]), (13508321, [6208]),
          (14753498, [5952]), (1974006, [5696]), (1974015, [5440]), (2760192, [5184]),
          (1056270, [4928]), (7722, [4672]), (16719390, [4416]), (16703969, [4160]),
          (15000033, [3904]), (13296086, [3648]), (14803442, [3392]), (2023935, [3136]),
          (2023680, [2880]), (2547978, [2624]), (844070, [2368]), (57630, [2112]),
          (16769310, [1856]), (16441825, [1600]), (14731986, [1344]), (14798574, [1088]),
          (14799615, [832]), (2020864, [576]), (2021894, [320]), (2285090, [64])],
      id_color_map :=
        [([29504], 14480106), ([29248], 14808831), ([28992], 14809600), ([28736], 2031106),
          ([28480], 2031390), ([28224], 327454), ([27968], 65505), ([27712], 16777162),
          ([27456], 15925222), ([27200], 14221311), ([26944], 14745600), ([26688], 1966106),
          ([26432], 3407926), ([26176], 1703966), ([25920], 225), ([25664], 16711906),
          ([25408], 15598334), ([25152], 13895423), ([24896], 14748160), ([24640], 14749206),
          ([24384], 1970738), ([24128], 3151390), ([23872], 1448673), ([23616], 7905),
          ([23360], 8926), ([23104], 16721658), ([22848], 15346431), ([22592], 13643264),
          ([22336], 14758418), ([22080], 1979950), ([21824], 2891489), ([21568], 1187553),
          ([21312], 7898), ([21056], 16719606), ([20800], 16719615), ([20544], 15080960),
          ([20288], 13377038), ([20032], 14753322), ([19776], 1973790), ([19520], 2679265),
          ([19264], 975318), ([19008], 57842), ([18752], 16769535), ([18496], 16572672),
          ([18240], 14868746), ([17984], 14803238), ([17728], 14803230), ([17472], 2023710),
          ([17216], 2023905), ([16960], 2411218), ([16704], 708334), ([16448], 54015),
          ([16192], 16766464), ([15936], 16308742), ([15680], 14605858), ([15424], 14803486),
          ([15168], 14804510), ([14912], 2026209), ([14656], 2027214), ([14400], 2159338),
          ([14144], 456447), ([13888], 64000), ([13632], 16776706), ([13376], 16056094),
          ([13120], 14352158), ([12864], 14810910), ([12608], 14811105), ([12352], 2031562),
          ([12096], 3604454), ([11840], 1900543), ([11584], 131072), ([11328], 16711706),
          ([11072], 15728694), ([10816], 14024734), ([10560], 14745825), ([10304], 1966306),
          ([10048], 3277566), ([9792], 1574655), ([9536], 2560), ([9280], 3606),
          ([9024], 16716338), ([8768], 15472158), ([8512], 13769441), ([8256], 14753505),
          ([8000], 14754526), ([7744], 1976058), ([7488], 3025663), ([7232], 1322496),
          ([6976], 12818), ([6720], 16725550), ([6464], 15212257), ([6208], 13508321),
          ([5952], 14753498), ([5696], 1974006), ([5440], 1974015), ([5184], 2760192),
          ([4928], 1056270), ([4672], 7722), ([4416], 16719390), ([4160], 16703969),
          ([3904], 15000033), ([3648], 13296086), ([3392], 14803442), ([3136], 2023935),
          ([2880], 2023680), ([2624], 2547978), ([2368], 844070), ([2112], 57630),
          ([1856], 16769310), ([1600], 16441825), ([1344], 14731986), ([1088], 14798574),
          ([832], 14799615), ([576], 2020864), ([320], 2021894), ([64], 2285090)],
      next_color_id := 1 } := by
  decide!

set_option maxRecDepth 200000 in
set_option maxHeartbeats 1000000 in
/-- Stage 11 of the fallback-collision run: the ids with codes
29760..30528 (step 256) advance the color maps of the retry chain to the
state below. -/
theorem colorChainStep11 :
    assignColors ({ initialEditor 800 600 with
      object_color_map :=
        [(14480106, [29504]), (14808831, [29248]), (14809600, [28992]), (2031106, [28736]),
          (2031390, [28480]), (327454, [28224]), (65505, [27968]), (16777162, [27712]),
          (15925222, [27456]), (14221311, [27200]), (14745600, [26944]), (1966106, [26688]),
          (3407926, [26432]), (1703966, [26176]), (225, [25920]), (16711906, [25664]),
          (15598334, [25408]), (13895423, [25152]), (14748160, [24896]), (14749206, [24640]),
          (1970738, [24384]), (3151390, [24128]), (1448673, [23872]), (7905, [23616]),
          (8926, [23360]), (16721658, [23104]), (15346431, [22848]), (13643264, [22592]),
          (14758418, [22336]), (1979950, [22080]), (2891489, [21824]), (1187553, [21568]),
          (7898, [21312]), (16719606, [21056]), (16719615, [20800]), (15080960, [20544]),
          (13377038, [20288]), (14753322, [20032]), (1973790, [19776]), (2679265, [19520]),
          (975318, [19264]), (57842, [19008]), (16769535, [18752]), (16572672, [18496]),
          (14868746, [18240]), (14803238, [17984]), (14803230, [17728]), (2023710, [17472]),
          (2023905, [17216]), (2411218, [16960]), (708334, [16704]), (54015, [16448]),
          (16766464, [16192]), (16308742, [15936]), (14605858, [15680]), (14803486, [15424]),
          (14804510, [15168]), (2026209, [14912]), (2027214, [14656]), (2159338, [14400]),
          (456447, [14144]), (64000, [13888]), (16776706, [13632]), (16056094, [13376]),
          (14352158, [13120]), (14810910, [12864]), (14811105, [12608]), (2031562, [12352]),
          (3604454, [12096]), (1900543, [11840]), (131072, [11584]), (16711706, [11328]),
          (15728694, [11072]), (14024734, [10816]), (14745825, [10560]), (1966306, [10304]),
          (3277566, [10048]), (1574655, [9792]), (2560, [9536]), (3606, [9280]),
          (16716338, [9024]), (15472158, [8768]), (13769441, [8512]), (14753505, [8256]),
          (14754526, [8000]), (1976058, [7744]), (3025663, [7488]), (1322496, [7232]),
          (12818, [6976]), (16725550, [6720]), (15212257, [6464]), (13508321, [6208]),
          (14753498, [5952]), (1974006, [5696]), (1974015, [5440]), (2760192, [5184]),
          (1056270, [4928]), (7722, [4672]), (16719390, [4416]), (16703969, [4160]),
          (15000033, [3904]), (13296086, [3648]), (14803442, [3392]), (2023935, [3136]),
          (2023680, [2880]), (2547978, [2624]), (844070, [2368]), (57630, [2112]),
          (16769310, [1856]), (16441825, [1600]), (14731986, [1344]), (14798574, [1088]),
          (14799615, [832]), (2020864, [576]), (2021894, [320]), (2285090, [64])],
      id_color_map :=
        [([29504], 14480106), ([29248], 14808831), ([28992], 14809600), ([28736], 2031106),
          ([28480], 2031390), ([28224], 327454), ([27968], 65505), ([27712], 16777162),
          ([27456], 15925222), ([27200], 14221311), ([26944], 14745600), ([26688], 1966106),
          ([26432], 3407926), ([26176], 1703966), ([25920], 225), ([25664], 16711906),
          ([25408], 15598334), ([25152], 13895423), ([24896], 14748160), ([24640], 14749206),
          ([24384], 1970738), ([24128], 3151390), ([23872], 1448673), ([23616], 7905),
          ([23360], 8926), ([23104], 16721658), ([22848], 15346431), ([22592], 13643264),
          ([22336], 14758418), ([22080], 1979950), ([21824], 2891489), ([21568], 1187553),
          ([21312], 7898), ([21056], 16719606), ([20800], 16719615), ([20544], 15080960),
          ([20288], 13377038), ([20032], 14753322), ([19776], 1973790), ([19520], 2679265),
          ([19264], 975318), ([19008], 57842), ([18752], 16769535), ([18496], 16572672),
          ([18240], 14868746), ([17984], 14803238), ([17728], 14803230), ([17472], 2023710),
          ([17216], 2023905), ([16960], 2411218), ([16704], 708334), ([16448], 54015),
          ([16192], 16766464), ([15936], 16308742), ([15680], 14605858), ([15424], 14803486),
          ([15168], 14804510), ([14912], 2026209), ([14656], 2027214), ([14400], 2159338),
          ([14144], 456447), ([13888], 64000), ([13632], 16776706), ([13376], 16056094),
          ([13120], 14352158), ([12864], 14810910), ([12608], 14811105), ([12352], 2031562),
          ([12096], 3604454), ([11840], 1900543), ([11584], 131072), ([11328], 16711706),
          ([11072], 15728694), ([10816], 14024734), ([10560], 14745825), ([10304], 1966306),
          ([10048], 3277566), ([9792], 1574655), ([9536], 2560), ([9280], 3606),
          ([9024], 16716338), ([8768], 15472158), ([8512], 13769441), ([8256], 14753505),
          ([8000], 14754526), ([7744], 1976058), ([7488], 3025663), ([7232], 1322496),
          ([6976], 12818), ([6720], 16725550), ([6464], 15212257), ([6208], 13508321),
          ([5952], 14753498), ([5696], 1974006), ([5440], 1974015), ([5184], 2760192),
          ([4928], 1056270), ([4672], 7722), ([4416], 16719390), ([4160], 16703969),
          ([3904], 15000033), ([3648], 13296086), ([3392], 14803442), ([3136], 2023935),
          ([2880], 2023680), ([2624], 2547978), ([2368], 844070), ([2112], 57630),
          ([1856], 16769310), ([1600], 16441825), ([1344], 14731986), ([1088], 14798574),
          ([832], 14799615), ([576], 2020864), ([320], 2021894), ([64], 2285090)],
      next_color_id := 1 })
      [[29760], [30016], [30272], [30528]]
    = { initialEditor 800 600 with
      object_color_map :=
        [(582174, [30528]), (58910, [30272]), (16771809, [30016]), (16182990, [29760]),
          (14480106, [29504]), (14808831, [29248]), (14809600, [28992]), (2031106, [28736]),
          (2031390, [28480]), (327454, [28224]), (65505, [27968]), (16777162, [27712]),
          (15925222, [27456]), (14221311, [27200]), (14745600, [26944]), (1966106, [26688]),
          (3407926, [26432]), (1703966, [26176]), (225, [25920]), (16711906, [25664]),
          (15598334, [25408]), (13895423, [25152]), (14748160, [24896]), (14749206, [24640]),
          (1970738, [24384]), (3151390, [24128]), (1448673, [23872]), (7905, [23616]),
          (8926, [23360]), (16721658, [23104]), (15346431, [22848]), (13643264, [22592]),
          (14758418, [22336]), (1979950, [22080]), (2891489, [21824]), (1187553, [21568]),
          (7898, [21312]), (16719606, [21056]), (16719615, [20800]), (15080960, [20544]),
          (13377038, [20288]), (14753322, [20032]), (1973790, [19776]), (2679265, [19520]),
          (975318, [19264]), (57842, [19008]), (16769535, [18752]), (16572672, [18496]),
          (14868746, [18240]), (14803238, [17984]), (14803230, [17728]), (2023710, [17472]),
          (2023905, [17216]), (2411218, [16960]), (708334, [16704]), (54015, [16448]),
          (16766464, [16192]), (16308742, [15936]), (14605858, [15680]), (14803486, [15424]),
          (14804510, [15168]), (2026209, [14912]), (2027214, [14656]), (2159338, [14400]),
          (456447, [14144]), (64000, [13888]), (16776706, [13632]), (16056094, [13376]),
          (14352158, [13120]), (14810910, [12864]), (14811105, [12608]), (2031562, [12352]),
          (3604454, [12096]), (1900543, [11840]), (131072, [11584]), (16711706, [11328]),
          (15728694, [11072]), (14024734, [10816]), (14745825, [10560]), (1966306, [10304]),
          (3277566, [10048]), (1574655, [9792]), (2560, [9536]), (3606, [9280]),
          (16716338, [9024]), (15472158, [8768]), (13769441, [8512]), (14753505, [8256]),
          (14754526, [8000]), (1976058, [7744]), (3025663, [7488]), (1322496, [7232]),
          (12818, [6976]), (16725550, [6720]), (15212257, [6464]), (13508321, [6208]),
          (14753498, [5952]), (1974006, [5696]), (1974015, [5440]), (2760192, [5184]),
          (1056270, [4928]), (7722, [4672]), (16719390, [4416]), (16703969, [4160]),
          (15000033, [3904]), (13296086, [3648]), (14803442, [3392]), (2023935, [3136]),
          (2023680, [2880]), (2547978, [2624]), (844070, [2368]), (57630, [2112]),
          (16769310, [1856]), (16441825, [1600]), (14731986, [1344]), (14798574, [1088]),
          (14799615, [832]), (2020864, [576]), (2021894, [320]), (2285090, [64])],
      id_color_map :=
        [([30528], 582174), ([30272], 58910), ([30016], 16771809), ([29760], 16182990),
          ([29504], 14480106), ([29248], 14808831), ([28992], 14809600), ([28736], 2031106),
          ([28480], 2031390), ([28224], 327454), ([27968], 65505), ([27712], 16777162),
          ([27456], 15925222), ([27200], 14221311), ([26944], 14745600), ([26688], 1966106),
          ([26432], 3407926), ([26176], 1703966), ([25920], 225), ([25664], 16711906),
          ([25408], 15598334), ([25152], 13895423), ([24896], 14748160), ([24640], 14749206),
          ([24384], 1970738), ([24128], 3151390), ([23872], 1448673), ([23616], 7905),
          ([23360], 8926), ([23104], 16721658), ([22848], 15346431), ([22592], 13643264),
          ([22336], 14758418), ([22080], 1979950), ([21824], 2891489), ([21568], 1187553),
          ([21312], 7898), ([21056], 16719606), ([20800], 16719615), ([20544], 15080960),
          ([20288], 13377038), ([20032], 14753322), ([19776], 1973790), ([19520], 2679265),
          ([19264], 975318), ([19008], 57842), ([18752], 16769535), ([18496], 16572672),
          ([18240], 14868746), ([17984], 14803238), ([17728], 14803230), ([17472], 2023710),
          ([17216], 2023905), ([16960], 2411218), ([16704], 708334), ([16448], 54015),
          ([16192], 16766464), ([15936], 16308742), ([15680], 14605858), ([15424], 14803486),
          ([15168], 14804510), ([14912], 2026209), ([14656], 2027214), ([14400], 2159338),
          ([14144], 456447), ([13888], 64000), ([13632], 16776706), ([13376], 16056094),
          ([13120], 14352158), ([12864], 14810910), ([12608], 14811105), ([12352], 2031562),
          ([12096], 3604454), ([11840], 1900543), ([11584], 131072), ([11328], 16711706),
          ([11072], 15728694), ([10816], 14024734), ([10560], 14745825), ([10304], 1966306),
          ([10048], 3277566), ([9792], 1574655), ([9536], 2560), ([9280], 3606),
          ([9024], 16716338), ([8768], 15472158), ([8512], 13769441), ([8256], 14753505),
          ([8000], 14754526), ([7744], 1976058), ([7488], 3025663), ([7232], 1322496),
          ([6976], 12818), ([6720], 16725550), ([6464], 15212257), ([6208], 13508321),
          ([5952], 14753498), ([5696], 1974006), ([5440], 1974015), ([5184], 2760192),
          ([4928], 1056270), ([4672], 7722), ([4416], 16719390), ([4160], 16703969),
          ([3904], 15000033), ([3648], 13296086), ([3392], 14803442), ([3136], 2023935),
          ([2880], 2023680), ([2624], 2547978), ([2368], 844070), ([2112], 57630),
          ([1856], 16769310), ([1600], 16441825), ([1344], 14731986), ([1088], 14798574),
          ([832], 14799615), ([576], 2020864), ([320], 2021894), ([64], 2285090)],
      next_color_id := 1 } := by
  decide!

set_option maxRecDepth 200000 in
set_option maxHeartbeats 1000000 in
/-- Stage 12 of the fallback-collision run: the ids with codes
30784..30784 (step 256) advance the color maps of the retry chain to the
state below. -/
theorem colorChainStep12 :
    assignColors ({ initialEditor 800 600 with
      object_color_map :=
        [(582174, [30528]), (58910, [30272]), (16771809, [30016]), (16182990, [29760]),
          (14480106, [29504]), (14808831, [29248]), (14809600, [28992]), (2031106, [28736]),
          (2031390, [28480]), (327454, [28224]), (65505, [27968]), (16777162, [27712]),
          (15925222, [27456]), (14221311, [27200]), (14745600, [26944]), (1966106, [26688]),
          (3407926, [26432]), (1703966, [26176]), (225, [25920]), (16711906, [25664]),
          (15598334, [25408]), (13895423, [25152]), (14748160, [24896]), (14749206, [24640]),
          (1970738, [24384]), (3151390, [24128]), (1448673, [23872]), (7905, [23616]),
          (8926, [23360]), (16721658, [23104]), (15346431, [22848]), (13643264, [22592]),
          (14758418, [22336]), (1979950, [22080]), (2891489, [21824]), (1187553, [21568]),
          (7898, [21312]), (16719606, [21056]), (16719615, [20800]), (15080960, [20544]),
          (13377038, [20288]), (14753322, [20032]), (1973790, [19776]), (2679265, [19520]),
          (975318, [19264]), (57842, [19008]), (16769535, [18752]), (16572672, [18496]),
          (14868746, [18240]), (14803238, [17984]), (14803230, [17728]), (2023710, [17472]),
          (2023905, [17216]), (2411218, [16960]), (708334, [16704]), (54015, [16448]),
          (16766464, [16192]), (16308742, [15936]), (14605858, [15680]), (14803486, [15424]),
          (14804510, [15168]), (2026209, [14912]), (2027214, [14656]), (2159338, [14400]),
          (456447, [14144]), (64000, [13888]), (16776706, [13632]), (16056094, [13376]),
          (14352158, [13120]), (14810910, [12864]), (14811105, [12608]), (2031562, [12352]),
          (3604454, [12096]), (1900543, [11840]), (131072, [11584]), (16711706, [11328]),
          (15728694, [11072]), (14024734, [10816]), (14745825, [10560]), (1966306, [10304]),
          (3277566, [10048]), (1574655, [9792]), (2560, [9536]), (3606, [9280]),
          (16716338, [9024]), (15472158, [8768]), (13769441, [8512]), (14753505, [8256]),
          (14754526, [8000]), (1976058, [7744]), (3025663, [7488]), (1322496, [7232]),
          (12818, [6976]), (16725550, [6720]), (15212257, [6464]), (13508321, [6208]),
          (14753498, [5952]), (1974006, [5696]), (1974015, [5440]), (2760192, [5184]),
          (1056270, [4928]), (7722, [4672]), (16719390, [4416]), (16703969, [4160]),
          (15000033, [3904]), (13296086, [3648]), (14803442, [3392]), (2023935, [3136]),
          (2023680, [2880]), (2547978, [2624]), (844070, [2368]), (57630, [2112]),
          (16769310, [1856]), (16441825, [1600]), (14731986, [1344]), (14798574, [1088]),
          (14799615, [832]), (2020864, [576]), (2021894, [320]), (2285090, [64])],
      id_color_map :=
        [([30528], 582174), ([30272], 58910), ([30016], 16771809), ([29760], 16182990),
          ([29504], 14480106), ([29248], 14808831), ([28992], 14809600), ([28736], 2031106),
          ([28480], 2031390), ([28224], 327454), ([27968], 65505), ([27712], 16777162),
          ([27456], 15925222), ([27200], 14221311), ([26944], 14745600), ([26688], 1966106),
          ([26432], 3407926), ([26176], 1703966), ([25920], 225), ([25664], 16711906),
          ([25408], 15598334), ([25152], 13895423), ([24896], 14748160), ([24640], 14749206),
          ([24384], 1970738), ([24128], 3151390), ([23872], 1448673), ([23616], 7905),
          ([23360], 8926), ([23104], 16721658), ([22848], 15346431), ([22592], 13643264),
          ([22336], 14758418), ([22080], 1979950), ([21824], 2891489), ([21568], 1187553),
          ([21312], 7898), ([21056], 16719606), ([20800], 16719615), ([20544], 15080960),
          ([20288], 13377038), ([20032], 14753322), ([19776], 1973790), ([19520], 2679265),
          ([19264], 975318), ([19008], 57842), ([18752], 16769535), ([18496], 16572672),
          ([18240], 14868746), ([17984], 14803238), ([17728], 14803230), ([17472], 2023710),
          ([17216], 2023905), ([16960], 2411218), ([16704], 708334), ([16448], 54015),
          ([16192], 16766464), ([15936], 16308742), ([15680], 14605858), ([15424], 14803486),
          ([15168], 14804510), ([14912], 2026209), ([14656], 2027214), ([14400], 2159338),
          ([14144], 456447), ([13888], 64000), ([13632], 16776706), ([13376], 16056094),
          ([13120], 14352158), ([12864], 14810910), ([12608], 14811105), ([12352], 2031562),
          ([12096], 3604454), ([11840], 1900543), ([11584], 131072), ([11328], 16711706),
          ([11072], 15728694), ([10816], 14024734), ([10560], 14745825), ([10304], 1966306),
          ([10048], 3277566), ([9792], 1574655), ([9536], 2560), ([9280], 3606),
          ([9024], 16716338), ([8768], 15472158), ([8512], 13769441), ([8256], 14753505),
          ([8000], 14754526), ([7744], 1976058), ([7488], 3025663), ([7232], 1322496),
          ([6976], 12818), ([6720], 16725550), ([6464], 15212257), ([6208], 13508321),
          ([5952], 14753498), ([5696], 1974006), ([5440], 1974015), ([5184], 2760192),
          ([4928], 1056270), ([4672], 7722), ([4416], 16719390), ([4160], 16703969),
          ([3904], 15000033), ([3648], 13296086), ([3392], 14803442), ([3136], 2023935),
          ([2880], 2023680), ([2624], 2547978), ([2368], 844070), ([2112], 57630),
          ([1856], 16769310), ([1600], 16441825), ([1344], 14731986), ([1088], 14798574),
          ([832], 14799615), ([576], 2020864), ([320], 2021894), ([64], 2285090)],
      next_color_id := 1 })
      [[30784]]
    = { initialEditor 800 600 with
      object_color_map :=
        [(65536, [30784]), (582174, [30528]), (58910, [30272]), (16771809, [30016]),
          (16182990, [29760]), (14480106, [29504]), (14808831, [29248]), (14809600, [28992]),
          (2031106, [28736]), (2031390, [28480]), (327454, [28224]), (65505, [27968]),
          (16777162, [27712]), (15925222, [27456]), (14221311, [27200]), (14745600, [26944]),
          (1966106, [26688]), (3407926, [26432]), (1703966, [26176]), (225, [25920]),
          (16711906, [25664]), (15598334, [25408]), (13895423, [25152]), (14748160, [24896]),
          (14749206, [24640]), (1970738, [24384]), (3151390, [24128]), (1448673, [23872]),
          (7905, [23616]), (8926, [23360]), (16721658, [23104]), (15346431, [22848]),
          (13643264, [22592]), (14758418, [22336]), (1979950, [22080]), (2891489, [21824]),
          (1187553, [21568]), (7898, [21312]), (16719606, [21056]), (16719615, [20800]),
          (15080960, [20544]), (13377038, [20288]), (14753322, [20032]), (1973790, [19776]),
          (2679265, [19520]), (975318, [19264]), (57842, [19008]), (16769535, [18752]),
          (16572672, [18496]), (14868746, [18240]), (14803238, [17984]), (14803230, [17728]),
          (2023710, [17472]), (2023905, [17216]), (2411218, [16960]), (708334, [16704]),
          (54015, [16448]), (16766464, [16192]), (16308742, [15936]), (14605858, [15680]),
          (14803486, [15424]), (14804510, [15168]), (2026209, [14912]), (2027214, [14656]),
          (2159338, [14400]), (456447, [14144]), (64000, [13888]), (16776706, [13632]),
          (16056094, [13376]), (14352158, [13120]), (14810910, [12864]), (14811105, [12608]),
          (2031562, [12352]), (3604454, [12096]), (1900543, [11840]), (131072, [11584]),
          (16711706, [11328]), (15728694, [11072]), (14024734, [10816]), (14745825, [10560]),
          (1966306, [10304]), (3277566, [10048]), (1574655, [9792]), (2560, [9536]),
          (3606, [9280]), (16716338, [9024]), (15472158, [8768]), (13769441, [8512]),
          (14753505, [8256]), (14754526, [8000]), (1976058, [7744]), (3025663, [7488]),
          (1322496, [7232]), (12818, [6976]), (16725550, [6720]), (15212257, [6464]),
          (13508321, [6208]), (14753498, [5952]), (1974006, [5696]), (1974015, [5440]),
          (2760192, [5184]), (1056270, [4928]), (7722, [4672]), (16719390, [4416]),
          (16703969, [4160]), (15000033, [3904]), (13296086, [3648]), (14803442, [3392]),
          (2023935, [3136]), (2023680, [2880]), (2547978, [2624]), (844070, [2368]),
          (57630, [2112]), (16769310, [1856]), (16441825, [1600]), (14731986, [1344]),
          (14798574, [1088]), (14799615, [832]), (2020864, [576]), (2021894, [320]),
          (2285090, [64])],
      id_color_map :=
        [([30784], 65536), ([30528], 582174), ([30272], 58910), ([30016], 16771809),
          ([29760], 16182990), ([29504], 14480106), ([29248], 14808831), ([28992], 14809600),
          ([28736], 2031106), ([28480], 2031390), ([28224], 327454), ([27968], 65505),
          ([27712], 16777162), ([27456], 15925222), ([27200], 14221311), ([26944], 14745600),
          ([26688], 1966106), ([26432], 3407926), ([26176], 1703966), ([25920], 225),
          ([25664], 16711906), ([25408], 15598334), ([25152], 13895423), ([24896], 14748160),
          ([24640], 14749206), ([24384], 1970738), ([24128], 3151390), ([23872], 1448673),
          ([23616], 7905), ([23360], 8926), ([23104], 16721658), ([22848], 15346431),
          ([22592], 13643264), ([22336], 14758418), ([22080], 1979950), ([21824], 2891489),
          ([21568], 1187553), ([21312], 7898), ([21056], 16719606), ([20800], 16719615),
          ([20544], 15080960), ([20288], 13377038), ([20032], 14753322), ([19776], 1973790),
          ([19520], 2679265), ([19264], 975318), ([19008], 57842), ([18752], 16769535),
          ([18496], 16572672), ([18240], 14868746), ([17984], 14803238), ([17728], 14803230),
          ([17472], 2023710), ([17216], 2023905), ([16960], 2411218), ([16704], 708334),
          ([16448], 54015), ([16192], 16766464), ([15936], 16308742), ([15680], 14605858),
          ([15424], 14803486), ([15168], 14804510), ([14912], 2026209), ([14656], 2027214),
          ([14400], 2159338), ([14144], 456447), ([13888], 64000), ([13632], 16776706),
          ([13376], 16056094), ([13120], 14352158), ([12864], 14810910), ([12608], 14811105),
          ([12352], 2031562), ([12096], 3604454), ([11840], 1900543), ([11584], 131072),
          ([11328], 16711706), ([11072], 15728694), ([10816], 14024734), ([10560], 14745825),
          ([10304], 1966306), ([10048], 3277566), ([9792], 1574655), ([9536], 2560),
          ([9280], 3606), ([9024], 16716338), ([8768], 15472158), ([8512], 13769441),
          ([8256], 14753505), ([8000], 14754526), ([7744], 1976058), ([7488], 3025663),
          ([7232], 1322496), ([6976], 12818), ([6720], 16725550), ([6464], 15212257),
          ([6208], 13508321), ([5952], 14753498), ([5696], 1974006), ([5440], 1974015),
          ([5184], 2760192), ([4928], 1056270), ([4672], 7722), ([4416], 16719390),
          ([4160], 16703969), ([3904], 15000033), ([3648], 13296086), ([3392], 14803442),
          ([3136], 2023935), ([2880], 2023680), ([2624], 2547978), ([2368], 844070),
          ([2112], 57630), ([1856], 16769310), ([1600], 16441825), ([1344], 14731986),
          ([1088], 14798574), ([832], 14799615), ([576], 2020864), ([320], 2021894),
          ([64], 2285090)],
      next_color_id := 2 } := by
  decide!

set_option maxRecDepth 200000 in
set_option maxHeartbeats 1000000 in
/-- Stage 13 of the fallback-collision run: the ids with codes
31040..31040 (step 256) advance the color maps of the retry chain to the
state below. -/
theorem colorChainStep13 :
    assignColors ({ initialEditor 800 600 with
      object_color_map :=
        [(65536, [30784]), (582174, [30528]), (58910, [30272]), (16771809, [30016]),
          (16182990, [29760]), (14480106, [29504]), (14808831, [29248]), (14809600, [28992]),
          (2031106, [28736]), (2031390, [28480]), (327454, [28224]), (65505, [27968]),
          (16777162, [27712]), (15925222, [27456]), (14221311, [27200]), (14745600, [26944]),
          (1966106, [26688]), (3407926, [26432]), (1703966, [26176]), (225, [25920]),
          (16711906, [25664]), (15598334, [25408]), (13895423, [25152]), (14748160, [24896]),
          (14749206, [24640]), (1970738, [24384]), (3151390, [24128]), (1448673, [23872]),
          (7905, [23616]), (8926, [23360]), (16721658, [23104]), (15346431, [22848]),
          (13643264, [22592]), (14758418, [22336]), (1979950, [22080]), (2891489, [21824]),
          (1187553, [21568]), (7898, [21312]), (16719606, [21056]), (16719615, [20800]),
          (15080960, [20544]), (13377038, [20288]), (14753322, [20032]), (1973790, [19776]),
          (2679265, [19520]), (975318, [19264]), (57842, [19008]), (16769535, [18752]),
          (16572672, [18496]), (14868746, [18240]), (14803238, [17984]), (14803230, [17728]),
          (2023710, [17472]), (2023905, [17216]), (2411218, [16960]), (708334, [16704]),
          (54015, [16448]), (16766464, [16192]), (16308742, [15936]), (14605858, [15680]),
          (14803486, [15424]), (14804510, [15168]), (2026209, [14912]), (2027214, [14656]),
          (2159338, [14400]), (456447, [14144]), (64000, [13888]), (16776706, [13632]),
          (16056094, [13376]), (14352158, [13120]), (14810910, [12864]), (14811105, [12608]),
          (2031562, [12352]), (3604454, [12096]), (1900543, [11840]), (131072, [11584]),
          (16711706, [11328]), (15728694, [11072]), (14024734, [10816]), (14745825, [10560]),
          (1966306, [10304]), (3277566, [10048]), (1574655, [9792]), (2560, [9536]),
          (3606, [9280]), (16716338, [9024]), (15472158, [8768]), (13769441, [8512]),
          (14753505, [8256]), (14754526, [8000]), (1976058, [7744]), (3025663, [7488]),
          (1322496, [7232]), (12818, [6976]), (16725550, [6720]), (15212257, [6464]),
          (13508321, [6208]), (14753498, [5952]), (1974006, [5696]), (1974015, [5440]),
          (2760192, [5184]), (1056270, [4928]), (7722, [4672]), (16719390, [4416]),
          (16703969, [4160]), (15000033, [3904]), (13296086, [3648]), (14803442, [3392]),
          (2023935, [3136]), (2023680, [2880]), (2547978, [2624]), (844070, [2368]),
          (57630, [2112]), (16769310, [1856]), (16441825, [1600]), (14731986, [1344]),
          (14798574, [1088]), (14799615, [832]), (2020864, [576]), (2021894, [320]),
          (2285090, [64])],
      id_color_map :=
        [([30784], 65536), ([30528], 582174), ([30272], 58910), ([30016], 16771809),
          ([29760], 16182990), ([29504], 14480106), ([29248], 14808831), ([28992], 14809600),
          ([28736], 2031106), ([28480], 2031390), ([28224], 327454), ([27968], 65505),
          ([27712], 16777162), ([27456], 15925222), ([27200], 14221311), ([26944], 14745600),
          ([26688], 1966106), ([26432], 3407926), ([26176], 1703966), ([25920], 225),
          ([25664], 16711906), ([25408], 15598334), ([25152], 13895423), ([24896], 14748160),
          ([24640], 14749206), ([24384], 1970738), ([24128], 3151390), ([23872], 1448673),
          ([23616], 7905), ([23360], 8926), ([23104], 16721658), ([22848], 15346431),
          ([22592], 13643264), ([22336], 14758418), ([22080], 1979950), ([21824], 2891489),
          ([21568], 1187553), ([21312], 7898), ([21056], 16719606), ([20800], 16719615),
          ([20544], 15080960), ([20288], 13377038), ([20032], 14753322), ([19776], 1973790),
          ([19520], 2679265), ([19264], 975318), ([19008], 57842), ([18752], 16769535),
          ([18496], 16572672), ([18240], 14868746), ([17984], 14803238), ([17728], 14803230),
          ([17472], 2023710), ([17216], 2023905), ([16960], 2411218), ([16704], 708334),
          ([16448], 54015), ([16192], 16766464), ([15936], 16308742), ([15680], 14605858),
          ([15424], 14803486), ([15168], 14804510), ([14912], 2026209), ([14656], 2027214),
          ([14400], 2159338), ([14144], 456447), ([13888], 64000), ([13632], 16776706),
          ([13376], 16056094), ([13120], 14352158), ([12864], 14810910), ([12608], 14811105),
          ([12352], 2031562), ([12096], 3604454), ([11840], 1900543), ([11584], 131072),
          ([11328], 16711706), ([11072], 15728694), ([10816], 14024734), ([10560], 14745825),
          ([10304], 1966306), ([10048], 3277566), ([9792], 1574655), ([9536], 2560),
          ([9280], 3606), ([9024], 16716338), ([8768], 15472158), ([8512], 13769441),
          ([8256], 14753505), ([8000], 14754526), ([7744], 1976058), ([7488], 3025663),
          ([7232], 1322496), ([6976], 12818), ([6720], 16725550), ([6464], 15212257),
          ([6208], 13508321), ([5952], 14753498), ([5696], 1974006), ([5440], 1974015),
          ([5184], 2760192), ([4928], 1056270), ([4672], 7722), ([4416], 16719390),
          ([4160], 16703969), ([3904], 15000033), ([3648], 13296086), ([3392], 14803442),
          ([3136], 2023935), ([2880], 2023680), ([2624], 2547978), ([2368], 844070),
          ([2112], 57630), ([1856], 16769310), ([1600], 16441825), ([1344], 14731986),
          ([1088], 14798574), ([832], 14799615), ([576], 2020864), ([320], 2021894),
          ([64], 2285090)],
      next_color_id := 2 })
      [[31040]]
    = { initialEditor 800 600 with
      object_color_map :=
        [(131072, [31040]), (65536, [30784]), (582174, [30528]), (58910, [30272]),
          (16771809, [30016]), (16182990, [29760]), (14480106, [29504]), (14808831, [29248]),
          (14809600, [28992]), (2031106, [28736]), (2031390, [28480]), (327454, [28224]),
          (65505, [27968]), (16777162, [27712]), (15925222, [27456]), (14221311, [27200]),
          (14745600, [26944]), (1966106, [26688]), (3407926, [26432]), (1703966, [26176]),
          (225, [25920]), (16711906, [25664]), (15598334, [25408]), (13895423, [25152]),
          (14748160, [24896]), (14749206, [24640]), (1970738, [24384]), (3151390, [24128]),
          (1448673, [23872]), (7905, [23616]), (8926, [23360]), (16721658, [23104]),
          (15346431, [22848]), (13643264, [22592]), (14758418, [22336]), (1979950, [22080]),
          (2891489, [21824]), (1187553, [21568]), (7898, [21312]), (16719606, [21056]),
          (16719615, [20800]), (15080960, [20544]), (13377038, [20288]), (14753322, [20032]),
          (1973790, [19776]), (2679265, [19520]), (975318, [19264]), (57842, [19008]),
          (16769535, [18752]), (16572672, [18496]), (14868746, [18240]), (14803238, [17984]),
          (14803230, [17728]), (2023710, [17472]), (2023905, [17216]), (2411218, [16960]),
          (708334, [16704]), (54015, [16448]), (16766464, [16192]), (16308742, [15936]),
          (14605858, [15680]), (14803486, [15424]), (14804510, [15168]), (2026209, [14912]),
          (2027214, [14656]), (2159338, [14400]), (456447, [14144]), (64000, [13888]),
          (16776706, [13632]), (16056094, [13376]), (14352158, [13120]), (14810910, [12864]),
          (14811105, [12608]), (2031562, [12352]), (3604454, [12096]), (1900543, [11840]),
          (131072, [11584]), (16711706, [11328]), (15728694, [11072]), (14024734, [10816]),
          (14745825, [10560]), (1966306, [10304]), (3277566, [10048]), (1574655, [9792]),
          (2560, [9536]), (3606, [9280]), (16716338, [9024]), (15472158, [8768]),
          (13769441, [8512]), (14753505, [8256]), (14754526, [8000]), (1976058, [7744]),
          (3025663, [7488]), (1322496, [7232]), (12818, [6976]), (16725550, [6720]),
          (15212257, [6464]), (13508321, [6208]), (14753498, [5952]), (1974006, [5696]),
          (1974015, [5440]), (2760192, [5184]), (1056270, [4928]), (7722, [4672]),
          (16719390, [4416]), (16703969, [4160]), (15000033, [3904]), (13296086, [3648]),
          (14803442, [3392]), (2023935, [3136]), (2023680, [2880]), (2547978, [2624]),
          (844070, [2368]), (57630, [2112]), (16769310, [1856]), (16441825, [1600]),
          (14731986, [1344]), (14798574, [1088]), (14799615, [832]), (2020864, [576]),
          (2021894, [320]), (2285090, [64])],
      id_color_map :=
        [([31040], 131072), ([30784], 65536), ([30528], 582174), ([30272], 58910),
          ([30016], 16771809), ([29760], 16182990), ([29504], 14480106), ([29248], 14808831),
          ([28992], 14809600), ([28736], 2031106), ([28480], 2031390), ([28224], 327454),
          ([27968], 65505), ([27712], 16777162), ([27456], 15925222), ([27200], 14221311),
          ([26944], 14745600), ([26688], 1966106), ([26432], 3407926), ([26176], 1703966),
          ([25920], 225), ([25664], 16711906), ([25408], 15598334), ([25152], 13895423),
          ([24896], 14748160), ([24640], 14749206), ([24384], 1970738), ([24128], 3151390),
          ([23872], 1448673), ([23616], 7905), ([23360], 8926), ([23104], 16721658),
          ([22848], 15346431), ([22592], 13643264), ([22336], 14758418), ([22080], 1979950),
          ([21824], 2891489), ([21568], 1187553), ([21312], 7898), ([21056], 16719606),
          ([20800], 16719615), ([20544], 15080960), ([20288], 13377038), ([20032], 14753322),
          ([19776], 1973790), ([19520], 2679265), ([19264], 975318), ([19008], 57842),
          ([18752], 16769535), ([18496], 16572672), ([18240], 14868746), ([17984], 14803238),
          ([17728], 14803230), ([17472], 2023710), ([17216], 2023905), ([16960], 2411218),
          ([16704], 708334), ([16448], 54015), ([16192], 16766464), ([15936], 16308742),
          ([15680], 14605858), ([15424], 14803486), ([15168], 14804510), ([14912], 2026209),
          ([14656], 2027214), ([14400], 2159338), ([14144], 456447), ([13888], 64000),
          ([13632], 16776706), ([13376], 16056094), ([13120], 14352158), ([12864], 14810910),
          ([12608], 14811105), ([12352], 2031562), ([12096], 3604454), ([11840], 1900543),
          ([11584], 131072), ([11328], 16711706), ([11072], 15728694), ([10816], 14024734),
          ([10560], 14745825), ([10304], 1966306), ([10048], 3277566), ([9792], 1574655),
          ([9536], 2560), ([9280], 3606), ([9024], 16716338), ([8768], 15472158),
          ([8512], 13769441), ([8256], 14753505), ([8000], 14754526), ([7744], 1976058),
          ([7488], 3025663), ([7232], 1322496), ([6976], 12818), ([6720], 16725550),
          ([6464], 15212257), ([6208], 13508321), ([5952], 14753498), ([5696], 1974006),
          ([5440], 1974015), ([5184], 2760192), ([4928], 1056270), ([4672], 7722),
          ([4416], 16719390), ([4160], 16703969), ([3904], 15000033), ([3648], 13296086),
          ([3392], 14803442), ([3136], 2023935), ([2880], 2023680), ([2624], 2547978),
          ([2368], 844070), ([2112], 57630), ([1856], 16769310), ([1600], 16441825),
          ([1344], 14731986), ([1088], 14798574), ([832], 14799615), ([576], 2020864),
          ([320], 2021894), ([64], 2285090)],
      next_color_id := 3 } := by
  decide!

/-- C3 counterexample: the claim that getObjectColor assigns pairwise
distinct colors to every sequence of distinct ids is false on the code.
The 122 distinct one-character ids with codes 64, 320, ..., 31040 share
one retry chain (every channel of every salted hash color depends only
on the code mod 256); they saturate the chain's 120 distinct
non-background colors, after which each further id exhausts the
1000-attempt ceiling and takes the sequential fallback, which never
consults the assigned-color map: the second fallback returns rgb(2,0,0),
already assigned to the id with code 11584. Ids 11584 and 31040 are
distinct but share one color. -/
theorem getObjectColor_fallback_collision_counterexample :
    (lookupColorOfId (assignColors (initialEditor 800 600) collisionIds).id_color_map
        [11584]
      = lookupColorOfId (assignColors (initialEditor 800 600) collisionIds).id_color_map
        [31040])
    ∧ lookupColorOfId (assignColors (initialEditor 800 600) collisionIds).id_color_map
        [11584] = some (rgb 2 0 0)
    ∧ ([11584] : ObjId) ≠ [31040] := by
  have hall : assignColors (initialEditor 800 600) collisionIds
      = { initialEditor 800 600 with
        object_color_map :=
          [(131072, [31040]), (65536, [30784]), (582174, [30528]), (58910, [30272]),
            (16771809, [30016]), (16182990, [29760]), (14480106, [29504]), (14808831, [29248]),
            (14809600, [28992]), (2031106, [28736]), (2031390, [28480]), (327454, [28224]),
            (65505, [27968]), (16777162, [27712]), (15925222, [27456]), (14221311, [27200]),
            (14745600, [26944]), (1966106, [26688]), (3407926, [26432]), (1703966, [26176]),
            (225, [25920]), (16711906, [25664]), (15598334, [25408]), (13895423, [25152]),
            (14748160, [24896]), (14749206, [24640]), (1970738, [24384]), (3151390, [24128]),
            (1448673, [23872]), (7905, [23616]), (8926, [23360]), (16721658, [23104]),
            (15346431, [22848]), (13643264, [22592]), (14758418, [22336]), (1979950, [22080]),
            (2891489, [21824]), (1187553, [21568]), (7898, [21312]), (16719606, [21056]),
            (16719615, [20800]), (15080960, [20544]), (13377038, [20288]), (14753322, [20032]),
            (1973790, [19776]), (2679265, [19520]), (975318, [19264]), (57842, [19008]),
            (16769535, [18752]), (16572672, [18496]), (14868746, [18240]), (14803238, [17984]),
            (14803230, [17728]), (2023710, [17472]), (2023905, [17216]), (2411218, [16960]),
            (708334, [16704]), (54015, [16448]), (16766464, [16192]), (16308742, [15936]),
            (14605858, [15680]), (14803486, [15424]), (14804510, [15168]), (2026209, [14912]),
            (2027214, [14656]), (2159338, [14400]), (456447, [14144]), (64000, [13888]),
            (16776706, [13632]), (16056094, [13376]), (14352158, [13120]), (14810910, [12864]),
            (14811105, [12608]), (2031562, [12352]), (3604454, [12096]), (1900543, [11840]),
            (131072, [11584]), (16711706, [11328]), (15728694, [11072]), (14024734, [10816]),
            (14745825, [10560]), (1966306, [10304]), (3277566, [10048]), (1574655, [9792]),
            (2560, [9536]), (3606, [9280]), (16716338, [9024]), (15472158, [8768]),
            (13769441, [8512]), (14753505, [8256]), (14754526, [8000]), (1976058, [7744]),
            (3025663, [7488]), (1322496, [7232]), (12818, [6976]), (16725550, [6720]),
            (15212257, [6464]), (13508321, [6208]), (14753498, [5952]), (1974006, [5696]),
            (1974015, [5440]), (2760192, [5184]), (1056270, [4928]), (7722, [4672]),
            (16719390, [4416]), (16703969, [4160]), (15000033, [3904]), (13296086, [3648]),
            (14803442, [3392]), (2023935, [3136]), (2023680, [2880]), (2547978, [2624]),
            (844070, [2368]), (57630, [2112]), (16769310, [1856]), (16441825, [1600]),
            (14731986, [1344]), (14798574, [1088]), (14799615, [832]), (2020864, [576]),
            (2021894, [320]), (2285090, [64])],
        id_color_map :=
          [([31040], 131072), ([30784], 65536), ([30528], 582174), ([30272], 58910),
            ([30016], 16771809), ([29760], 16182990), ([29504], 14480106), ([29248], 14808831),
            ([28992], 14809600), ([28736], 2031106), ([28480], 2031390), ([28224], 327454),
            ([27968], 65505), ([27712], 16777162), ([27456], 15925222), ([27200], 14221311),
            ([26944], 14745600), ([26688], 1966106), ([26432], 3407926), ([26176], 1703966),
            ([25920], 225), ([25664], 16711906), ([25408], 15598334), ([25152], 13895423),
            ([24896], 14748160), ([24640], 14749206), ([24384], 1970738), ([24128], 3151390),
            ([23872], 1448673), ([23616], 7905), ([23360], 8926), ([23104], 16721658),
            ([22848], 15346431), ([22592], 13643264), ([22336], 14758418), ([22080], 1979950),
            ([21824], 2891489), ([21568], 1187553), ([21312], 7898), ([21056], 16719606),
            ([20800], 16719615), ([20544], 15080960), ([20288], 13377038), ([20032], 14753322),
            ([19776], 1973790), ([19520], 2679265), ([19264], 975318), ([19008], 57842),
            ([18752], 16769535), ([18496], 16572672), ([18240], 14868746), ([17984], 14803238),
            ([17728], 14803230), ([17472], 2023710), ([17216], 2023905), ([16960], 2411218),
            ([16704], 708334), ([16448], 54015), ([16192], 16766464), ([15936], 16308742),
            ([15680], 14605858), ([15424], 14803486), ([15168], 14804510), ([14912], 2026209),
            ([14656], 2027214), ([14400], 2159338), ([14144], 456447), ([13888], 64000),
            ([13632], 16776706), ([13376], 16056094), ([13120], 14352158), ([12864], 14810910),
            ([12608], 14811105), ([12352], 2031562), ([12096], 3604454), ([11840], 1900543),
            ([11584], 131072), ([11328], 16711706), ([11072], 15728694), ([10816], 14024734),
            ([10560], 14745825), ([10304], 1966306), ([10048], 3277566), ([9792], 1574655),
            ([9536], 2560), ([9280], 3606), ([9024], 16716338), ([8768], 15472158),
            ([8512], 13769441), ([8256], 14753505), ([8000], 14754526), ([7744], 1976058),
            ([7488], 3025663), ([7232], 1322496), ([6976], 12818), ([6720], 16725550),
            ([6464], 15212257), ([6208], 13508321), ([5952], 14753498), ([5696], 1974006),
            ([5440], 1974015), ([5184], 2760192), ([4928], 1056270), ([4672], 7722),
            ([4416], 16719390), ([4160], 16703969), ([3904], 15000033), ([3648], 13296086),
            ([3392], 14803442), ([3136], 2023935), ([2880], 2023680), ([2624], 2547978),
            ([2368], 844070), ([2112], 57630), ([1856], 16769310), ([1600], 16441825),
            ([1344], 14731986), ([1088], 14798574), ([832], 14799615), ([576], 2020864),
            ([320], 2021894), ([64], 2285090)],
        next_color_id := 3 } := by
    rw [show collisionIds
        = [[64], [320], [576], [832], [1088], [1344], [1600], [1856],
      [2112], [2368], [2624], [2880], [3136], [3392], [3648], [3904],
      [4160], [4416], [4672], [4928], [5184], [5440], [5696], [5952],
      [6208], [6464], [6720], [6976], [7232], [7488], [7744], [8000],
      [8256], [8512], [8768], [9024], [9280], [9536], [9792], [10048],
      [10304], [10560], [10816], [11072], [11328], [11584], [11840], [12096],
      [12352], [12608], [12864], [13120], [13376], [13632], [13888]] ++
      ([[14144], [14400], [14656], [14912], [15168], [15424], [15680], [15936],
      [16192], [16448], [16704], [16960], [17216], [17472]] ++
      ([[17728], [17984], [18240], [18496], [18752], [19008], [19264], [19520],
      [19776], [20032]] ++
      ([[20288], [20544], [20800], [21056], [21312], [21568], [21824], [22080]] ++
      ([[22336], [22592], [22848], [23104], [23360], [23616]] ++
      ([[23872], [24128], [24384], [24640], [24896], [25152]] ++
      ([[25408], [25664], [25920], [26176], [26432]] ++
      ([[26688], [26944], [27200], [27456]] ++
      ([[27712], [27968], [28224], [28480]] ++
      ([[28736], [28992], [29248], [29504]] ++
      ([[29760], [30016], [30272], [30528]] ++
      ([[30784]] ++
      ([[31040]])))))))))))) from rfl]
    rw [assignColors_append, colorChainStep1]
    rw [assignColors_append, colorChainStep2]
    rw [assignColors_append, colorChainStep3]
    rw [assignColors_append, colorChainStep4]
    rw [assignColors_append, colorChainStep5]
    rw [assignColors_append, colorChainStep6]
    rw [assignColors_append, colorChainStep7]
    rw [assignColors_append, colorChainStep8]
    rw [assignColors_append, colorChainStep9]
    rw [assignColors_append, colorChainStep10]
    rw [assignColors_append, colorChainStep11]
    rw [assignColors_append, colorChainStep12]
    exact colorChainStep13
  rw [hall]
  decide!

end DrawPlot
